import Mathlib

/-!
# Verification development for the legal-document front end

Shallow embedding of the state-handling code of the React front end
(`frontend/src`): the comment-tree merge of `CommentList.jsx`, the save,
auto-save, fetch, chat and socket handlers of `DocumentCreation.jsx`, the
comment form, the signup validator, the signature modal, the authentication
context, the lawyer connection request and the chat of the document analyzer.

Conventions of the embedding

* A JavaScript value that arrives through `JSON.parse` is a `JsVal`: the JSON
  scalars plus `undefined` (a missing field). Numbers are the integers (ids,
  version numbers); `NaN` cannot come out of `JSON.parse`.
* `===` is `strictEq`, the truthiness test of `if (x)`, `!x`, `x && y`,
  `x || y` is `truthy`.
* An event handler is a function from the values its closure captured (state,
  props) and the outcome of the requests it awaits to the list of effects it
  performs, in order. State setters are effects; `applyEffects` folds them
  into the next state.
-/

namespace LegalDocs

/-! ## JavaScript values -/

/-- JSON scalar values and `undefined`. -/
inductive JsVal where
  | undefined
  | null
  | bool (b : Bool)
  | num (n : Int)
  | str (s : String)
deriving DecidableEq, Repr

/-- The strict equality operator `===` on scalars: same type and same value. -/
def strictEq : JsVal → JsVal → Bool
  | .undefined, .undefined => true
  | .null, .null => true
  | .bool a, .bool b => a == b
  | .num a, .num b => a == b
  | .str a, .str b => a == b
  | _, _ => false

/-- Truthiness: `undefined`, `null`, `false`, `0` and `''` are falsy. -/
def truthy : JsVal → Bool
  | .undefined => false
  | .null => false
  | .bool b => b
  | .num n => n != 0
  | .str s => s != ""

/-! ## Comment tree (`Components/Comments/CommentList.jsx`) -/

/-- A comment node as delivered by the comments endpoint and by the
`new_comment` socket event. `replies` is `none` when the field is missing or
`null`, and `some rs` when it is an array. -/
inductive Comment where
  | mk (id author content timestamp parent_comment : JsVal)
       (replies : Option (List Comment))

namespace Comment

/-- Field `c.id`. -/
def id : Comment → JsVal
  | mk i _ _ _ _ _ => i

/-- Field `c.author`. -/
def author : Comment → JsVal
  | mk _ a _ _ _ _ => a

/-- Field `c.content`. -/
def content : Comment → JsVal
  | mk _ _ c _ _ _ => c

/-- Field `c.timestamp`. -/
def timestamp : Comment → JsVal
  | mk _ _ _ t _ _ => t

/-- Field `c.parent_comment`. -/
def parent_comment : Comment → JsVal
  | mk _ _ _ _ p _ => p

/-- Field `c.replies`. -/
def replies : Comment → Option (List Comment)
  | mk _ _ _ _ _ r => r

/-- The expression `c.replies || []`. -/
def repliesOrEmpty (c : Comment) : List Comment :=
  c.replies.getD []

/-- The object spread `{ ...c, replies: rs }`. -/
def withReplies : Comment → List Comment → Comment
  | mk i a c t p _, rs => mk i a c t p (some rs)

end Comment

mutual
/-- The helper `commentExists(list, id)`: `list.some(cb)`, a left-to-right scan. -/
def commentExists : List Comment → JsVal → Bool
  | [], _ => false
  | c :: rest, id => commentExistsAt c id || commentExists rest id
/-- The callback of `list.some` in `commentExists`, applied to one node. -/
def commentExistsAt : Comment → JsVal → Bool
  | Comment.mk cid _ _ _ _ replies, id =>
    if strictEq cid id then true
    else
      match replies with
      | some rs => if rs.length > 0 then commentExists rs id else false
      | none => false
end

mutual
/-- The `list.map(cb)` of `addCommentToTree`, reached once
`comment.parent_comment` is known to be truthy. -/
def addCommentToTreeMap : List Comment → Comment → List Comment
  | [], _ => []
  | c :: rest, comment =>
    addCommentToTreeAt c comment :: addCommentToTreeMap rest comment
/-- The callback of `list.map` in `addCommentToTree`, applied to one node;
the two shapes of `c.replies` (missing, or an array) are written apart. The
recursive call `addCommentToTree(c.replies, comment)` is written out: its
guard on `comment.parent_comment`, then the map. -/
def addCommentToTreeAt : Comment → Comment → Comment
  | Comment.mk cid a b t p none, comment =>
    if strictEq cid comment.parent_comment then
      Comment.mk cid a b t p (some ([] ++ [comment]))
    else Comment.mk cid a b t p none
  | Comment.mk cid a b t p (some rs), comment =>
    if strictEq cid comment.parent_comment then
      Comment.mk cid a b t p (some (rs ++ [comment]))
    else if rs.length > 0 then
      Comment.mk cid a b t p
        (some (if !truthy comment.parent_comment then rs ++ [comment]
               else addCommentToTreeMap rs comment))
    else Comment.mk cid a b t p (some rs)
end

/-- The helper `addCommentToTree(list, comment)`. -/
def addCommentToTree (list : List Comment) (comment : Comment) : List Comment :=
  if !truthy comment.parent_comment then list ++ [comment]
  else addCommentToTreeMap list comment

/-- The updater passed to `setComments` on a `new_comment` socket event:
the next comment tree from the previous one and `data.comment`. -/
def onNewComment (prevComments : List Comment) (newComment : Comment) : List Comment :=
  if commentExists prevComments newComment.id then prevComments
  else addCommentToTree prevComments newComment

/-! ### Vocabulary for statements about trees -/

mutual
/-- All nodes of a comment list, at every depth, in preorder. -/
def allNodes : List Comment → List Comment
  | [] => []
  | c :: rest => allNodesAt c ++ allNodes rest
/-- A node followed by all nodes below it. -/
def allNodesAt : Comment → List Comment
  | Comment.mk i a b t p none => [Comment.mk i a b t p none]
  | Comment.mk i a b t p (some rs) => Comment.mk i a b t p (some rs) :: allNodes rs
end

/-- The ids of all nodes of a comment list, at every depth. -/
def allIds (l : List Comment) : List JsVal :=
  (allNodes l).map Comment.id

/-- The ids of the root-level comments, in order. -/
def rootIds (l : List Comment) : List JsVal :=
  l.map Comment.id

/-- The node at a position: `[i]` is the root comment `i`, `i :: rest` is the
node at `rest` among the replies of root comment `i`. -/
def nodeAt : List Comment → List Nat → Option Comment
  | _, [] => none
  | l, [i] => l[i]?
  | l, i :: j :: rest =>
    match l[i]? with
    | some c => nodeAt c.repliesOrEmpty (j :: rest)
    | none => none

/-- A position `path` of `l` leads to a node with id `pid`, and no node
on the way to it has that id. -/
def clearPath : List Comment → List Nat → JsVal → Prop
  | _, [], _ => False
  | l, [i], pid => ∃ c, l[i]? = some c ∧ c.id = pid
  | l, i :: j :: rest, pid =>
    ∃ c, l[i]? = some c ∧ c.id ≠ pid ∧ clearPath c.repliesOrEmpty (j :: rest) pid

/-! ## Strings -/

/-- The characters removed by `String.prototype.trim` and matched by `\s`:
the ECMAScript white space and line terminator code points. -/
def isJsWhitespace (c : Char) : Bool :=
  let n := c.toNat
  n == 9 || n == 10 || n == 11 || n == 12 || n == 13 || n == 32 || n == 160 ||
  n == 5760 || (8192 ≤ n && n ≤ 8202) || n == 8232 || n == 8233 || n == 8239 ||
  n == 8287 || n == 12288 || n == 65279

/-- The call `s.trim()`. -/
def jsTrim (s : String) : String :=
  String.mk ((s.data.dropWhile isJsWhitespace).reverse.dropWhile isJsWhitespace).reverse

/-- The test `!s.trim()`: the trimmed string is empty. -/
def isBlank (s : String) : Bool :=
  (jsTrim s).data.isEmpty

/-- The value `s.length`: the number of UTF-16 code units of the string. -/
def jsLength (s : String) : Nat :=
  (s.data.map (fun c => if 65536 ≤ c.toNat then 2 else 1)).sum

/-- String conversion of a scalar inside a template literal. -/
def jsToString : JsVal → String
  | .undefined => "undefined"
  | .null => "null"
  | .bool true => "true"
  | .bool false => "false"
  | .num (Int.ofNat n) => toString n
  | .num (Int.negSucc n) => "-" ++ toString (n + 1)
  | .str s => s

/-! ## Document editor (`pages/DocumentCreation.jsx`) -/

/-- A chat message of the editor. -/
structure ChatMessage where
  sender : String
  text : String
deriving DecidableEq, Repr

/-- The `useState` cells of `DocumentCreation` that its save, auto-save and
socket handlers read or write. -/
structure EditorState where
  messages : List ChatMessage
  title : String
  chatMessage : String
  isGenerating : Bool
  finalDocument : JsVal
  currentVersion : JsVal
  originalDocumentContent : JsVal
  documentSharedWithUsers : List JsVal
deriving DecidableEq, Repr

/-- The three kinds of toast. -/
inductive ToastKind where
  | error
  | info
  | success
deriving DecidableEq, Repr

/-- What a handler of the editor does, one entry per call, in program order. -/
inductive EditorEffect where
  | toast (kind : ToastKind) (msg : String)
  | post (url : String) (title : String) (messages : List ChatMessage)
      (initial_document_content : JsVal)
  | put (url : String) (title : String) (messages : List ChatMessage)
      (new_document_content : JsVal)
  | navigate (url : String)
  | fetchConversation (idToFetch : JsVal)
  | consoleError (msg : String)
  | setMessages (updater : List ChatMessage → List ChatMessage)
  | setIsGenerating (b : Bool)
  | setFinalDocument (v : JsVal)
  | setOriginalDocumentContent (v : JsVal)
  | setTitle (v : String)
  | setChatMessage (v : String)
  | setCurrentVersion (v : JsVal)
  | setDocumentSharedWithUsers (v : List JsVal)
  | postChat (url : String) (message : String) (document_content : JsVal)
  | wsSend (type : String) (message : String) (document_content : JsVal)

/-- A write request: `axios.post` or `axios.put`. -/
def EditorEffect.isWriteRequest : EditorEffect → Bool
  | .post _ _ _ _ => true
  | .put _ _ _ _ => true
  | .postChat _ _ _ => true
  | _ => false

/-- The state after one effect: a setter writes its cell, every other entry
(toast, request, navigation, console, the call of `fetchConversation`) writes
no cell itself. -/
def applyEditorEffect (s : EditorState) : EditorEffect → EditorState
  | .setMessages f => { s with messages := f s.messages }
  | .setIsGenerating b => { s with isGenerating := b }
  | .setFinalDocument v => { s with finalDocument := v }
  | .setOriginalDocumentContent v => { s with originalDocumentContent := v }
  | .setTitle v => { s with title := v }
  | .setChatMessage v => { s with chatMessage := v }
  | .setCurrentVersion v => { s with currentVersion := v }
  | .setDocumentSharedWithUsers v => { s with documentSharedWithUsers := v }
  | _ => s

/-- The state after a list of effects. -/
def applyEditorEffects (s : EditorState) (es : List EditorEffect) : EditorState :=
  es.foldl applyEditorEffect s

/-- The handler `handleSaveConversation`, over the values its closure holds: the state
cells and the route parameter `mongoConversationId` (`undefined` or a string).
`response` is the outcome of the awaited write: `ok id` (the `data.id` of the
POST response; unused after a PUT) or `error message`. -/
def handleSaveConversation (s : EditorState) (mongoConversationId : JsVal)
    (response : Except String JsVal) : List EditorEffect :=
  if isBlank s.title then
    [.toast .error "Please provide a title for the document."]
  else if strictEq s.finalDocument s.originalDocumentContent && truthy mongoConversationId then
    [.toast .info "No changes made to save."]
  else if !truthy mongoConversationId then
    .post "/api/documents/conversations/" s.title s.messages s.finalDocument ::
      (match response with
       | .ok idToUse =>
         [.navigate ("/document-creation/" ++ jsToString idToUse),
          .toast .success "New Document created and saved as Version 0!",
          .fetchConversation idToUse,
          .setOriginalDocumentContent s.finalDocument]
       | .error message =>
         [.consoleError "Error saving document:",
          .toast .error ("Failed to save document: " ++ message)])
  else
    .put ("/api/documents/conversations/" ++ jsToString mongoConversationId ++ "/")
        s.title s.messages s.finalDocument ::
      (match response with
       | .ok _ =>
         [.toast .success "Document updated and new version saved!",
          .fetchConversation mongoConversationId,
          .setOriginalDocumentContent s.finalDocument]
       | .error message =>
         [.consoleError "Error saving document:",
          .toast .error ("Failed to save document: " ++ message)])

/-- The tiptap editor instance as far as the auto-save effect reads it. -/
structure Editor where
  isReady : Bool
deriving DecidableEq, Repr

/-- The callback handed to `setTimeout` by the auto-save effect. -/
def autoSaveTimerCallback (s : EditorState) (mongoConversationId : JsVal) (editor : Editor)
    (response : Except String JsVal) : List EditorEffect :=
  if !strictEq s.finalDocument s.originalDocumentContent && editor.isReady then
    handleSaveConversation s mongoConversationId response
  else []

/-- The debounced auto-save effect: `none` when it returns before setting a
timer, otherwise the delay in milliseconds and the timer callback. -/
def autoSaveEffect (s : EditorState) (mongoConversationId : JsVal) (editor : Option Editor) :
    Option (Nat × (Except String JsVal → List EditorEffect)) :=
  if !truthy mongoConversationId then none
  else
    match editor with
    | none => none
    | some ed => some (2000, autoSaveTimerCallback s mongoConversationId ed)

/-- The parsed socket message `data`; a field the message lacks is
`undefined`. `chunk` is the streamed text. -/
structure SocketData where
  type : JsVal
  chunk : String
  updated_document_content : JsVal
  content : JsVal
deriving DecidableEq, Repr

/-- The updater passed to `setMessages` on a `chat_stream` message. -/
def chatStreamUpdater (chunk : String) (prev : List ChatMessage) : List ChatMessage :=
  match prev.getLast? with
  | some last =>
    if last.sender = "bot" then prev.dropLast ++ [{ last with text := last.text ++ chunk }]
    else prev ++ [{ sender := "bot", text := chunk }]
  | none => prev ++ [{ sender := "bot", text := chunk }]

/-- The handler `newWs.onmessage` of the editor, over the `finalDocument` its closure
holds. -/
def onmessage (finalDocument : JsVal) (data : SocketData) : List EditorEffect :=
  if strictEq data.type (.str "chat_stream") then
    [.setMessages (chatStreamUpdater data.chunk)]
  else if strictEq data.type (.str "chat_complete") then
    .setIsGenerating false ::
      (if truthy data.updated_document_content then
        [.setFinalDocument data.updated_document_content]
       else [])
  else if strictEq data.type (.str "document_content_change") then
    if !strictEq data.content finalDocument then [.setFinalDocument data.content] else []
  else []

/-! ### Loading a conversation, sending a chat message, the socket URL -/

/-- The value of a digit of `parseInt` in a radix: `none` when the character
is not a digit of that radix. -/
def digitValue (radix : Nat) (c : Char) : Option Nat :=
  let n := c.toNat
  let v :=
    if 48 ≤ n && n ≤ 57 then n - 48
    else if 97 ≤ n && n ≤ 122 then n - 97 + 10
    else if 65 ≤ n && n ≤ 90 then n - 65 + 10
    else radix
  if v < radix then some v else none

/-- The digits of the longest prefix of a character list that `parseInt` reads
in a radix. -/
def leadingDigits (radix : Nat) : List Char → List Nat
  | [] => []
  | c :: rest =>
    match digitValue radix c with
    | some v => v :: leadingDigits radix rest
    | none => []

/-- The call `parseInt(s)` with no radix argument; `none` is `NaN`. Leading
white space is skipped, then an optional sign (codes 43 and 45), then the
prefix `0x` or `0X` (codes 48, 120, 88) selects radix 16, otherwise radix 10;
the longest run of digits is read. -/
def jsParseInt (s : String) : Option Int :=
  let t := s.data.dropWhile isJsWhitespace
  let negative := (t.head?.map (fun c => c.toNat == 45)).getD false
  let signed := (t.head?.map (fun c => c.toNat == 45 || c.toNat == 43)).getD false
  let u := if signed then t.drop 1 else t
  let hex :=
    match u with
    | a :: b :: _ => a.toNat == 48 && (b.toNat == 120 || b.toNat == 88)
    | _ => false
  let radix := if hex then 16 else 10
  let digits := leadingDigits radix (if hex then u.drop 2 else u)
  if digits.isEmpty then none
  else
    let magnitude : Int := Int.ofNat (digits.foldl (fun acc d => acc * radix + d) 0)
    some (if negative then -magnitude else magnitude)

/-- One entry of `conversation.document_versions`. -/
structure DocumentVersion where
  version_number : JsVal
  content : String
deriving DecidableEq, Repr

/-- The body of the conversation endpoint; `none` is a field that is missing
or `null`. -/
structure Conversation where
  title : Option String
  messages : Option (List ChatMessage)
  shared_with_users : Option (List JsVal)
  document_versions : Option (List DocumentVersion)
deriving DecidableEq, Repr

/-- How the awaited conversation request ends: resolved with the conversation,
or rejected with `error.response?.status` (`undefined` without a response). -/
inductive FetchOutcome where
  | resolved (conversation : Conversation)
  | rejected (status : JsVal)

/-- The helper `convertMarkdownToHtml`; `toHtml` is the conversion of the
temporary tiptap editor. -/
def convertMarkdownToHtml (toHtml : String → String) (markdownContent : String) : String :=
  if markdownContent = "" then "" else toHtml markdownContent

/-- The callback of `document_versions.find`: `v.version_number ===
parseInt(versionToLoad)`. -/
def versionMatches (versionToLoad : String) (v : DocumentVersion) : Bool :=
  match jsParseInt versionToLoad with
  | some n => strictEq v.version_number (.num n)
  | none => false

/-- The version `fetchConversation` loads from a non-empty version list whose
last element is `latest`, and whether it reports the requested version as not
found. `versionToLoad` is `queryParams.get('version')`. -/
def pickVersion (versions : List DocumentVersion) (latest : DocumentVersion)
    (versionToLoad : Option String) : Bool × DocumentVersion :=
  match versionToLoad with
  | none => (false, latest)
  | some requested =>
    if requested = "" then (false, latest)
    else
      match versions.find? (versionMatches requested) with
      | some specific => (false, specific)
      | none => (true, latest)

/-- The function `fetchConversation(idToFetch)`, with the `versionToLoad` its
closure holds. -/
def fetchConversation (idToFetch : JsVal) (versionToLoad : Option String)
    (toHtml : String → String) (outcome : FetchOutcome) : List EditorEffect :=
  if !truthy idToFetch then
    [.setTitle "", .setMessages (fun _ => []), .setFinalDocument (.str ""),
     .setCurrentVersion .null, .setOriginalDocumentContent (.str ""),
     .setDocumentSharedWithUsers []]
  else
    match outcome with
    | .resolved conversation =>
      [.setTitle (conversation.title.getD ""),
       .setMessages (fun _ => conversation.messages.getD []),
       .setDocumentSharedWithUsers (conversation.shared_with_users.getD [])] ++
      (match (conversation.document_versions.getD []).getLast? with
       | some latest =>
         let picked := pickVersion (conversation.document_versions.getD []) latest versionToLoad
         (if picked.1 then
            [.toast .error ("Version " ++ versionToLoad.getD "" ++ " not found.")]
          else []) ++
         [.setFinalDocument (.str (convertMarkdownToHtml toHtml picked.2.content)),
          .setCurrentVersion picked.2.version_number,
          .setOriginalDocumentContent (.str (convertMarkdownToHtml toHtml picked.2.content))]
       | none =>
         [.setFinalDocument (.str ""), .setCurrentVersion .null,
          .setOriginalDocumentContent (.str "")])
    | .rejected status =>
      .consoleError "Error fetching conversation:" ::
        (if strictEq status (.num 404) then
           [.toast .error "Document not found. Redirecting to My Documents.",
            .navigate "/my-documents"]
         else [.toast .error "Could not load conversation."])

/-- The handler `handleSendMessage` of the editor. `wsOpen` tells whether
`ws.current` is set; `response` is the outcome of the awaited request that
creates a conversation: `ok id` with `data.conversation_id`, or an error. -/
def DocumentCreation.handleSendMessage (s : EditorState) (mongoConversationId : JsVal)
    (wsOpen : Bool) (response : Except Unit JsVal) : List EditorEffect :=
  if isBlank s.chatMessage then []
  else if !truthy mongoConversationId then
    [.setIsGenerating true,
     .postChat "/api/documents/conversations/chat/" s.chatMessage s.finalDocument] ++
    (match response with
     | .ok conversationId =>
       [.navigate ("/document-creation/" ++ jsToString conversationId), .setChatMessage ""]
     | .error _ =>
       [.consoleError "Error creating conversation:",
        .toast .error "Failed to create document.", .setIsGenerating false])
  else if !wsOpen then []
  else
    [.setMessages (fun prev => prev ++ [{ sender := "user", text := s.chatMessage }]),
     .wsSend "chat_message" s.chatMessage s.finalDocument,
     .setChatMessage "", .setIsGenerating true]

/-- The scheme of the socket URL for a page protocol. -/
def wsProtocol (pageProtocol : String) : String :=
  if pageProtocol = "https:" then "wss:" else "ws:"

/-- The socket URL the editor builds in its connection effect. `accessToken`
is `localStorage.getItem('access_token')`. -/
def DocumentCreation.wsUrl (pageProtocol hostname : String) (mongoConversationId : JsVal)
    (accessToken : Option String) : String :=
  wsProtocol pageProtocol ++ "//" ++ hostname ++ ":8000/ws/document/" ++
    jsToString mongoConversationId ++ "/" ++
    (match accessToken with
     | some token => if token = "" then "" else "?token=" ++ token
     | none => "")

/-- The connection effect of the editor: `none` when it returns before opening
a socket, otherwise the URL it opens. -/
def DocumentCreation.wsConnect (pageProtocol hostname : String) (mongoConversationId : JsVal)
    (accessToken : Option String) : Option String :=
  if !truthy mongoConversationId then none
  else some (DocumentCreation.wsUrl pageProtocol hostname mongoConversationId accessToken)

/-- The socket URL the comment feed builds in its effect: the base URL, then
the token appended when one is stored. -/
def CommentList.wsUrl (pageProtocol hostname : String) (documentId : JsVal)
    (accessToken : Option String) : String :=
  let port := "8000"
  let wsUrl := wsProtocol pageProtocol ++ "//" ++ hostname ++ ":" ++ port ++ "/ws/document/" ++
    jsToString documentId ++ "/"
  match accessToken with
  | some token => if token = "" then wsUrl else wsUrl ++ ("?token=" ++ token)
  | none => wsUrl

/-! ## Comment form (`Components/Comments/CommentForm.jsx`) -/

/-- The `useState` cells of `CommentForm`. -/
structure CommentFormState where
  content : String
  loading : Bool
  error : Option String
deriving DecidableEq, Repr

/-- What `CommentForm.handleSubmit` does, in program order. -/
inductive CommentFormEffect where
  | preventDefault
  | setLoading (b : Bool)
  | setError (e : Option String)
  | setContent (c : String)
  | post (url : String) (document_id : JsVal) (content : String) (parent_comment : JsVal)
  | onCommentAdded
  | consoleError (msg : String)
deriving DecidableEq, Repr

/-- The state after one effect of the comment form. -/
def applyCommentFormEffect (s : CommentFormState) : CommentFormEffect → CommentFormState
  | .setLoading b => { s with loading := b }
  | .setError e => { s with error := e }
  | .setContent c => { s with content := c }
  | _ => s

/-- The state after a list of effects of the comment form. -/
def applyCommentFormEffects (s : CommentFormState) (es : List CommentFormEffect) :
    CommentFormState :=
  es.foldl applyCommentFormEffect s

namespace CommentForm

/-- The handler `handleSubmit` of `CommentForm`: `content` is the state cell, `documentId`
and `parentCommentId` the props, `hasOnCommentAdded` whether the prop
`onCommentAdded` was passed, `postOk` whether the awaited POST resolved. -/
def handleSubmit (content : String) (documentId parentCommentId : JsVal)
    (hasOnCommentAdded : Bool) (postOk : Bool) : List CommentFormEffect :=
  .preventDefault ::
    (if isBlank content then []
     else
       [.setLoading true, .setError none,
        .post ("/api/documents/" ++ jsToString documentId ++ "/comments/")
          documentId content parentCommentId] ++
       (if postOk then
          .setContent "" :: (if hasOnCommentAdded then [.onCommentAdded] else [])
        else
          [.consoleError "Error posting comment:",
           .setError (some "Failed to post comment. Please try again.")]) ++
       [.setLoading false])

end CommentForm

/-! ## Signup (`pages/Signup.jsx`) -/

/-- A JavaScript value with arrays and objects: a response body, or a value
taken out of one. An object lists its own properties in `Object.keys` order. -/
inductive JsData where
  | undefined
  | null
  | bool (b : Bool)
  | num (n : Int)
  | str (s : String)
  | arr (elems : List JsData)
  | obj (fields : List (String × JsData))

/-- A plain object built by the front end: its properties in insertion order. -/
abbrev JsObject := List (String × JsData)

/-- The assignment `o[key] = value`. -/
def objSet : JsObject → String → JsData → JsObject
  | [], key, value => [(key, value)]
  | (k, v) :: rest, key, value =>
    if k = key then (k, value) :: rest else (k, v) :: objSet rest key value

/-- The read `o[key]`; `none` when `o` has no such property. -/
def objGet : JsObject → String → Option JsData
  | [], _ => none
  | (k, v) :: rest, key => if k = key then some v else objGet rest key

namespace JsData

/-- Truthiness of a value: arrays and objects are truthy. -/
def truthy : JsData → Bool
  | .undefined => false
  | .null => false
  | .bool b => b
  | .num n => n != 0
  | .str s => s != ""
  | .arr _ => true
  | .obj _ => true

/-- The test `typeof d === 'object'` (true of `null`, arrays and objects). -/
def typeofObject : JsData → Bool
  | .null => true
  | .arr _ => true
  | .obj _ => true
  | _ => false

/-- The test `typeof d === 'string'`. -/
def typeofString : JsData → Bool
  | .str _ => true
  | _ => false

/-- The test `Array.isArray(d)`. -/
def isArray : JsData → Bool
  | .arr _ => true
  | _ => false

/-- The property read `d[key]` (also `d?.[key]`) for a key that is not an
array index: `undefined` unless `d` is an object with that property. -/
def prop : JsData → String → JsData
  | .obj fields, key => (objGet fields key).getD .undefined
  | _, _ => .undefined

/-- The own enumerable properties of a value that is truthy and of type
object, as `Object.keys(d).forEach` visits them: the indices of an array, the
properties of an object. -/
def entries : JsData → List (String × JsData)
  | .arr elems => (List.range elems.length).zip elems |>.map (fun p => (toString p.1, p.2))
  | .obj fields => fields
  | _ => []

/-- The element read `value[0]` of an array. -/
def first : JsData → JsData
  | .arr (x :: _) => x
  | _ => .undefined

end JsData

/-- The `formData` cell of `Signup`: the values of the form inputs. -/
structure SignupFormData where
  name : String
  username : String
  email : String
  password : String
  password2 : String
  phone : String
  license_number : String
  bar_council_id : String
  education : String
  experience_years : String
  law_firm : String
  specializations : String
  consultation_fee : String
  bio : String
  verification_documents : String
deriving DecidableEq, Repr

/-- A character of the class `[^\s@]`. -/
def isEmailAtom (c : Char) : Bool :=
  !isJsWhitespace c && c.toNat != 64

/-- The test `/^[^\s@]+@[^\s@]+\.[^\s@]+$/.test(s)`: a non-empty run of
`[^\s@]`, an `@` (code 64), then to the end of the string characters of
`[^\s@]` only, with a dot (code 46) that is neither the first nor the last of
them. -/
def emailRegexTest (s : String) : Bool :=
  let localPart := s.data.takeWhile isEmailAtom
  match s.data.dropWhile isEmailAtom with
  | [] => false
  | c :: rest =>
    c.toNat == 64 && !localPart.isEmpty && rest.all isEmailAtom &&
      ((rest.drop 1).dropLast.any (fun d => d.toNat == 46))

/-- A character of the class `[a-zA-Z0-9_-]`. -/
def isUsernameChar (c : Char) : Bool :=
  let n := c.toNat
  (97 ≤ n && n ≤ 122) || (65 ≤ n && n ≤ 90) || (48 ≤ n && n ≤ 57) || n == 95 || n == 45

/-- The test `/^[a-zA-Z0-9_-]+$/.test(s)`. -/
def usernameRegexTest (s : String) : Bool :=
  !s.data.isEmpty && s.data.all isUsernameChar

/-- The test `/[A-Z]/.test(s)`. -/
def hasUppercase (s : String) : Bool :=
  s.data.any (fun c => 65 ≤ c.toNat && c.toNat ≤ 90)

/-- The test `/[a-z]/.test(s)`. -/
def hasLowercase (s : String) : Bool :=
  s.data.any (fun c => 97 ≤ c.toNat && c.toNat ≤ 122)

/-- The test `/[0-9]/.test(s)`. -/
def hasDigit (s : String) : Bool :=
  s.data.any (fun c => 48 ≤ c.toNat && c.toNat ≤ 57)

/-- The code points of the validator's special-character class, in the order
the regular expression writes them: exclamation mark, at sign, hash, dollar,
percent, caret, ampersand, asterisk, the two parentheses, comma, full stop,
question mark, double quote, colon, the two braces, vertical bar, less than,
greater than, underscore, hyphen, plus, equals, the two square brackets,
backslash, semicolon, slash, backtick, tilde. -/
def specialCharCodes : List Nat :=
  [33, 64, 35, 36, 37, 94, 38, 42, 40, 41, 44, 46, 63, 34, 58, 123, 125, 124, 60, 62,
   95, 45, 43, 61, 91, 93, 92, 59, 47, 96, 126]

/-- The test of the password against the special-character class. -/
def hasSpecial (s : String) : Bool :=
  s.data.any (fun c => specialCharCodes.contains c.toNat)

/-- The array `passwordErrors` of `validateForm` after its five pushes. -/
def passwordErrors (password : String) : List String :=
  let e0 : List String := []
  let e1 := if jsLength password < 8 then e0 ++ ["at least 8 characters"] else e0
  let e2 := if !hasUppercase password then e1 ++ ["one uppercase letter"] else e1
  let e3 := if !hasLowercase password then e2 ++ ["one lowercase letter"] else e2
  let e4 := if !hasDigit password then e3 ++ ["one number"] else e3
  if !hasSpecial password then e4 ++ ["one special character"] else e4

/-- The email block of `validateForm`, writing into `newErrors`. -/
def validateEmail (newErrors : JsObject) (formData : SignupFormData) : JsObject :=
  if isBlank formData.email then objSet newErrors "email" (.str "Email is required")
  else if !emailRegexTest formData.email then
    objSet newErrors "email" (.str "Please enter a valid email address")
  else newErrors

/-- The username block of `validateForm`. -/
def validateUsername (newErrors : JsObject) (formData : SignupFormData) : JsObject :=
  if isBlank formData.username then objSet newErrors "username" (.str "Username is required")
  else if !usernameRegexTest formData.username then
    objSet newErrors "username"
      (.str "Username can only contain letters, numbers, underscores, and hyphens")
  else newErrors

/-- The password block of `validateForm`. -/
def validatePassword (newErrors : JsObject) (formData : SignupFormData) : JsObject :=
  if formData.password.data.isEmpty then
    objSet newErrors "password" (.str "Password is required")
  else if (passwordErrors formData.password).length > 0 then
    objSet newErrors "password"
      (.str ("Password must contain " ++
        String.intercalate ", " (passwordErrors formData.password)))
  else newErrors

/-- The password confirmation block of `validateForm`. -/
def validatePassword2 (newErrors : JsObject) (formData : SignupFormData) : JsObject :=
  if formData.password ≠ formData.password2 then
    objSet newErrors "password2" (.str "Passwords do not match")
  else newErrors

/-- The lawyer block of `validateForm`. -/
def validateLawyer (newErrors : JsObject) (formData : SignupFormData) (accountType : String) :
    JsObject :=
  if accountType = "lawyer" then
    let withLicense :=
      if isBlank formData.license_number then
        objSet newErrors "license_number" (.str "License Number is required for lawyers")
      else newErrors
    if isBlank formData.bar_council_id then
      objSet withLicense "bar_council_id" (.str "Bar Council ID is required for lawyers")
    else withLicense
  else newErrors

/-- The object `newErrors` that `validateForm` builds: its five blocks in
program order, starting from the empty object. -/
def validateFormErrors (formData : SignupFormData) (accountType : String) : JsObject :=
  validateLawyer
    (validatePassword2
      (validatePassword (validateUsername (validateEmail [] formData) formData) formData)
      formData)
    formData accountType

/-- What the handlers of `Signup` do, in program order. The payload of the
signup request is built from `formData` and `accountType`; the request is
recorded with these two. -/
inductive SignupEffect where
  | preventDefault
  | setErrors (errors : JsObject)
  | setLoading (b : Bool)
  | post (url : String) (formData : SignupFormData) (role : String)
  | toastSuccess (msg : JsData)
  | toastError (msg : JsData)
  | navigate (url : String) (stateEmail : JsData)
  | consoleError (msg : String)

/-- The signup request. -/
def SignupEffect.isRequest : SignupEffect → Bool
  | .post _ _ _ => true
  | _ => false

/-- The call `validateForm()`: the effect `setErrors(newErrors)` and the returned
boolean `Object.keys(newErrors).length === 0`. -/
def Signup.validateForm (formData : SignupFormData) (accountType : String) :
    List SignupEffect × Bool :=
  ([.setErrors (validateFormErrors formData accountType)],
   (validateFormErrors formData accountType).length == 0)

/-- How the awaited signup request ends: resolved with `response.data`,
rejected with a response (`error.response.data`), rejected without a response
but with `error.request`, or rejected with neither. -/
inductive SignupOutcome where
  | resolved (data : JsData)
  | rejectedWithResponse (data : JsData)
  | rejectedNoResponse
  | rejectedOther

/-- The `forEach` over `Object.keys(data)` in the `catch` of `handleSubmit`:
the object `fieldErrors` it fills. -/
def collectFieldErrors (entries : List (String × JsData)) : JsObject :=
  entries.foldl
    (fun fieldErrors kv =>
      if kv.2.isArray then objSet fieldErrors kv.1 kv.2.first
      else if kv.2.typeofString then objSet fieldErrors kv.1 kv.2
      else fieldErrors)
    []

/-- The flag `hasFieldErrors` after the same `forEach`. -/
def hasFieldErrors (entries : List (String × JsData)) : Bool :=
  entries.any (fun kv => kv.2.isArray || kv.2.typeofString)

/-- The general error message of the `catch` of `handleSubmit`. -/
def generalErrorMessage (data : JsData) : JsData :=
  if data.typeofString then data
  else if (data.prop "error").truthy then data.prop "error"
  else if (data.prop "detail").truthy then data.prop "detail"
  else .str "Signup failed. Please try again."

/-- The `catch` block of `handleSubmit` for an error with a response. -/
def handleErrorResponse (data : JsData) : List SignupEffect :=
  if data.truthy && data.typeofObject && !(data.prop "error").truthy
      && hasFieldErrors data.entries then
    [.setErrors (collectFieldErrors data.entries)]
  else [.toastError (generalErrorMessage data)]

/-- The handler `handleSubmit` of `Signup`. Reading a property of a `null` or `undefined`
`response.data` throws inside the `try`, which lands in the last branch of the
`catch`. -/
def Signup.handleSubmit (formData : SignupFormData) (accountType : String)
    (outcome : SignupOutcome) : List SignupEffect :=
  .preventDefault :: (Signup.validateForm formData accountType).1 ++
    (if !(Signup.validateForm formData accountType).2 then []
     else
       [.setLoading true, .setErrors [], .post "/api/auth/signup/" formData accountType] ++
       (match outcome with
        | .resolved .undefined =>
          [.consoleError "Signup error:",
           .toastError (.str "An unexpected error occurred. Please try again.")]
        | .resolved .null =>
          [.consoleError "Signup error:",
           .toastError (.str "An unexpected error occurred. Please try again.")]
        | .resolved data =>
          [.toastSuccess (data.prop "message"),
           if (data.prop "requires_verification").truthy then
             .navigate "/verify-otp" (data.prop "email")
           else .navigate "/login" .undefined]
        | .rejectedWithResponse data =>
          .consoleError "Signup error:" :: handleErrorResponse data
        | .rejectedNoResponse =>
          [.consoleError "Signup error:",
           .toastError
             (.str "Unable to connect to server. Please check your internet connection.")]
        | .rejectedOther =>
          [.consoleError "Signup error:",
           .toastError (.str "An unexpected error occurred. Please try again.")]) ++
       [.setLoading false])

/-! ## Signature modal (`Components/SignatureModal.jsx`) -/

/-- A `File` picked in the file input: its name, MIME type and size in bytes. -/
structure SigFile where
  name : String
  type : String
  size : Nat
deriving DecidableEq, Repr

/-- The `useState` cells of `SignatureModal`. -/
structure SignatureModalState where
  partyName : String
  signatureFile : Option SigFile
  loading : Bool
deriving DecidableEq, Repr

/-- What the handlers of `SignatureModal` do, in program order. -/
inductive SignatureEffect where
  | setPartyName (v : String)
  | setSignatureFile (f : SigFile)
  | setLoading (b : Bool)
  | toastError (msg : JsVal)
  | toastSuccess (msg : String)
  | post (url : String) (signature : SigFile)
  | onSignatureAdded (signatureMarkdown : String) (partyName : String)
  | onClose
  | consoleError (msg : String)
deriving DecidableEq, Repr

/-- The MIME types `handleFileChange` accepts. -/
def allowedSignatureTypes : List String :=
  ["image/png", "image/jpeg", "image/jpg", "image/webp"]

/-- The handler `handleFileChange`: `file` is `e.target.files?.[0]`. -/
def handleFileChange (file : Option SigFile) : List SignatureEffect :=
  match file with
  | some f =>
    if allowedSignatureTypes.contains f.type then [.setSignatureFile f]
    else [.toastError (.str "Please select a PNG, JPG, or WEBP image.")]
  | none => [.toastError (.str "Please select a PNG, JPG, or WEBP image.")]

/-- The handler `handleAddSignature`, over the cells its closure holds. `response` is the
outcome of the awaited upload: `ok url` with `res.data?.url`, or `error e`
with `error.response?.data?.error`. -/
def handleAddSignature (s : SignatureModalState) (response : Except JsVal JsVal) :
    List SignatureEffect :=
  match s.signatureFile with
  | none => [.toastError (.str "Please provide a party name and a signature image.")]
  | some file =>
    if isBlank s.partyName then
      [.toastError (.str "Please provide a party name and a signature image.")]
    else
      [.setLoading true, .post "api/utils/upload-signature/" file] ++
      (match response with
       | .ok url =>
         if !truthy url then
           [.toastError (.str "Upload failed. No URL returned."), .setLoading false]
         else
           [.onSignatureAdded
              ("![Signature for " ++ s.partyName ++ "](" ++ jsToString url ++ ")") s.partyName,
            .toastSuccess "Signature uploaded successfully!", .onClose]
       | .error e =>
         [.consoleError "Signature upload error:",
          .toastError (if truthy e then e else .str "Failed to upload signature.")]) ++
      [.setLoading false]

/-- The state after one effect of the signature modal. -/
def applySignatureEffect (s : SignatureModalState) : SignatureEffect → SignatureModalState
  | .setPartyName v => { s with partyName := v }
  | .setSignatureFile f => { s with signatureFile := some f }
  | .setLoading b => { s with loading := b }
  | _ => s

/-- The events of the modal: a change of the file input, typing in the party
name input, a click on the add button with the outcome of its upload. -/
inductive SignatureEvent where
  | fileChange (file : Option SigFile)
  | partyNameChange (v : String)
  | addSignature (response : Except JsVal JsVal)

/-- The effects of one event in a state. -/
def signatureEventEffects (s : SignatureModalState) : SignatureEvent → List SignatureEffect
  | .fileChange file => handleFileChange file
  | .partyNameChange v => [.setPartyName v]
  | .addSignature response => handleAddSignature s response

/-- The initial cells of the modal. -/
def SignatureModalState.init : SignatureModalState :=
  { partyName := "", signatureFile := none, loading := false }

/-- Run a sequence of events from a state: the final state and every effect
performed on the way, in order. -/
def runSignatureModal (s : SignatureModalState) :
    List SignatureEvent → SignatureModalState × List SignatureEffect
  | [] => (s, [])
  | ev :: rest =>
    let es := signatureEventEffects s ev
    let r := runSignatureModal (es.foldl applySignatureEffect s) rest
    (r.1, es ++ r.2)

/-! ## Authentication context (`context/AuthContext.jsx`) -/

mutual
/-- The string conversion `String(d)`, which `localStorage.setItem` and a
template literal apply to a value. -/
def JsData.toJsString : JsData → String
  | .undefined => "undefined"
  | .null => "null"
  | .bool true => "true"
  | .bool false => "false"
  | .num n => jsToString (.num n)
  | .str s => s
  | .arr elems => String.intercalate "," (JsData.elemStrings elems)
  | .obj _ => "[object Object]"
/-- The strings `Array.prototype.join` puts between the commas: the empty
string for `null` and `undefined`, the string conversion for the rest. -/
def JsData.elemStrings : List JsData → List String
  | [] => []
  | .undefined :: rest => "" :: JsData.elemStrings rest
  | .null :: rest => "" :: JsData.elemStrings rest
  | x :: rest => JsData.toJsString x :: JsData.elemStrings rest
end

/-- The test `d === s` against a string literal. -/
def JsData.isStr : JsData → String → Bool
  | .str t, s => t == s
  | _, _ => false

/-- The browser's `localStorage`: its keys with their string values. -/
abbrev LocalStorage := List (String × String)

namespace LocalStorage

/-- The call `localStorage.getItem(key)`; `none` is `null`. -/
def getItem : LocalStorage → String → Option String
  | [], _ => none
  | (k, v) :: rest, key => if k = key then some v else getItem rest key

/-- The call `localStorage.removeItem(key)`. -/
def removeItem (st : LocalStorage) (key : String) : LocalStorage :=
  st.filter (fun kv => kv.1 != key)

/-- The call `localStorage.setItem(key, value)`. -/
def setItem : LocalStorage → String → String → LocalStorage
  | [], key, value => [(key, value)]
  | (k, v) :: rest, key, value =>
    if k = key then (k, value) :: rest else (k, v) :: setItem rest key value

end LocalStorage

/-- The `useState` cells of `AuthProvider`, and the local storage it reads and
writes. -/
structure AuthState where
  user : JsData
  isAuthenticated : Bool
  loading : Bool
  localStorage : LocalStorage

/-- What `loadUser`, `login` and `logout` do, in program order. -/
inductive AuthEffect where
  | setLoading (b : Bool)
  | setUser (u : JsData)
  | setIsAuthenticated (b : Bool)
  | removeItem (key : String)
  | setItem (key : String) (value : JsData)
  | getProfile (url : String) (authorization : String)
  | postLogin (url : String) (email password : String)
  | postLogout (url : String) (refresh : String)
  | toastSuccess (msg : JsData)
  | toastError (msg : JsData)
  | navigate (url : String) (stateEmail : JsData)
  | consoleError (msg : String)

/-- A request to the backend. -/
def AuthEffect.isRequest : AuthEffect → Bool
  | .getProfile _ _ => true
  | .postLogin _ _ _ => true
  | .postLogout _ _ => true
  | _ => false

/-- A write to local storage. -/
def AuthEffect.isSetItem : AuthEffect → Bool
  | .setItem _ _ => true
  | _ => false

/-- An effect that writes neither local storage nor `user` nor
`isAuthenticated`. -/
def AuthEffect.keepsSession : AuthEffect → Bool
  | .setUser _ => false
  | .setIsAuthenticated _ => false
  | .removeItem _ => false
  | .setItem _ _ => false
  | _ => true

/-- The state after one effect of the authentication context. -/
def applyAuthEffect (s : AuthState) : AuthEffect → AuthState
  | .setLoading b => { s with loading := b }
  | .setUser u => { s with user := u }
  | .setIsAuthenticated b => { s with isAuthenticated := b }
  | .removeItem key => { s with localStorage := s.localStorage.removeItem key }
  | .setItem key value =>
    { s with localStorage := s.localStorage.setItem key value.toJsString }
  | _ => s

/-- The state after a list of effects of the authentication context. -/
def applyAuthEffects (s : AuthState) (es : List AuthEffect) : AuthState :=
  es.foldl applyAuthEffect s

/-- The function `loadUser` of the start-up effect: `storage` is the local
storage it reads, `response` the outcome of the awaited profile request
(`ok data` with `response.data`, or an error). -/
def loadUser (storage : LocalStorage) (response : Except Unit JsData) : List AuthEffect :=
  match storage.getItem "access_token" with
  | none => []
  | some accessToken =>
    if accessToken = "" then []
    else
      [.setLoading true, .getProfile "/api/auth/profile/" ("Bearer " ++ accessToken)] ++
      (match response with
       | .ok data => [.setUser data, .setIsAuthenticated true]
       | .error _ =>
         [.consoleError "Failed to load user profile:",
          .removeItem "access_token", .removeItem "refresh_token",
          .setUser .null, .setIsAuthenticated false]) ++
      [.setLoading false]

/-- How the awaited login request ends: resolved with `response.data`,
rejected with a response (`error.response.data`), rejected without a response
but with `error.request`, or rejected with neither. -/
inductive LoginOutcome where
  | resolved (data : JsData)
  | rejectedWithResponse (data : JsData)
  | rejectedNoResponse
  | rejectedOther

/-- The `errorMessage` of the `catch` of `login` for an error with a
response. -/
def loginErrorMessage (data : JsData) : JsData :=
  if data.typeofString then data
  else if (data.prop "error").truthy then data.prop "error"
  else if (data.prop "detail").truthy then data.prop "detail"
  else if data.truthy && data.typeofObject then
    match data.entries.head? with
    | some (_, firstVal) =>
      if firstVal.isArray then firstVal.first
      else if firstVal.typeofString then firstVal
      else .str "Login failed. Please try again."
    | none => .str "Login failed. Please try again."
  else .str "Login failed. Please try again."

/-- The route `login` navigates to after a successful login. -/
def loginRedirect (userData redirect : JsData) : String :=
  if (userData.prop "role").isStr "lawyer" &&
      !(userData.prop "lawyer_verification_status").isStr "approved" then
    "/lawyer-dashboard"
  else if redirect.truthy then
    "/" ++ (if redirect.isStr "home" then "" else redirect.toJsString)
  else "/"

/-- The function `login(email, password)`: its effects and the boolean it
returns. Destructuring a `null` or `undefined` `response.data` throws inside
the `try`, which lands in the last branch of the `catch`. -/
def login (email password : String) (outcome : LoginOutcome) : List AuthEffect × Bool :=
  if email = "" || password = "" then
    ([.setLoading true, .toastError (.str "Please provide both email and password."),
      .setLoading false], false)
  else
    match outcome with
    | .resolved .undefined =>
      ([.setLoading true, .postLogin "/api/auth/login/" email password,
        .consoleError "Login failed:",
        .toastError (.str "An unexpected error occurred. Please try again."),
        .setLoading false], false)
    | .resolved .null =>
      ([.setLoading true, .postLogin "/api/auth/login/" email password,
        .consoleError "Login failed:",
        .toastError (.str "An unexpected error occurred. Please try again."),
        .setLoading false], false)
    | .resolved data =>
      if (data.prop "requires_verification").truthy then
        ([.setLoading true, .postLogin "/api/auth/login/" email password,
          .toastSuccess (data.prop "message"),
          .navigate "/verify-otp" (data.prop "email"),
          .setLoading false], false)
      else if !(data.prop "tokens").truthy || !((data.prop "tokens").prop "access").truthy
          || !((data.prop "tokens").prop "refresh").truthy then
        ([.setLoading true, .postLogin "/api/auth/login/" email password,
          .toastError (.str "Invalid response from server. Please try again."),
          .setLoading false], false)
      else
        ([.setLoading true, .postLogin "/api/auth/login/" email password,
          .setItem "access_token" ((data.prop "tokens").prop "access"),
          .setItem "refresh_token" ((data.prop "tokens").prop "refresh"),
          .setUser (data.prop "user"),
          .setIsAuthenticated true,
          .toastSuccess (.str "Login successful!"),
          .navigate (loginRedirect (data.prop "user") (data.prop "redirect")) .undefined,
          .setLoading false], true)
    | .rejectedWithResponse data =>
      ([.setLoading true, .postLogin "/api/auth/login/" email password,
        .consoleError "Login failed:",
        .toastError (loginErrorMessage data),
        .setLoading false], false)
    | .rejectedNoResponse =>
      ([.setLoading true, .postLogin "/api/auth/login/" email password,
        .consoleError "Login failed:",
        .toastError
          (.str "Unable to connect to server. Please check your internet connection."),
        .setLoading false], false)
    | .rejectedOther =>
      ([.setLoading true, .postLogin "/api/auth/login/" email password,
        .consoleError "Login failed:",
        .toastError (.str "An unexpected error occurred. Please try again."),
        .setLoading false], false)

/-- The function `logout`: `storage` is the local storage it reads, `postOk`
whether the awaited logout request resolved. -/
def logout (storage : LocalStorage) (postOk : Bool) : List AuthEffect :=
  [.setLoading true] ++
  (match storage.getItem "refresh_token" with
   | none => []
   | some refreshToken =>
     if refreshToken = "" then []
     else
       .postLogout "/api/auth/logout/" refreshToken ::
         (if postOk then [] else [.consoleError "Logout failed:"])) ++
  [.removeItem "access_token", .removeItem "refresh_token",
   .setUser .null, .setIsAuthenticated false,
   .toastSuccess (.str "Logged out successfully!"),
   .navigate "/login" .undefined,
   .setLoading false]

/-! ## Lawyer connection request (`pages/LawyerConnect.jsx`, `pages/LawyerProfile.jsx`) -/

/-- What `handleConnect` does, in program order. -/
inductive ConnectEffect where
  | toastError (msg : JsData)
  | toastSuccess (msg : JsData)
  | post (url : String) (message : String) (preferred_contact_method : String)
      (preferred_contact_value : JsData) (preferred_time : String)
  | consoleError (msg : String)
  | setIsModalOpen (b : Bool)

/-- The connection request. -/
def ConnectEffect.isRequest : ConnectEffect → Bool
  | .post _ _ _ _ _ => true
  | _ => false

/-- How the awaited connection request ends: resolved with `response.data`, or
rejected with `err.response?.data?.error`. -/
inductive ConnectOutcome where
  | resolved (data : JsData)
  | rejected (responseError : JsData)

/-- The body of `handleConnect`, which the two pages share word for word.
`lawyerUserId` is `selectedLawyer?.user?.id` (or `profileData?.user?.id`),
`userEmail` is `user?.email`, and `toIso` is the date parser: `none` when
`new Date(preferredTime)` is an invalid date, otherwise its `toISOString()`.
Reading `message` of a `null` or `undefined` `response.data` throws inside the
`try`, which lands in the `catch`. -/
def handleConnectBody (lawyerUserId : JsVal) (userEmail : JsData)
    (toIso : String → Option String) (message preferredContact preferredTime : String)
    (outcome : ConnectOutcome) : List ConnectEffect :=
  if !truthy lawyerUserId then []
  else if message = "" || preferredContact = "" || preferredTime = "" then
    [.toastError (.str "Please fill out all fields.")]
  else
    match toIso preferredTime with
    | none => [.toastError (.str "Please provide a valid consultation time.")]
    | some preferredTimeIso =>
      .post ("api/lawyer/" ++ jsToString lawyerUserId ++ "/connect/")
          (if message = "" then "" else message)
          (if preferredContact.data.any (fun c => c.toNat == 64) then "email" else "phone")
          (if preferredContact ≠ "" then .str preferredContact
           else if userEmail.truthy then userEmail else .str "")
          preferredTimeIso ::
        (match outcome with
         | .resolved .undefined =>
           [.consoleError "Failed to connect with lawyer:",
            .toastError (.str "Unable to send connection request.")]
         | .resolved .null =>
           [.consoleError "Failed to connect with lawyer:",
            .toastError (.str "Unable to send connection request.")]
         | .resolved data =>
           [if (data.prop "message").truthy then .toastSuccess (data.prop "message")
            else .toastSuccess (.str "Connection request sent!")]
         | .rejected responseError =>
           [.consoleError "Failed to connect with lawyer:",
            .toastError (if responseError.truthy then responseError
                         else .str "Unable to send connection request.")]) ++
        [.setIsModalOpen false]

/-- The handler `handleConnect` of `LawyerConnect`, over the selected lawyer's
user id. -/
def LawyerConnect.handleConnect (selectedLawyerUserId : JsVal) (userEmail : JsData)
    (toIso : String → Option String) (message preferredContact preferredTime : String)
    (outcome : ConnectOutcome) : List ConnectEffect :=
  handleConnectBody selectedLawyerUserId userEmail toIso message preferredContact
    preferredTime outcome

/-- The handler `handleConnect` of `LawyerProfile`, over the user id of the
profile shown. -/
def LawyerProfile.handleConnect (profileUserId : JsVal) (userEmail : JsData)
    (toIso : String → Option String) (message preferredContact preferredTime : String)
    (outcome : ConnectOutcome) : List ConnectEffect :=
  handleConnectBody profileUserId userEmail toIso message preferredContact
    preferredTime outcome

/-! ## Document analyzer (`pages/DocumentAnalyzer.jsx`) -/

/-- A message of the analyzer's chat history. -/
structure AnalyzerMessage where
  id : JsVal
  sender : String
  message : JsData
  timestamp : String

/-- The `useState` cells of `DocumentAnalyzer` that `handleSendMessage` reads
or writes. -/
structure AnalyzerState where
  sessionId : JsVal
  chatMessage : String
  chatHistory : List AnalyzerMessage
  loading : Bool
  error : JsData

/-- What `handleSendMessage` of the analyzer does, in program order. -/
inductive AnalyzerEffect where
  | setChatMessage (v : String)
  | setLoading (b : Bool)
  | setChatHistory (updater : List AnalyzerMessage → List AnalyzerMessage)
  | sendChatMessage (sessionId : JsVal) (userMessage : String)
  | setError (v : JsData)
  | consoleError

/-- The state after one effect of the analyzer. -/
def applyAnalyzerEffect (s : AnalyzerState) : AnalyzerEffect → AnalyzerState
  | .setChatMessage v => { s with chatMessage := v }
  | .setLoading b => { s with loading := b }
  | .setChatHistory f => { s with chatHistory := f s.chatHistory }
  | .setError v => { s with error := v }
  | _ => s

/-- The state after a list of effects of the analyzer. -/
def applyAnalyzerEffects (s : AnalyzerState) (es : List AnalyzerEffect) : AnalyzerState :=
  es.foldl applyAnalyzerEffect s

/-- The operator `a ?? b`. -/
def JsData.orElse : JsData → JsData → JsData
  | .undefined, b => b
  | .null, b => b
  | a, _ => a

/-- The text `aiText` that `handleSendMessage` takes out of the response. -/
def aiTextOf (response : JsData) : JsData :=
  (response.prop "response").orElse
    ((response.prop "message").orElse
      ((response.prop "text").orElse
        (((response.prop "data").prop "text").orElse (.str ""))))

/-- How the awaited `sendChatMessageApi` ends: resolved with its response, or
rejected with `err?.response?.data?.error` and `err?.message`. -/
inductive SendOutcome where
  | resolved (response : JsData)
  | rejected (responseError errMessage : JsData)

/-- The updater that removes the optimistic user message in the `catch`. -/
def removeMessage (id : JsVal) (prev : List AnalyzerMessage) : List AnalyzerMessage :=
  prev.filter (fun m => !strictEq m.id id)

/-- The handler `handleSendMessage` of the analyzer, over the cells its
closure holds. `now1`, `time1` are `Date.now()` and the time string at the
creation of the user message, `now2`, `time2` at the creation of the answer. -/
def DocumentAnalyzer.handleSendMessage (s : AnalyzerState) (now1 now2 : Int)
    (time1 time2 : String) (outcome : SendOutcome) : List AnalyzerEffect :=
  if isBlank s.chatMessage || !truthy s.sessionId then []
  else
    [.setChatMessage "", .setLoading true,
     .setChatHistory (fun prev => prev ++
       [{ id := .num now1, sender := "User", message := .str (jsTrim s.chatMessage),
          timestamp := time1 }]),
     .sendChatMessage s.sessionId (jsTrim s.chatMessage)] ++
    (match outcome with
     | .resolved response =>
       if (aiTextOf response).truthy then
         [.setChatHistory (fun prev => prev ++
            [{ id := .num (now2 + 1), sender := "AdvocAI", message := aiTextOf response,
               timestamp := time2 }])]
       else []
     | .rejected responseError errMessage =>
       [.consoleError,
        .setError (if responseError.truthy then responseError
                   else if errMessage.truthy then errMessage
                   else .str "Failed to send message"),
        .setChatHistory (removeMessage (.num now1))]) ++
    [.setLoading false]

/-! ## Password modal (`Components/PasswordModal.jsx`) -/

/-- The `passwordForm` cell of `PasswordModal`. -/
structure PasswordForm where
  current_password : String
  new_password : String
  new_password2 : String
deriving DecidableEq, Repr

/-- The fields of the prop `user` that `PasswordModal` reads. -/
structure PasswordUser where
  auth_provider : JsVal
  has_password : JsVal
deriving DecidableEq, Repr

/-- What `handleSubmit` of `PasswordModal` does, in program order. In the
payload of `onPasswordSubmit`, `current_password` is `none` when the key is
not set. -/
inductive PasswordModalEffect where
  | setPasswordSaving (b : Bool)
  | toastError (msg : String)
  | onPasswordSubmit (new_password new_password2 : String) (current_password : Option String)
      (endpoint : String)
  | onOpenChange (b : Bool)
deriving DecidableEq, Repr

/-- The call of `onPasswordSubmit`, which makes the request. -/
def PasswordModalEffect.isSubmit : PasswordModalEffect → Bool
  | .onPasswordSubmit _ _ _ _ => true
  | _ => false

/-- The call of `onOpenChange`, which closes the modal. -/
def PasswordModalEffect.isOpenChange : PasswordModalEffect → Bool
  | .onOpenChange _ => true
  | _ => false

/-- The cell `passwordSaving` after one effect. -/
def applyPasswordModalEffect (passwordSaving : Bool) : PasswordModalEffect → Bool
  | .setPasswordSaving b => b
  | _ => passwordSaving

/-- The expression `user.auth_provider === 'google' && !user.has_password`. -/
def isAddPasswordMode (user : PasswordUser) : Bool :=
  strictEq user.auth_provider (.str "google") && !truthy user.has_password

/-- The handler `handleSubmit` of `PasswordModal`, over the form and the user
its closure holds; `submitOk` tells whether the awaited `onPasswordSubmit`
resolved. -/
def PasswordModal.handleSubmit (passwordForm : PasswordForm) (user : PasswordUser)
    (submitOk : Bool) : List PasswordModalEffect :=
  [.setPasswordSaving true] ++
  (if passwordForm.new_password ≠ passwordForm.new_password2 then
     [.toastError "New passwords do not match."]
   else if jsLength passwordForm.new_password < 8 then
     [.toastError "New password must be at least 8 characters long."]
   else
     let endpoint :=
       if isAddPasswordMode user then "api/auth/add-password/"
       else "api/auth/change-password/"
     let current_password :=
       if isAddPasswordMode user then none else some passwordForm.current_password
     if endpoint = "api/auth/change-password/" && isBlank passwordForm.current_password then
       [.toastError "Current password cannot be empty."]
     else
       .onPasswordSubmit passwordForm.new_password passwordForm.new_password2
           current_password endpoint ::
         (if submitOk then [.onOpenChange false] else [])) ++
  [.setPasswordSaving false]

/-! ## One-time codes (`pages/VerifyOtp.jsx`, `pages/ResetPassword.jsx`) -/

/-- A character that `\D` does not match: one of the digits 0 to 9. -/
def isAsciiDigit (c : Char) : Bool :=
  48 ≤ c.toNat && c.toNat ≤ 57

/-- The call `value.replace(/\D/g, '')`. -/
def removeNonDigits (value : String) : String :=
  String.mk (value.data.filter isAsciiDigit)

/-- The call `s.slice(0, n)` on a string of characters of the basic plane,
which a string of digits is. -/
def sliceFromStart (n : Nat) (s : String) : String :=
  String.mk (s.data.take n)

/-- The `onChange` of the OTP input of `VerifyOtp`: the value handed to
`setOtp`. -/
def VerifyOtp.onOtpChange (value : String) : String :=
  sliceFromStart 6 (removeNonDigits value)

/-- The `formData` cell of `ResetPassword`. -/
structure ResetFormData where
  otp_code : String
  new_password : String
  confirm_password : String
deriving DecidableEq, Repr

/-- The `onChange` of the reset-code input of `ResetPassword`: the object
handed to `setFormData`. -/
def ResetPassword.onOtpCodeChange (formData : ResetFormData) (value : String) :
    ResetFormData :=
  { formData with otp_code := sliceFromStart 6 (removeNonDigits value) }

/-! ## Sample inputs -/

/-- A tree with two root comments; the first has one reply. -/
def sampleTree : List Comment :=
  [Comment.mk (.num 1) (.str "ann") (.str "first") (.str "t1") .null
     (some [Comment.mk (.num 2) (.str "bob") (.str "reply") (.str "t2") (.num 1) none]),
   Comment.mk (.num 3) (.str "cy") (.str "second") (.str "t3") .null none]

/-- The reply of `sampleTree`, at position `[0, 0]`. -/
def sampleNode : Comment :=
  Comment.mk (.num 2) (.str "bob") (.str "reply") (.str "t2") (.num 1) none

/-- A payload whose id is already in `sampleTree`. -/
def sampleDuplicate : Comment :=
  Comment.mk (.num 2) (.str "bob") (.str "reply again") (.str "t9") (.num 1) none

/-- A new reply to comment 2 of `sampleTree`. -/
def sampleReply : Comment :=
  Comment.mk (.num 4) (.str "dee") (.str "nested") (.str "t4") (.num 2) none

/-- A new comment whose parent reference 7 matches no node of `sampleTree`. -/
def orphanReply : Comment :=
  Comment.mk (.num 9) (.str "eve") (.str "lost") (.str "t5") (.num 7) none

/-- A tree whose only comment has the id 0. -/
def zeroTree : List Comment :=
  [Comment.mk (.num 0) (.str "ann") (.str "first") (.str "t1") .null none]

/-- The comment of `zeroTree`. -/
def zeroNode : Comment :=
  Comment.mk (.num 0) (.str "ann") (.str "first") (.str "t1") .null none

/-- A new reply to the comment with id 0. -/
def zeroReply : Comment :=
  Comment.mk (.num 1) (.str "bob") (.str "reply") (.str "t2") (.num 0) none

/-- A new, unsaved document: no content yet, a title typed in. -/
def sampleNewDocument : EditorState :=
  { messages := [], title := "Lease", chatMessage := "", isGenerating := false,
    finalDocument := .str "", currentVersion := .null,
    originalDocumentContent := .str "", documentSharedWithUsers := [] }

/-- A saved document whose content equals the last-fetched snapshot. -/
def sampleSavedDocument : EditorState :=
  { messages := [], title := "Lease", chatMessage := "", isGenerating := false,
    finalDocument := .str "<p>rent</p>", currentVersion := .num 1,
    originalDocumentContent := .str "<p>rent</p>", documentSharedWithUsers := [] }

/-- A remote content change. -/
def sampleContentChange : SocketData :=
  { type := .str "document_content_change", chunk := "",
    updated_document_content := .undefined, content := .str "<p>rent due</p>" }

/-- The five requirements on a signup password, each with whether the
password meets it and the phrase that names it, in the order of the form. -/
def passwordRequirements (password : String) : List (Bool × String) :=
  [(decide (8 ≤ jsLength password), "at least 8 characters"),
   (hasUppercase password, "one uppercase letter"),
   (hasLowercase password, "one lowercase letter"),
   (hasDigit password, "one number"),
   (hasSpecial password, "one special character")]

/-- The phrases of the requirements a password does not meet, in that order. -/
def unmetRequirements (password : String) : List String :=
  ((passwordRequirements password).filter (fun r => !r.1)).map (fun r => r.2)

/-- A filled-in client signup form whose two passwords differ. -/
def sampleSignupForm : SignupFormData :=
  { name := "Ann", username := "ann_1", email := "ann@example.org",
    password := "Secret12", password2 := "Secret13", phone := "",
    license_number := "", bar_council_id := "", education := "", experience_years := "",
    law_firm := "", specializations := "", consultation_fee := "", bio := "",
    verification_documents := "" }

/-- A PNG signature image. -/
def samplePng : SigFile :=
  { name := "sig.png", type := "image/png", size := 2048 }

/-- A PDF, which the signature modal does not accept. -/
def samplePdf : SigFile :=
  { name := "sig.pdf", type := "application/pdf", size := 2048 }

/-- The words of the claim about `login`: the response body does not require
verification and carries both `tokens.access` and `tokens.refresh`. -/
def loginAccepted (data : JsData) : Bool :=
  !(data.prop "requires_verification").truthy &&
    ((data.prop "tokens").prop "access").truthy &&
    ((data.prop "tokens").prop "refresh").truthy

/-- A signed-in session with both tokens stored. -/
def sampleSession : AuthState :=
  { user := .obj [("name", .str "Ann")], isAuthenticated := true, loading := false,
    localStorage := [("access_token", "aaa"), ("refresh_token", "rrr")] }

/-- A signed-out state with nothing stored. -/
def sampleSignedOut : AuthState :=
  { user := .null, isAuthenticated := false, loading := false, localStorage := [] }

/-- A login response body with both tokens. -/
def sampleLoginData : JsData :=
  .obj [("tokens", .obj [("access", .str "aaa"), ("refresh", .str "rrr")]),
        ("user", .obj [("name", .str "Ann"), ("role", .str "client")])]

/-- The keys of `errors` that the signup form renders (`errors.username`,
`errors.email`, `errors.password`, `errors.password2`, `errors.license_number`,
`errors.bar_council_id`). -/
def renderedErrorFields : List String :=
  ["username", "email", "password", "password2", "license_number", "bar_council_id"]

/-- A client signup form that passes `validateForm`. -/
def sampleValidSignupForm : SignupFormData :=
  { sampleSignupForm with password := "Secret12!", password2 := "Secret12!", phone := "12" }

/-- An error response body that reports the phone field. -/
def samplePhoneErrorBody : JsData :=
  .obj [("phone", .arr [.str "Enter a valid phone number."])]

/-- A PNG signature image of 20 MiB. -/
def sampleBigPng : SigFile :=
  { name := "scan.png", type := "image/png", size := 20971520 }

/-- A date parser for the samples: it accepts one `datetime-local` value. -/
def sampleToIso (t : String) : Option String :=
  if t = "2026-01-05T10:00" then some "2026-01-05T10:00:00.000Z" else none

/-- The socket URL in the words of the claim: scheme `wss:` for the page
protocol `https:` and `ws:` otherwise, port 8000, path `/ws/document/<id>/`,
and `?token=<token>` appended when a non-empty access token is stored. -/
def specWsUrl (pageProtocol hostname idText : String) (accessToken : Option String) : String :=
  (if pageProtocol = "https:" then "wss:" else "ws:") ++ "//" ++ hostname ++ ":" ++ "8000" ++
    "/ws/document/" ++ idText ++ "/" ++
    (match accessToken with
     | some token => if token ≠ "" then "?token=" ++ token else ""
     | none => "")

/-- The editor state after a `fetchConversation` that resolved. -/
def afterFetch (s : EditorState) (idToFetch : JsVal) (versionToLoad : Option String)
    (toHtml : String → String) (conversation : Conversation) : EditorState :=
  applyEditorEffects s (fetchConversation idToFetch versionToLoad toHtml (.resolved conversation))

/-- A conversation with two versions. -/
def sampleConversation : Conversation :=
  { title := some "Lease", messages := some [{ sender := "user", text := "draft a lease" }],
    shared_with_users := none,
    document_versions := some [{ version_number := .num 0, content := "# Lease" },
                               { version_number := .num 1, content := "# Lease v1" }] }

/-- A stand-in for the markdown conversion of the samples. -/
def sampleToHtml (markdown : String) : String :=
  "<p>" ++ markdown ++ "</p>"

/-- A chat of the editor that ends with a bot message. -/
def sampleChat : List ChatMessage :=
  [{ sender := "user", text := "q" }, { sender := "bot", text := "hel" }]

/-- An analyzer session with one earlier message and a typed question. -/
def sampleAnalyzerState : AnalyzerState :=
  { sessionId := .str "s1", chatMessage := " what is the rent? ",
    chatHistory := [{ id := .num 100, sender := "AdvocAI", message := .str "Summary ready.",
                      timestamp := "10:00:00" }],
    loading := false, error := .str "" }

/-- An optimistic user message of the analyzer with id 5. -/
def sampleUserMessage : AnalyzerMessage :=
  { id := .num 5, sender := "User", message := .str "hi", timestamp := "10:01:00" }

/-- The entry of the error map for a value of the response body, in the
words of the claim: the first element of an array, a string itself, nothing
for a value of another type. -/
def fieldErrorOf (value : JsData) : Option JsData :=
  if value.isArray then some value.first
  else if value.typeofString then some value
  else none

/-- The `errors` cell of `Signup` after a list of effects. -/
def errorsAfter (errors : JsObject) (es : List SignupEffect) : JsObject :=
  es.foldl (fun acc e => match e with
    | .setErrors newErrors => newErrors
    | _ => acc) errors

/-- A toast of the signup page. -/
def SignupEffect.isToast : SignupEffect → Bool
  | .toastSuccess _ => true
  | .toastError _ => true
  | _ => false

/-- An error response body with two field errors and a value of another
type. -/
def sampleFieldErrorBody : JsData :=
  .obj [("email", .arr [.str "Already registered.", .str "Second message."]),
        ("username", .str "Taken."),
        ("code", .num 400)]

/-- Two nodes have the same own fields: id, author, content, timestamp and
parent reference. -/
def sameOwnFields (p q : Comment) : Prop :=
  p.id = q.id ∧ p.author = q.author ∧ p.content = q.content ∧
    p.timestamp = q.timestamp ∧ p.parent_comment = q.parent_comment

/-- A `chat_stream` message with the given chunk. -/
def chatStreamData (chunk : String) : SocketData :=
  { type := .str "chat_stream", chunk := chunk, updated_document_content := .undefined,
    content := .undefined }

/-- The editor state after handling a sequence of `chat_stream` messages in
order. -/
def afterChatStream (s : EditorState) (chunks : List String) : EditorState :=
  chunks.foldl
    (fun st chunk => applyEditorEffects st (onmessage st.finalDocument (chatStreamData chunk))) s

/-- The version to load in the words of the claim: the version whose
`version_number` equals the integer value of the parameter when there is one,
otherwise the last element of the list. -/
def specLoadedVersion (versions : List DocumentVersion) (versionToLoad : Option String) :
    Option DocumentVersion :=
  match versionToLoad.bind jsParseInt with
  | some n =>
    match versions.find? (fun v => decide (v.version_number = .num n)) with
    | some v => some v
    | none => versions.getLast?
  | none => versions.getLast?

/-- A Google account without a password. -/
def sampleGoogleUser : PasswordUser :=
  { auth_provider := .str "google", has_password := .bool false }

/-- An account that signed up with a password. -/
def sampleEmailUser : PasswordUser :=
  { auth_provider := .str "email", has_password := .bool true }

/-- A filled-in change-password form. -/
def samplePasswordForm : PasswordForm :=
  { current_password := "OldSecret1", new_password := "NewSecret1", new_password2 := "NewSecret1" }

/-! # Theorems -/

/-! ## Comment tree -/

theorem strictEq_iff (a b : JsVal) : strictEq a b = true ↔ a = b := by
  cases a <;> cases b <;> simp [strictEq]

theorem strictEq_false_iff (a b : JsVal) : strictEq a b = false ↔ a ≠ b := by
  rw [ne_eq, ← strictEq_iff]; cases strictEq a b <;> simp

theorem allNodesAt_eq (n : Comment) : allNodesAt n = n :: allNodes n.repliesOrEmpty := by
  cases n with
  | mk i a b t p r =>
    cases r with
    | none => simp [allNodesAt, allNodes, Comment.repliesOrEmpty, Comment.replies]
    | some rs => simp [allNodesAt, Comment.repliesOrEmpty, Comment.replies]

theorem allIds_cons (c : Comment) (rest : List Comment) :
    allIds (c :: rest) = c.id :: (allIds c.repliesOrEmpty ++ allIds rest) := by
  simp [allIds, allNodes, allNodesAt_eq]

theorem allIds_nil : allIds [] = [] := by
  simp [allIds, allNodes]

mutual
theorem commentExists_iff_mem :
    ∀ (l : List Comment) (x : JsVal), commentExists l x = true ↔ x ∈ allIds l
  | [], x => by simp [commentExists, allIds_nil]
  | c :: rest, x => by
    have h1 := commentExistsAt_iff_mem c x
    have h2 := commentExists_iff_mem rest x
    rw [commentExists, Bool.or_eq_true, h1, h2, allIds_cons, List.mem_cons, List.mem_append]
    tauto
theorem commentExistsAt_iff_mem :
    ∀ (c : Comment) (x : JsVal),
      commentExistsAt c x = true ↔ (x = c.id ∨ x ∈ allIds c.repliesOrEmpty)
  | Comment.mk i a b t p none, x => by
    by_cases hx : strictEq i x = true
    · have e := (strictEq_iff i x).1 hx
      subst e
      simp [commentExistsAt, hx, Comment.id]
    · have hne : ¬ x = i := fun e => hx ((strictEq_iff i x).2 e.symm)
      simp [commentExistsAt, hx, Comment.id, Comment.repliesOrEmpty, Comment.replies,
        allIds_nil, hne]
  | Comment.mk i a b t p (some rs), x => by
    have h := commentExists_iff_mem rs x
    by_cases hx : strictEq i x = true
    · have e := (strictEq_iff i x).1 hx
      subst e
      simp [commentExistsAt, hx, Comment.id]
    · have hne : ¬ x = i := fun e => hx ((strictEq_iff i x).2 e.symm)
      cases rs with
      | nil =>
        simp [commentExistsAt, hx, Comment.id, Comment.repliesOrEmpty, Comment.replies,
          allIds_nil, hne]
      | cons r rs' =>
        simp only [commentExistsAt, hx, Comment.id, Comment.repliesOrEmpty, Comment.replies,
          Option.getD_some, hne, false_or, List.length_cons]
        simpa using h
end

theorem addCommentToTreeMap_eq_map (l : List Comment) (c : Comment) :
    addCommentToTreeMap l c = l.map (fun n => addCommentToTreeAt n c) := by
  induction l with
  | nil => simp [addCommentToTreeMap]
  | cons n rest ih => simp [addCommentToTreeMap, ih]

theorem addCommentToTreeAt_hit (n c : Comment) (h : n.id = c.parent_comment) :
    addCommentToTreeAt n c = n.withReplies (n.repliesOrEmpty ++ [c]) := by
  cases n with
  | mk i a b t p r =>
    have hs : strictEq i c.parent_comment = true := (strictEq_iff _ _).2 h
    cases r with
    | none => rw [addCommentToTreeAt, if_pos hs]; rfl
    | some rs => rw [addCommentToTreeAt, if_pos hs]; rfl

theorem addCommentToTreeAt_miss_replies (n c : Comment) (h : n.id ≠ c.parent_comment)
    (ht : truthy c.parent_comment = true) :
    (addCommentToTreeAt n c).repliesOrEmpty = addCommentToTreeMap n.repliesOrEmpty c := by
  cases n with
  | mk i a b t p r =>
    have hs : ¬ strictEq i c.parent_comment = true := fun e => h ((strictEq_iff _ _).1 e)
    cases r with
    | none =>
      rw [addCommentToTreeAt, if_neg hs]
      simp [Comment.repliesOrEmpty, Comment.replies, addCommentToTreeMap]
    | some rs =>
      rw [addCommentToTreeAt, if_neg hs]
      cases rs with
      | nil => simp [Comment.repliesOrEmpty, Comment.replies, addCommentToTreeMap]
      | cons r rs' => simp [ht, Comment.repliesOrEmpty, Comment.replies]

theorem addCommentToTreeAt_id (n c : Comment) : (addCommentToTreeAt n c).id = n.id := by
  cases n with
  | mk i a b t p r =>
    cases r with
    | none =>
      by_cases hs : strictEq i c.parent_comment = true
      · rw [addCommentToTreeAt, if_pos hs]; rfl
      · rw [addCommentToTreeAt, if_neg hs]
    | some rs =>
      by_cases hs : strictEq i c.parent_comment = true
      · rw [addCommentToTreeAt, if_pos hs]; rfl
      · rw [addCommentToTreeAt, if_neg hs]
        cases rs with
        | nil => rfl
        | cons r rs' => simp [Comment.id]

theorem rootIds_addCommentToTreeMap (l : List Comment) (c : Comment) :
    rootIds (addCommentToTreeMap l c) = rootIds l := by
  simp [rootIds, addCommentToTreeMap_eq_map, Function.comp_def, addCommentToTreeAt_id]

theorem clearPath_nil (path : List Nat) (pid : JsVal) : ¬ clearPath [] path pid := by
  cases path with
  | nil => simp [clearPath]
  | cons i rest =>
    cases rest with
    | nil => simp [clearPath]
    | cons j rest' => simp [clearPath]

/-- Along a clear path the map of `addCommentToTree` rebuilds the ancestors and
appends the comment to the replies of the node the path leads to. -/
theorem nodeAt_addCommentToTreeMap (c : Comment) (ht : truthy c.parent_comment = true) :
    ∀ (path : List Nat) (l : List Comment) (p : Comment),
      clearPath l path c.parent_comment → nodeAt l path = some p →
      nodeAt (addCommentToTreeMap l c) path
        = some (p.withReplies (p.repliesOrEmpty ++ [c]))
  | [], _, _, h, _ => by simp [clearPath] at h
  | [i], l, p, h, hp => by
    obtain ⟨n, hn, hid⟩ := h
    simp only [nodeAt] at hp ⊢
    rw [hn] at hp
    cases hp
    rw [addCommentToTreeMap_eq_map, List.getElem?_map, hn]
    simp [addCommentToTreeAt_hit _ c hid]
  | i :: j :: rest, l, p, h, hp => by
    obtain ⟨n, hn, hid, hrest⟩ := h
    simp only [nodeAt, hn] at hp
    have ih := nodeAt_addCommentToTreeMap c ht (j :: rest) n.repliesOrEmpty p hrest hp
    simp only [nodeAt]
    rw [addCommentToTreeMap_eq_map, List.getElem?_map, hn]
    simp only [Option.map_some']
    rw [addCommentToTreeAt_miss_replies n c hid ht]
    exact ih

theorem nodeAt_mem_allNodes :
    ∀ (path : List Nat) (l : List Comment) (p : Comment),
      nodeAt l path = some p → p ∈ allNodes l
  | [], _, _, h => by simp [nodeAt] at h
  | [i], l, p, h => by
    simp only [nodeAt] at h
    have hm : p ∈ l := List.getElem?_mem h
    clear h
    induction l with
    | nil => simp at hm
    | cons n rest ih =>
      simp only [allNodes, allNodesAt_eq, List.mem_append, List.mem_cons] at hm ⊢
      rcases hm with e | hm
      · exact Or.inl (Or.inl e)
      · exact Or.inr (ih hm)
  | i :: j :: rest, l, p, h => by
    simp only [nodeAt] at h
    cases hn : l[i]? with
    | none => simp [hn] at h
    | some n =>
      simp only [hn] at h
      have ih := nodeAt_mem_allNodes (j :: rest) n.repliesOrEmpty p h
      have hm : n ∈ l := List.getElem?_mem hn
      clear h hn
      induction l with
      | nil => simp at hm
      | cons m rest' ihl =>
        simp only [allNodes, allNodesAt_eq, List.mem_append, List.mem_cons] at hm ⊢
        rcases hm with e | hm
        · subst e; exact Or.inl (Or.inr ih)
        · exact Or.inr (ihl hm)

theorem allIds_sublist_of_mem (n : Comment) :
    ∀ (l : List Comment), n ∈ l →
      List.Sublist (n.id :: allIds n.repliesOrEmpty) (allIds l)
  | [], h => by simp at h
  | m :: rest, h => by
    rw [allIds_cons]
    rcases List.mem_cons.1 h with e | h
    · subst e
      exact List.Sublist.cons₂ _ (List.sublist_append_left _ _)
    · exact List.Sublist.cons _
        ((allIds_sublist_of_mem n rest h).trans (List.sublist_append_right _ _))

/-- In a tree with pairwise distinct ids every position is reached by a clear
path. -/
theorem clearPath_of_nodup :
    ∀ (path : List Nat) (l : List Comment) (p : Comment),
      (allIds l).Nodup → nodeAt l path = some p → clearPath l path p.id
  | [], _, _, _, h => by simp [nodeAt] at h
  | [i], l, p, _, h => by
    simp only [nodeAt] at h
    exact ⟨p, h, rfl⟩
  | i :: j :: rest, l, p, hd, h => by
    simp only [nodeAt] at h
    cases hn : l[i]? with
    | none => simp [hn] at h
    | some n =>
      simp only [hn] at h
      have hsub := allIds_sublist_of_mem n l (List.getElem?_mem hn)
      have hd2 : (n.id :: allIds n.repliesOrEmpty).Nodup := hd.sublist hsub
      rw [List.nodup_cons] at hd2
      have hpm : p.id ∈ allIds n.repliesOrEmpty :=
        List.mem_map_of_mem _ (nodeAt_mem_allNodes _ _ _ h)
      refine ⟨n, hn, ?_, clearPath_of_nodup (j :: rest) n.repliesOrEmpty p hd2.2 h⟩
      intro e
      exact hd2.1 (e ▸ hpm)

theorem nodeAt_of_clearPath :
    ∀ (path : List Nat) (l : List Comment) (pid : JsVal),
      clearPath l path pid → ∃ p, nodeAt l path = some p ∧ p.id = pid
  | [], _, _, h => by simp [clearPath] at h
  | [i], l, pid, h => by
    obtain ⟨n, hn, hid⟩ := h
    exact ⟨n, by simp [nodeAt, hn], hid⟩
  | i :: j :: rest, l, pid, h => by
    obtain ⟨n, hn, _, hrest⟩ := h
    obtain ⟨p, hp, hid⟩ := nodeAt_of_clearPath (j :: rest) n.repliesOrEmpty pid hrest
    exact ⟨p, by simp [nodeAt, hn, hp], hid⟩

theorem clearPath_cons_zero (c : Comment) (rest : List Comment) (pid : JsVal) :
    ∀ (path : List Nat), clearPath [c] path pid → clearPath (c :: rest) path pid
  | [], h => by simp [clearPath] at h
  | [i], h => by
    obtain ⟨n, hn, hid⟩ := h
    cases i with
    | zero => exact ⟨n, by simpa using hn, hid⟩
    | succ k => simp at hn
  | i :: j :: r, h => by
    obtain ⟨n, hn, hid, hrest⟩ := h
    cases i with
    | zero => exact ⟨n, by simpa using hn, hid, hrest⟩
    | succ k => simp at hn

theorem clearPath_cons_succ (c : Comment) (rest : List Comment) (pid : JsVal) :
    ∀ (i : Nat) (r : List Nat), clearPath rest (i :: r) pid →
      clearPath (c :: rest) ((i + 1) :: r) pid
  | i, [], h => by
    obtain ⟨n, hn, hid⟩ := h
    exact ⟨n, by simpa using hn, hid⟩
  | i, j :: r, h => by
    obtain ⟨n, hn, hid, hrest⟩ := h
    exact ⟨n, by simpa using hn, hid, hrest⟩

mutual
/-- Every id that occurs in a tree is reached by a clear path. -/
theorem exists_clearPath :
    ∀ (l : List Comment) (pid : JsVal), pid ∈ allIds l → ∃ path, clearPath l path pid
  | [], pid, h => by simp [allIds_nil] at h
  | c :: rest, pid, h => by
    rw [allIds_cons] at h
    by_cases h1 : pid = c.id ∨ pid ∈ allIds c.repliesOrEmpty
    · obtain ⟨path, hp⟩ := exists_clearPath_at c pid h1
      exact ⟨path, clearPath_cons_zero c rest pid path hp⟩
    · have h2 : pid ∈ allIds rest := by
        simp only [List.mem_cons, List.mem_append] at h
        tauto
      obtain ⟨path, hp⟩ := exists_clearPath rest pid h2
      cases path with
      | nil => simp [clearPath] at hp
      | cons i r => exact ⟨(i + 1) :: r, clearPath_cons_succ c rest pid i r hp⟩
theorem exists_clearPath_at :
    ∀ (c : Comment) (pid : JsVal), (pid = c.id ∨ pid ∈ allIds c.repliesOrEmpty) →
      ∃ path, clearPath [c] path pid
  | Comment.mk i a b t p none, pid, h => by
    have e : pid = i := by
      simpa [Comment.id, Comment.repliesOrEmpty, Comment.replies, allIds_nil] using h
    exact ⟨[0], Comment.mk i a b t p none, by simp, e.symm⟩
  | Comment.mk i a b t p (some rs), pid, h => by
    by_cases e : pid = i
    · exact ⟨[0], Comment.mk i a b t p (some rs), by simp, e.symm⟩
    · have h2 : pid ∈ allIds rs := by
        simpa [Comment.id, Comment.repliesOrEmpty, Comment.replies, e] using h
      obtain ⟨path, hp⟩ := exists_clearPath rs pid h2
      cases path with
      | nil => simp [clearPath] at hp
      | cons j r =>
        exact ⟨0 :: j :: r, Comment.mk i a b t p (some rs), by simp,
          fun h3 => e h3.symm, hp⟩
end

mutual
/-- With a parent reference that matches no node, the map of `addCommentToTree`
rebuilds the list it was given. -/
theorem addCommentToTreeMap_orphan :
    ∀ (l : List Comment) (c : Comment), truthy c.parent_comment = true →
      c.parent_comment ∉ allIds l → addCommentToTreeMap l c = l
  | [], c, _, _ => by simp [addCommentToTreeMap]
  | n :: rest, c, ht, h => by
    rw [allIds_cons] at h
    simp only [List.mem_cons, List.mem_append, not_or] at h
    rw [addCommentToTreeMap, addCommentToTreeAt_orphan n c ht h.1 h.2.1,
      addCommentToTreeMap_orphan rest c ht h.2.2]
theorem addCommentToTreeAt_orphan :
    ∀ (n c : Comment), truthy c.parent_comment = true → c.parent_comment ≠ n.id →
      c.parent_comment ∉ allIds n.repliesOrEmpty → addCommentToTreeAt n c = n
  | Comment.mk i a b t p none, c, _, hne, _ => by
    have hs : ¬ strictEq i c.parent_comment = true :=
      fun e => hne ((strictEq_iff _ _).1 e).symm
    rw [addCommentToTreeAt, if_neg hs]
  | Comment.mk i a b t p (some rs), c, ht, hne, h => by
    have hs : ¬ strictEq i c.parent_comment = true :=
      fun e => hne ((strictEq_iff _ _).1 e).symm
    have ih := addCommentToTreeMap_orphan rs c ht h
    rw [addCommentToTreeAt, if_neg hs]
    simp [ht, ih]
end

theorem onNewComment_of_new (t : List Comment) (c : Comment) (hc : c.id ∉ allIds t) :
    onNewComment t c = addCommentToTree t c := by
  have h : ¬ commentExists t c.id = true := fun e => hc ((commentExists_iff_mem t c.id).1 e)
  simp [onNewComment, h]

theorem addCommentToTree_of_truthy (t : List Comment) (c : Comment)
    (ht : truthy c.parent_comment = true) :
    addCommentToTree t c = addCommentToTreeMap t c := by
  simp [addCommentToTree, ht]

/-- C1. A `new_comment` payload whose id is the id of some node of the tree, at
any depth, is dropped: the updater returns the previous tree itself. -/
theorem onNewComment_existing_id (t : List Comment) (c : Comment)
    (h : ∃ n ∈ allNodes t, n.id = c.id) : onNewComment t c = t := by
  obtain ⟨n, hn, hid⟩ := h
  have hm : c.id ∈ allIds t := hid ▸ List.mem_map_of_mem _ hn
  have he : commentExists t c.id = true := (commentExists_iff_mem t c.id).2 hm
  simp [onNewComment, he]

theorem onNewComment_existing_id_witness :
    (∃ n ∈ allNodes sampleTree, n.id = sampleDuplicate.id) ∧
      onNewComment sampleTree sampleDuplicate = sampleTree :=
  ⟨⟨sampleNode, by simp [sampleTree, sampleNode, allNodes, allNodesAt], rfl⟩,
   onNewComment_existing_id sampleTree sampleDuplicate
     ⟨sampleNode, by simp [sampleTree, sampleNode, allNodes, allNodesAt], rfl⟩⟩

/-- C2, as stated, fails for a parent whose id is falsy: in the tree whose only
comment has id 0, a new comment with parent reference 0 is appended at root
level, so the root-level ids change and the parent gets no reply. -/
theorem reply_to_id_zero_goes_to_root :
    (allIds zeroTree).Nodup ∧ nodeAt zeroTree [0] = some zeroNode ∧
      zeroReply.id ∉ allIds zeroTree ∧ zeroReply.parent_comment = zeroNode.id ∧
      onNewComment zeroTree zeroReply = zeroTree ++ [zeroReply] ∧
      rootIds (onNewComment zeroTree zeroReply) ≠ rootIds zeroTree ∧
      nodeAt (onNewComment zeroTree zeroReply) [0] = some zeroNode := by
  refine ⟨by decide, rfl, by decide, rfl, rfl, by decide, rfl⟩

/-- C2, amended. In a tree with pairwise distinct ids, a new comment whose
parent reference is the truthy id of the node `p` at position `path` leaves the
root-level ids as they were and becomes the last reply of that node. -/
theorem onNewComment_reply (t : List Comment) (path : List Nat) (p c : Comment)
    (hd : (allIds t).Nodup) (hp : nodeAt t path = some p) (hc : c.id ∉ allIds t)
    (hpar : c.parent_comment = p.id) (ht : truthy p.id = true) :
    rootIds (onNewComment t c) = rootIds t ∧
      nodeAt (onNewComment t c) path = some (p.withReplies (p.repliesOrEmpty ++ [c])) := by
  have ht2 : truthy c.parent_comment = true := hpar ▸ ht
  rw [onNewComment_of_new t c hc, addCommentToTree_of_truthy t c ht2]
  refine ⟨rootIds_addCommentToTreeMap t c, ?_⟩
  have hclear : clearPath t path c.parent_comment := hpar ▸ clearPath_of_nodup path t p hd hp
  exact nodeAt_addCommentToTreeMap c ht2 path t p hclear hp

theorem onNewComment_reply_witness :
    ((allIds sampleTree).Nodup ∧ nodeAt sampleTree [0, 0] = some sampleNode ∧
      sampleReply.id ∉ allIds sampleTree ∧ sampleReply.parent_comment = sampleNode.id ∧
      truthy sampleNode.id = true) ∧
    (rootIds (onNewComment sampleTree sampleReply) = rootIds sampleTree ∧
      nodeAt (onNewComment sampleTree sampleReply) [0, 0]
        = some (sampleNode.withReplies (sampleNode.repliesOrEmpty ++ [sampleReply]))) :=
  ⟨⟨by decide, rfl, by decide, rfl, rfl⟩,
   onNewComment_reply sampleTree [0, 0] sampleNode sampleReply (by decide) rfl (by decide)
     rfl rfl⟩

/-- C3, as stated, fails in two ways. A parent reference that matches no
node: the new comment is neither appended at root level nor inserted anywhere,
the tree comes back as it was. A falsy parent reference that is the id of a
node: the new comment is appended at root level, not inserted as a reply. -/
theorem new_comment_not_placed_as_claimed :
    (orphanReply.id ∉ allIds sampleTree ∧
      orphanReply.parent_comment ∉ allIds sampleTree ∧
      onNewComment sampleTree orphanReply = sampleTree ∧
      orphanReply.id ∉ allIds (onNewComment sampleTree orphanReply)) ∧
    (zeroReply.id ∉ allIds zeroTree ∧
      zeroReply.parent_comment ∈ allIds zeroTree ∧
      onNewComment zeroTree zeroReply = zeroTree ++ [zeroReply] ∧
      nodeAt (onNewComment zeroTree zeroReply) [0] = some zeroNode ∧
      zeroNode.replies = none) := by
  refine ⟨⟨by decide, by decide, rfl, by decide⟩, ⟨by decide, by decide, rfl, rfl, rfl⟩⟩

/-- C3, amended. For a comment `c` whose id does not occur in the tree: with a
falsy parent reference it is appended at the end of the root list; with a
truthy parent reference that is the id of some node it becomes the last reply
of a node with that id, and the root-level ids stay as they were. -/
theorem onNewComment_new (t : List Comment) (c : Comment) (hc : c.id ∉ allIds t) :
    (truthy c.parent_comment = false → onNewComment t c = t ++ [c]) ∧
    (truthy c.parent_comment = true → c.parent_comment ∈ allIds t →
      rootIds (onNewComment t c) = rootIds t ∧
      ∃ path p, nodeAt t path = some p ∧ p.id = c.parent_comment ∧
        nodeAt (onNewComment t c) path = some (p.withReplies (p.repliesOrEmpty ++ [c]))) := by
  rw [onNewComment_of_new t c hc]
  refine ⟨?_, ?_⟩
  · intro hf
    simp [addCommentToTree, hf]
  · intro ht hm
    rw [addCommentToTree_of_truthy t c ht]
    refine ⟨rootIds_addCommentToTreeMap t c, ?_⟩
    obtain ⟨path, hclear⟩ := exists_clearPath t c.parent_comment hm
    obtain ⟨p, hp, hid⟩ := nodeAt_of_clearPath path t c.parent_comment hclear
    exact ⟨path, p, hp, hid, nodeAt_addCommentToTreeMap c ht path t p hclear hp⟩

theorem onNewComment_new_witness :
    sampleReply.id ∉ allIds sampleTree ∧
    ((truthy sampleReply.parent_comment = false →
        onNewComment sampleTree sampleReply = sampleTree ++ [sampleReply]) ∧
     (truthy sampleReply.parent_comment = true → sampleReply.parent_comment ∈ allIds sampleTree →
        rootIds (onNewComment sampleTree sampleReply) = rootIds sampleTree ∧
        ∃ path p, nodeAt sampleTree path = some p ∧ p.id = sampleReply.parent_comment ∧
          nodeAt (onNewComment sampleTree sampleReply) path
            = some (p.withReplies (p.repliesOrEmpty ++ [sampleReply])))) :=
  ⟨by decide, onNewComment_new sampleTree sampleReply (by decide)⟩

/-! ## Document editor -/

theorem dropWhile_whitespace_eq_nil (l : List Char)
    (h : ∀ c ∈ l, isJsWhitespace c = true) : l.dropWhile isJsWhitespace = [] := by
  induction l with
  | nil => rfl
  | cons a rest ih =>
    have ha := h a (List.mem_cons_self a rest)
    simp only [List.dropWhile_cons, ha, if_true]
    exact ih (fun c hc => h c (List.mem_cons_of_mem a hc))

theorem isBlank_of_whitespace (s : String) (h : ∀ c ∈ s.data, isJsWhitespace c = true) :
    isBlank s = true := by
  simp [isBlank, jsTrim, dropWhile_whitespace_eq_nil s.data h]

/-- C4, as stated, fails without a conversation id: a new document whose
content equals the snapshot (both empty) and whose title is not blank is
created with a POST. -/
theorem save_without_id_posts :
    isBlank sampleNewDocument.title = false ∧
      sampleNewDocument.finalDocument = sampleNewDocument.originalDocumentContent ∧
      handleSaveConversation sampleNewDocument .undefined (.ok (.str "abc")) =
        [.post "/api/documents/conversations/" "Lease" [] (.str ""),
         .navigate "/document-creation/abc",
         .toast .success "New Document created and saved as Version 0!",
         .fetchConversation (.str "abc"),
         .setOriginalDocumentContent (.str "")] ∧
      ∃ e ∈ handleSaveConversation sampleNewDocument .undefined (.ok (.str "abc")),
        e.isWriteRequest = true := by
  refine ⟨by decide, rfl, rfl, ?_⟩
  exact ⟨.post "/api/documents/conversations/" "Lease" [] (.str ""),
    List.mem_cons_self _ _, rfl⟩

/-- C4, amended. With a conversation id, saving a document whose content equals
the last-fetched snapshot issues no write request, whatever the title; with a
title that is not blank the only effect is the toast that nothing changed. -/
theorem handleSaveConversation_unchanged (s : EditorState) (mongoConversationId : JsVal)
    (response : Except String JsVal) (hid : truthy mongoConversationId = true)
    (heq : s.finalDocument = s.originalDocumentContent) :
    (∀ e ∈ handleSaveConversation s mongoConversationId response, e.isWriteRequest = false) ∧
    (isBlank s.title = false →
      handleSaveConversation s mongoConversationId response =
        [.toast .info "No changes made to save."]) := by
  have hs : strictEq s.finalDocument s.originalDocumentContent = true :=
    (strictEq_iff _ _).2 heq
  cases hb : isBlank s.title <;>
    simp [handleSaveConversation, hb, hs, hid, EditorEffect.isWriteRequest]

theorem handleSaveConversation_unchanged_witness :
    (truthy (.str "42") = true ∧
      sampleSavedDocument.finalDocument = sampleSavedDocument.originalDocumentContent) ∧
    ((∀ e ∈ handleSaveConversation sampleSavedDocument (.str "42") (.ok .undefined),
        e.isWriteRequest = false) ∧
     (isBlank sampleSavedDocument.title = false →
        handleSaveConversation sampleSavedDocument (.str "42") (.ok .undefined) =
          [.toast .info "No changes made to save."])) :=
  ⟨⟨by decide, rfl⟩,
   handleSaveConversation_unchanged sampleSavedDocument (.str "42") (.ok .undefined)
     (by decide) rfl⟩

/-- C5. When the auto-save effect sets its timer, the delay is 2000 ms and a
conversation id exists; the timer callback issues a write request only if
`finalDocument` differs from `originalDocumentContent`, and when the two are
equal it performs no effect at all, so no request is issued and the state stays
as it was. -/
theorem autoSave_only_when_changed (s : EditorState) (mongoConversationId : JsVal)
    (editor : Option Editor) (delay : Nat)
    (callback : Except String JsVal → List EditorEffect)
    (response : Except String JsVal)
    (h : autoSaveEffect s mongoConversationId editor = some (delay, callback)) :
    delay = 2000 ∧ truthy mongoConversationId = true ∧
    ((∃ e ∈ callback response, e.isWriteRequest = true) →
      s.finalDocument ≠ s.originalDocumentContent) ∧
    (s.finalDocument = s.originalDocumentContent →
      callback response = [] ∧ applyEditorEffects s (callback response) = s) := by
  cases editor with
  | none => cases ht : truthy mongoConversationId <;> simp [autoSaveEffect, ht] at h
  | some ed =>
    cases ht : truthy mongoConversationId
    · simp [autoSaveEffect, ht] at h
    · simp only [autoSaveEffect, ht, Bool.not_true, Bool.false_eq_true, if_false,
        Option.some.injEq, Prod.mk.injEq] at h
      obtain ⟨hd, hc⟩ := h
      subst hd hc
      have hnil : s.finalDocument = s.originalDocumentContent →
          autoSaveTimerCallback s mongoConversationId ed response = [] := by
        intro heq
        have hs : strictEq s.finalDocument s.originalDocumentContent = true :=
          (strictEq_iff _ _).2 heq
        simp [autoSaveTimerCallback, hs]
      refine ⟨rfl, rfl, ?_, ?_⟩
      · rintro ⟨e, he, _⟩ heq
        rw [hnil heq] at he
        simp at he
      · intro heq
        rw [hnil heq]
        exact ⟨rfl, rfl⟩

theorem autoSave_only_when_changed_witness :
    autoSaveEffect sampleSavedDocument (.str "42") (some { isReady := true })
        = some (2000, autoSaveTimerCallback sampleSavedDocument (.str "42") { isReady := true }) ∧
    (2000 = 2000 ∧ truthy (.str "42") = true ∧
     ((∃ e ∈ autoSaveTimerCallback sampleSavedDocument (.str "42") { isReady := true }
            (.ok .undefined), e.isWriteRequest = true) →
        sampleSavedDocument.finalDocument ≠ sampleSavedDocument.originalDocumentContent) ∧
     (sampleSavedDocument.finalDocument = sampleSavedDocument.originalDocumentContent →
        autoSaveTimerCallback sampleSavedDocument (.str "42") { isReady := true }
            (.ok .undefined) = [] ∧
        applyEditorEffects sampleSavedDocument
            (autoSaveTimerCallback sampleSavedDocument (.str "42") { isReady := true }
              (.ok .undefined)) = sampleSavedDocument)) :=
  ⟨rfl,
   autoSave_only_when_changed sampleSavedDocument (.str "42") (some { isReady := true }) 2000
     (autoSaveTimerCallback sampleSavedDocument (.str "42") { isReady := true })
     (.ok .undefined) rfl⟩

/-- C6. On a `document_content_change` message with content `r`, handled with
the local content `v` of the state, the local content afterwards is `r`; when
`r` equals `v` the handler performs no effect; and every other cell of the
state (messages, title, isGenerating and the rest) is as before. -/
theorem onmessage_content_change (s : EditorState) (data : SocketData)
    (h : data.type = .str "document_content_change") :
    (applyEditorEffects s (onmessage s.finalDocument data)).finalDocument = data.content ∧
    (data.content = s.finalDocument → onmessage s.finalDocument data = []) ∧
    applyEditorEffects s (onmessage s.finalDocument data)
      = { s with finalDocument := data.content } := by
  have h1 : strictEq data.type (.str "chat_stream") = false := by rw [h]; decide
  have h2 : strictEq data.type (.str "chat_complete") = false := by rw [h]; decide
  have h3 : strictEq data.type (.str "document_content_change") = true := by rw [h]; decide
  by_cases he : data.content = s.finalDocument
  · have hs : strictEq s.finalDocument s.finalDocument = true := (strictEq_iff _ _).2 rfl
    simp [onmessage, h1, h2, h3, hs, applyEditorEffects, he]
  · have hs : strictEq data.content s.finalDocument = false := (strictEq_false_iff _ _).2 he
    simp [onmessage, h1, h2, h3, hs, applyEditorEffects, applyEditorEffect, he]

theorem onmessage_content_change_witness :
    sampleContentChange.type = .str "document_content_change" ∧
    ((applyEditorEffects sampleSavedDocument
        (onmessage sampleSavedDocument.finalDocument sampleContentChange)).finalDocument
        = sampleContentChange.content ∧
     (sampleContentChange.content = sampleSavedDocument.finalDocument →
        onmessage sampleSavedDocument.finalDocument sampleContentChange = []) ∧
     applyEditorEffects sampleSavedDocument
        (onmessage sampleSavedDocument.finalDocument sampleContentChange)
       = { sampleSavedDocument with finalDocument := sampleContentChange.content }) :=
  ⟨rfl, onmessage_content_change sampleSavedDocument sampleContentChange rfl⟩

/-! ## Comment form -/

/-- C7. With a content that is empty or all white space, `handleSubmit` of the
comment form only calls `preventDefault`: it sends no POST, does not call
`onCommentAdded`, and leaves content, loading and error as they were. -/
theorem handleSubmit_blank (content : String) (documentId parentCommentId : JsVal)
    (hasOnCommentAdded postOk : Bool)
    (h : ∀ c ∈ content.data, isJsWhitespace c = true) :
    CommentForm.handleSubmit content documentId parentCommentId hasOnCommentAdded postOk
      = [.preventDefault] ∧
    (∀ url d c p, CommentFormEffect.post url d c p ∉
      CommentForm.handleSubmit content documentId parentCommentId hasOnCommentAdded postOk) ∧
    CommentFormEffect.onCommentAdded ∉
      CommentForm.handleSubmit content documentId parentCommentId hasOnCommentAdded postOk ∧
    ∀ s : CommentFormState,
      applyCommentFormEffects s
        (CommentForm.handleSubmit content documentId parentCommentId hasOnCommentAdded postOk)
        = s := by
  have hb := isBlank_of_whitespace content h
  simp [CommentForm.handleSubmit, hb, applyCommentFormEffects, applyCommentFormEffect]

theorem handleSubmit_blank_witness :
    (∀ c ∈ (" \t\n" : String).data, isJsWhitespace c = true) ∧
    (CommentForm.handleSubmit " \t\n" (.str "42") .null true true = [.preventDefault] ∧
     (∀ url d c p, CommentFormEffect.post url d c p ∉
        CommentForm.handleSubmit " \t\n" (.str "42") .null true true) ∧
     CommentFormEffect.onCommentAdded ∉
        CommentForm.handleSubmit " \t\n" (.str "42") .null true true ∧
     ∀ s : CommentFormState,
        applyCommentFormEffects s
          (CommentForm.handleSubmit " \t\n" (.str "42") .null true true) = s) :=
  ⟨by decide, handleSubmit_blank " \t\n" (.str "42") .null true true (by decide)⟩

/-! ## Signup -/

theorem objGet_objSet (o : JsObject) (k key : String) (v : JsData) :
    objGet (objSet o k v) key = if k = key then some v else objGet o key := by
  induction o with
  | nil => simp [objSet, objGet]
  | cons kv rest ih =>
    obtain ⟨k', v'⟩ := kv
    by_cases h1 : k' = k
    · subst h1
      by_cases h2 : k' = key <;> simp [objSet, objGet, h2]
    · by_cases h2 : k = key
      · subst h2
        simp [objSet, objGet, h1, ih]
      · simp [objSet, objGet, h1, h2, ih]

theorem length_ne_zero_of_objGet (o : JsObject) (key : String) (v : JsData)
    (h : objGet o key = some v) : (o.length == 0) = false := by
  cases o with
  | nil => simp [objGet] at h
  | cons kv rest => simp

theorem objGet_validateEmail (n : JsObject) (f : SignupFormData) (key : String)
    (h : "email" ≠ key) : objGet (validateEmail n f) key = objGet n key := by
  unfold validateEmail
  split_ifs <;> simp [objGet_objSet, h]

theorem objGet_validateUsername (n : JsObject) (f : SignupFormData) (key : String)
    (h : "username" ≠ key) : objGet (validateUsername n f) key = objGet n key := by
  unfold validateUsername
  split_ifs <;> simp [objGet_objSet, h]

theorem objGet_validatePassword (n : JsObject) (f : SignupFormData) (key : String)
    (h : "password" ≠ key) : objGet (validatePassword n f) key = objGet n key := by
  unfold validatePassword
  split_ifs <;> simp [objGet_objSet, h]

theorem objGet_validatePassword2 (n : JsObject) (f : SignupFormData) (key : String)
    (h : "password2" ≠ key) : objGet (validatePassword2 n f) key = objGet n key := by
  unfold validatePassword2
  split_ifs <;> simp [objGet_objSet, h]

theorem objGet_validateLawyer (n : JsObject) (f : SignupFormData) (a key : String)
    (h1 : "license_number" ≠ key) (h2 : "bar_council_id" ≠ key) :
    objGet (validateLawyer n f a) key = objGet n key := by
  unfold validateLawyer
  split_ifs <;> simp [objGet_objSet, h1, h2]

theorem objGet_validateFormErrors_password2 (f : SignupFormData) (a : String) :
    objGet (validateFormErrors f a) "password2" =
      if f.password ≠ f.password2 then some (.str "Passwords do not match") else none := by
  unfold validateFormErrors
  rw [objGet_validateLawyer _ _ _ _ (by decide) (by decide)]
  unfold validatePassword2
  split_ifs
  · simp [objGet_objSet]
  · rw [objGet_validatePassword _ _ _ (by decide), objGet_validateUsername _ _ _ (by decide),
      objGet_validateEmail _ _ _ (by decide)]
    rfl

theorem objGet_validateFormErrors_password (f : SignupFormData) (a : String) :
    objGet (validateFormErrors f a) "password" =
      if f.password.data.isEmpty then some (.str "Password is required")
      else if (passwordErrors f.password).length > 0 then
        some (.str ("Password must contain " ++
          String.intercalate ", " (passwordErrors f.password)))
      else none := by
  unfold validateFormErrors
  rw [objGet_validateLawyer _ _ _ _ (by decide) (by decide),
    objGet_validatePassword2 _ _ _ (by decide)]
  unfold validatePassword
  split_ifs
  · simp [objGet_objSet]
  · simp [objGet_objSet]
  · rw [objGet_validateUsername _ _ _ (by decide), objGet_validateEmail _ _ _ (by decide)]
    rfl

/-- C8. When `password` and `password2` differ, whatever the other fields hold,
`validateForm` returns false and records the error `Passwords do not match`
under `password2` in the object it passes to `setErrors`, and `handleSubmit`
performs `preventDefault` and that `setErrors` only: no signup request. -/
theorem validateForm_password_mismatch (f : SignupFormData) (accountType : String)
    (outcome : SignupOutcome) (h : f.password ≠ f.password2) :
    (Signup.validateForm f accountType).2 = false ∧
    (Signup.validateForm f accountType).1 = [.setErrors (validateFormErrors f accountType)] ∧
    objGet (validateFormErrors f accountType) "password2"
      = some (.str "Passwords do not match") ∧
    Signup.handleSubmit f accountType outcome
      = [.preventDefault, .setErrors (validateFormErrors f accountType)] ∧
    ∀ e ∈ Signup.handleSubmit f accountType outcome, e.isRequest = false := by
  have hget : objGet (validateFormErrors f accountType) "password2"
      = some (.str "Passwords do not match") := by
    rw [objGet_validateFormErrors_password2, if_pos h]
  have hlen := length_ne_zero_of_objGet _ _ _ hget
  have hv : (Signup.validateForm f accountType).2 = false := hlen
  have hsub : Signup.handleSubmit f accountType outcome
      = [.preventDefault, .setErrors (validateFormErrors f accountType)] := by
    unfold Signup.handleSubmit
    rw [hv]
    rfl
  refine ⟨hv, rfl, hget, hsub, ?_⟩
  rw [hsub]
  simp [SignupEffect.isRequest]

theorem validateForm_password_mismatch_witness :
    sampleSignupForm.password ≠ sampleSignupForm.password2 ∧
    ((Signup.validateForm sampleSignupForm "client").2 = false ∧
     (Signup.validateForm sampleSignupForm "client").1
        = [.setErrors (validateFormErrors sampleSignupForm "client")] ∧
     objGet (validateFormErrors sampleSignupForm "client") "password2"
        = some (.str "Passwords do not match") ∧
     Signup.handleSubmit sampleSignupForm "client" .rejectedNoResponse
        = [.preventDefault, .setErrors (validateFormErrors sampleSignupForm "client")] ∧
     ∀ e ∈ Signup.handleSubmit sampleSignupForm "client" .rejectedNoResponse, e.isRequest = false) :=
  ⟨by decide,
   validateForm_password_mismatch sampleSignupForm "client" .rejectedNoResponse (by decide)⟩

theorem passwordErrors_eq_unmet (password : String) :
    passwordErrors password = unmetRequirements password := by
  unfold passwordErrors unmetRequirements passwordRequirements
  by_cases h1 : jsLength password < 8 <;>
  cases h2 : hasUppercase password <;>
  cases h3 : hasLowercase password <;>
  cases h4 : hasDigit password <;>
  cases h5 : hasSpecial password <;>
  simp [h1, List.filter, Nat.not_le.2, Nat.not_lt.1]

theorem unmetRequirements_eq_nil_iff (password : String) :
    unmetRequirements password = [] ↔
      (8 ≤ jsLength password ∧ hasUppercase password = true ∧ hasLowercase password = true ∧
        hasDigit password = true ∧ hasSpecial password = true) := by
  unfold unmetRequirements passwordRequirements
  by_cases h1 : 8 ≤ jsLength password <;>
  cases h2 : hasUppercase password <;>
  cases h3 : hasLowercase password <;>
  cases h4 : hasDigit password <;>
  cases h5 : hasSpecial password <;>
  simp [h1, List.filter]

theorem data_isEmpty_iff (s : String) : s.data.isEmpty = true ↔ s = "" := by
  cases s with
  | mk l => cases l <;> simp [String.ext_iff]

theorem jsLength_pos_of_nonempty (s : String) (h : 8 ≤ jsLength s) : s.data.isEmpty = false := by
  cases s with
  | mk l =>
    cases l with
    | nil => simp [jsLength] at h
    | cons a rest => rfl

/-- C10. `validateForm` records no error under `password` exactly when the
password has at least 8 characters (counted as `password.length` counts them,
in UTF-16 code units) and contains an uppercase letter A-Z, a lowercase letter
a-z, a digit 0-9 and a character of the special-character class. For a
password that is not empty and misses some requirement, the error is
`Password must contain ` followed by the phrases of exactly the unmet
requirements, in the fixed order, joined by a comma and a space. -/
theorem validateForm_password_rule (f : SignupFormData) (accountType : String) :
    (objGet (validateFormErrors f accountType) "password" = none ↔
      (8 ≤ jsLength f.password ∧
       (∃ c ∈ f.password.data, 65 ≤ c.toNat ∧ c.toNat ≤ 90) ∧
       (∃ c ∈ f.password.data, 97 ≤ c.toNat ∧ c.toNat ≤ 122) ∧
       (∃ c ∈ f.password.data, 48 ≤ c.toNat ∧ c.toNat ≤ 57) ∧
       (∃ c ∈ f.password.data, c.toNat ∈ specialCharCodes))) ∧
    (f.password ≠ "" → unmetRequirements f.password ≠ [] →
      objGet (validateFormErrors f accountType) "password" =
        some (.str ("Password must contain " ++
          String.intercalate ", " (unmetRequirements f.password)))) := by
  have hmeet : unmetRequirements f.password = [] ↔
      (8 ≤ jsLength f.password ∧
       (∃ c ∈ f.password.data, 65 ≤ c.toNat ∧ c.toNat ≤ 90) ∧
       (∃ c ∈ f.password.data, 97 ≤ c.toNat ∧ c.toNat ≤ 122) ∧
       (∃ c ∈ f.password.data, 48 ≤ c.toNat ∧ c.toNat ≤ 57) ∧
       (∃ c ∈ f.password.data, c.toNat ∈ specialCharCodes)) := by
    rw [unmetRequirements_eq_nil_iff]
    simp [hasUppercase, hasLowercase, hasDigit, hasSpecial, List.any_eq_true]
  rw [objGet_validateFormErrors_password, passwordErrors_eq_unmet]
  constructor
  · rw [← hmeet]
    by_cases he : f.password.data.isEmpty = true
    · have hne : ¬ unmetRequirements f.password = [] := by
        intro h
        have h8 := ((unmetRequirements_eq_nil_iff f.password).1 h).1
        rw [jsLength_pos_of_nonempty f.password h8] at he
        exact absurd he (by decide)
      simp [he, hne]
    · cases hu : unmetRequirements f.password <;> simp [he]
  · intro hne hun
    have he : ¬ f.password.data.isEmpty = true := fun h => hne ((data_isEmpty_iff _).1 h)
    have hl : (unmetRequirements f.password).length > 0 := List.length_pos.2 hun
    rw [if_neg he, if_pos hl]

theorem validateForm_password_rule_witness :
    (objGet (validateFormErrors { sampleSignupForm with password := "secret" } "client")
        "password" = none ↔
      (8 ≤ jsLength "secret" ∧
       (∃ c ∈ ("secret" : String).data, 65 ≤ c.toNat ∧ c.toNat ≤ 90) ∧
       (∃ c ∈ ("secret" : String).data, 97 ≤ c.toNat ∧ c.toNat ≤ 122) ∧
       (∃ c ∈ ("secret" : String).data, 48 ≤ c.toNat ∧ c.toNat ≤ 57) ∧
       (∃ c ∈ ("secret" : String).data, c.toNat ∈ specialCharCodes))) ∧
    (("secret" : String) ≠ "" → unmetRequirements "secret" ≠ [] →
      objGet (validateFormErrors { sampleSignupForm with password := "secret" } "client")
        "password" =
        some (.str ("Password must contain " ++
          String.intercalate ", " (unmetRequirements "secret")))) :=
  validateForm_password_rule { sampleSignupForm with password := "secret" } "client"

/-! ## Signature modal -/

/-- The invariant of the modal: a stored signature file has an allowed type. -/
theorem handleFileChange_allowed (file : Option SigFile) (f : SigFile)
    (h : SignatureEffect.setSignatureFile f ∈ handleFileChange file) :
    f.type ∈ allowedSignatureTypes := by
  cases file with
  | none => simp [handleFileChange] at h
  | some g =>
    by_cases hc : g.type ∈ allowedSignatureTypes
    · have hfg : f = g := by simpa [handleFileChange, hc] using h
      rw [hfg]
      exact hc
    · simp [handleFileChange, hc] at h

theorem handleAddSignature_effects (s : SignatureModalState) (response : Except JsVal JsVal) :
    (∀ f, SignatureEffect.setSignatureFile f ∉ handleAddSignature s response) ∧
    (∀ url f, SignatureEffect.post url f ∈ handleAddSignature s response →
      s.signatureFile = some f) := by
  unfold handleAddSignature
  cases hf : s.signatureFile with
  | none => simp
  | some file =>
    cases hb : isBlank s.partyName
    · cases response with
      | error e => simp
      | ok url =>
        cases hu : truthy url <;> simp [hu, eq_comm]
    · simp

theorem foldl_applySignatureEffect_file (es : List SignatureEffect) :
    ∀ (s : SignatureModalState) (f : SigFile),
      (es.foldl applySignatureEffect s).signatureFile = some f →
      s.signatureFile = some f ∨ SignatureEffect.setSignatureFile f ∈ es := by
  induction es with
  | nil => intro s f h; exact Or.inl h
  | cons e rest ih =>
    intro s f h
    rcases ih (applySignatureEffect s e) f h with h1 | h1
    · cases e with
      | setSignatureFile g =>
        simp only [applySignatureEffect, Option.some.injEq] at h1
        subst h1
        exact Or.inr (List.mem_cons_self _ _)
      | setPartyName v => exact Or.inl h1
      | setLoading b => exact Or.inl h1
      | toastError m => exact Or.inl h1
      | toastSuccess m => exact Or.inl h1
      | post u g => exact Or.inl h1
      | onSignatureAdded m n => exact Or.inl h1
      | onClose => exact Or.inl h1
      | consoleError m => exact Or.inl h1
    · exact Or.inr (List.mem_cons_of_mem _ h1)

theorem runSignatureModal_invariant (events : List SignatureEvent) :
    ∀ (s : SignatureModalState),
      (∀ f, s.signatureFile = some f → f.type ∈ allowedSignatureTypes) →
      (∀ f, (runSignatureModal s events).1.signatureFile = some f →
        f.type ∈ allowedSignatureTypes) ∧
      (∀ url f, SignatureEffect.post url f ∈ (runSignatureModal s events).2 →
        f.type ∈ allowedSignatureTypes) := by
  induction events with
  | nil =>
    intro s hs
    exact ⟨fun f h => hs f h, fun url f h => by simp [runSignatureModal] at h⟩
  | cons ev rest ih =>
    intro s hs
    have hnext : ∀ f, ((signatureEventEffects s ev).foldl applySignatureEffect s).signatureFile
        = some f → f.type ∈ allowedSignatureTypes := by
      intro f h
      rcases foldl_applySignatureEffect_file _ s f h with h1 | h1
      · exact hs f h1
      · cases ev with
        | fileChange file => exact handleFileChange_allowed file f h1
        | partyNameChange v => simp [signatureEventEffects] at h1
        | addSignature response =>
          exact absurd h1 ((handleAddSignature_effects s response).1 f)
    obtain ⟨ih1, ih2⟩ := ih _ hnext
    refine ⟨fun f h => ih1 f h, ?_⟩
    intro url f h
    simp only [runSignatureModal, List.mem_append] at h
    rcases h with h | h
    · cases ev with
      | fileChange file =>
        cases file with
        | none => simp [signatureEventEffects, handleFileChange] at h
        | some g =>
          by_cases hc : g.type ∈ allowedSignatureTypes <;>
            simp [signatureEventEffects, handleFileChange, hc] at h
      | partyNameChange v => simp [signatureEventEffects] at h
      | addSignature response =>
        exact hs f ((handleAddSignature_effects s response).2 url f h)
    · exact ih2 url f h

/-- C9. Through every sequence of events of the modal, from its initial
state, the stored signature file is null or has one of the four allowed MIME
types, and every upload request carries a file of an allowed type;
`handleFileChange` stores no file of another type, and `handleAddSignature`
with no stored file sends no request. -/
theorem signatureFile_always_allowed (events : List SignatureEvent) :
    (∀ f, (runSignatureModal SignatureModalState.init events).1.signatureFile = some f →
      f.type ∈ allowedSignatureTypes) ∧
    (∀ url f,
      SignatureEffect.post url f ∈ (runSignatureModal SignatureModalState.init events).2 →
      f.type ∈ allowedSignatureTypes) ∧
    (∀ f : SigFile, f.type ∉ allowedSignatureTypes →
      handleFileChange (some f) = [.toastError (.str "Please select a PNG, JPG, or WEBP image.")]) ∧
    (∀ (s : SignatureModalState) (response : Except JsVal JsVal), s.signatureFile = none →
      ∀ url f, SignatureEffect.post url f ∉ handleAddSignature s response) := by
  obtain ⟨h1, h2⟩ := runSignatureModal_invariant events SignatureModalState.init
    (by intro f h; simp [SignatureModalState.init] at h)
  refine ⟨h1, h2, ?_, ?_⟩
  · intro f hf
    simp [handleFileChange, hf]
  · intro s response hs url f h
    have := (handleAddSignature_effects s response).2 url f h
    rw [hs] at this
    cases this

/-! ## Authentication context -/

theorem getItem_removeItem_self (st : LocalStorage) (key : String) :
    (st.removeItem key).getItem key = none := by
  induction st with
  | nil => rfl
  | cons kv rest ih =>
    obtain ⟨k, v⟩ := kv
    have ih2 : LocalStorage.getItem (List.filter (fun kv => kv.1 != key) rest) key = none := ih
    by_cases h : k = key
    · simp [LocalStorage.removeItem, List.filter_cons, h, ih2]
    · simp [LocalStorage.removeItem, List.filter_cons, h, LocalStorage.getItem, ih2]

theorem getItem_removeItem_ne (st : LocalStorage) (k key : String) (h : k ≠ key) :
    (st.removeItem k).getItem key = st.getItem key := by
  induction st with
  | nil => rfl
  | cons kv rest ih =>
    obtain ⟨k', v⟩ := kv
    have ih2 : LocalStorage.getItem (List.filter (fun kv => kv.1 != k) rest) key
        = LocalStorage.getItem rest key := ih
    by_cases h1 : k' = k
    · subst h1
      simp [LocalStorage.removeItem, List.filter_cons, LocalStorage.getItem, h, ih2]
    · simp [LocalStorage.removeItem, List.filter_cons, h1, LocalStorage.getItem, ih2]

theorem getItem_setItem (st : LocalStorage) (k key value : String) :
    (st.setItem k value).getItem key = if k = key then some value else st.getItem key := by
  induction st with
  | nil => simp [LocalStorage.setItem, LocalStorage.getItem]
  | cons kv rest ih =>
    obtain ⟨k', v'⟩ := kv
    by_cases h1 : k' = k
    · subst h1
      by_cases h2 : k' = key <;> simp [LocalStorage.setItem, LocalStorage.getItem, h2]
    · by_cases h2 : k = key
      · subst h2
        simp [LocalStorage.setItem, LocalStorage.getItem, h1, ih]
      · simp [LocalStorage.setItem, LocalStorage.getItem, h1, h2, ih]

theorem applyAuthEffects_logout (s : AuthState) (storage : LocalStorage) (postOk : Bool) :
    applyAuthEffects s (logout storage postOk) =
      { user := .null, isAuthenticated := false, loading := false,
        localStorage := (s.localStorage.removeItem "access_token").removeItem "refresh_token" } := by
  unfold logout
  cases storage.getItem "refresh_token" with
  | none => simp [applyAuthEffects, applyAuthEffect]
  | some t =>
    by_cases ht : t = ""
    · simp [applyAuthEffects, applyAuthEffect, ht]
    · cases postOk <;> simp [applyAuthEffects, applyAuthEffect, ht]

/-- C11. After `logout`, whether the logout request resolved, was rejected, or
was not sent because no refresh token was stored, neither `access_token` nor
`refresh_token` is in local storage, `user` is null, `isAuthenticated` is
false and `loading` is false. -/
theorem logout_clears_session (s : AuthState) (postOk : Bool) :
    (applyAuthEffects s (logout s.localStorage postOk)).localStorage.getItem "access_token"
      = none ∧
    (applyAuthEffects s (logout s.localStorage postOk)).localStorage.getItem "refresh_token"
      = none ∧
    (applyAuthEffects s (logout s.localStorage postOk)).user = .null ∧
    (applyAuthEffects s (logout s.localStorage postOk)).isAuthenticated = false ∧
    (applyAuthEffects s (logout s.localStorage postOk)).loading = false := by
  rw [applyAuthEffects_logout]
  refine ⟨?_, ?_, rfl, rfl, rfl⟩
  · show LocalStorage.getItem
      ((s.localStorage.removeItem "access_token").removeItem "refresh_token") "access_token" = none
    rw [getItem_removeItem_ne _ _ _ (by decide), getItem_removeItem_self]
  · exact getItem_removeItem_self _ _

/-- C12. With a stored, non-empty access token and a failing profile request,
`loadUser` sends that one request and afterwards neither token is in local
storage, `user` is null and `isAuthenticated` is false; with no access token
stored, `loadUser` performs no effect: no request, no state change. -/
theorem loadUser_clears_on_failure (s : AuthState) (response : Except Unit JsData) :
    (∀ token, s.localStorage.getItem "access_token" = some token → token ≠ "" →
      AuthEffect.getProfile "/api/auth/profile/" ("Bearer " ++ token)
        ∈ loadUser s.localStorage (.error ()) ∧
      (applyAuthEffects s (loadUser s.localStorage (.error ()))).localStorage.getItem
        "access_token" = none ∧
      (applyAuthEffects s (loadUser s.localStorage (.error ()))).localStorage.getItem
        "refresh_token" = none ∧
      (applyAuthEffects s (loadUser s.localStorage (.error ()))).user = .null ∧
      (applyAuthEffects s (loadUser s.localStorage (.error ()))).isAuthenticated = false) ∧
    (s.localStorage.getItem "access_token" = none →
      loadUser s.localStorage response = [] ∧
      applyAuthEffects s (loadUser s.localStorage response) = s) := by
  constructor
  · intro token h1 h2
    have hs : applyAuthEffects s (loadUser s.localStorage (.error ())) =
        { user := .null, isAuthenticated := false, loading := false,
          localStorage :=
            (s.localStorage.removeItem "access_token").removeItem "refresh_token" } := by
      simp [loadUser, h1, h2, applyAuthEffects, applyAuthEffect]
    rw [hs]
    refine ⟨by simp [loadUser, h1, h2], ?_, ?_, rfl, rfl⟩
    · show LocalStorage.getItem
        ((s.localStorage.removeItem "access_token").removeItem "refresh_token")
        "access_token" = none
      rw [getItem_removeItem_ne _ _ _ (by decide), getItem_removeItem_self]
    · exact getItem_removeItem_self _ _
  · intro h
    simp [loadUser, h, applyAuthEffects]

theorem loadUser_clears_on_failure_witness :
    (sampleSession.localStorage.getItem "access_token" = some "aaa" ∧ ("aaa" : String) ≠ "") ∧
    (AuthEffect.getProfile "/api/auth/profile/" ("Bearer " ++ "aaa")
        ∈ loadUser sampleSession.localStorage (.error ()) ∧
      (applyAuthEffects sampleSession
        (loadUser sampleSession.localStorage (.error ()))).localStorage.getItem
        "access_token" = none ∧
      (applyAuthEffects sampleSession
        (loadUser sampleSession.localStorage (.error ()))).localStorage.getItem
        "refresh_token" = none ∧
      (applyAuthEffects sampleSession (loadUser sampleSession.localStorage (.error ()))).user
        = .null ∧
      (applyAuthEffects sampleSession
        (loadUser sampleSession.localStorage (.error ()))).isAuthenticated = false) ∧
    (sampleSignedOut.localStorage.getItem "access_token" = none ∧
      loadUser sampleSignedOut.localStorage (.ok .null) = [] ∧
      applyAuthEffects sampleSignedOut (loadUser sampleSignedOut.localStorage (.ok .null))
        = sampleSignedOut) :=
  ⟨⟨by decide, by decide⟩,
   (loadUser_clears_on_failure sampleSession (.error ())).1 "aaa" (by decide) (by decide),
   by decide,
   (loadUser_clears_on_failure sampleSignedOut (.ok .null)).2 (by decide)⟩

theorem prop_of_not_truthy (d : JsData) (key : String) (h : d.truthy = false) :
    d.prop key = .undefined := by
  cases d <;> simp_all [JsData.truthy, JsData.prop]

theorem truthy_undefined : JsData.truthy .undefined = false := rfl

theorem login_not_sent (email password : String) (outcome : LoginOutcome)
    (h : email = "" ∨ password = "") :
    login email password outcome =
      ([.setLoading true, .toastError (.str "Please provide both email and password."),
        .setLoading false], false) := by
  have hc : (email = "" || password = "") = true := by
    rcases h with h | h <;> simp [h]
  simp only [login]
  rw [if_pos hc]

theorem login_resolved (email password : String) (data : JsData)
    (he : email ≠ "") (hp : password ≠ "") :
    ((login email password (.resolved data)).2 = loginAccepted data) ∧
    (loginAccepted data = true →
      (login email password (.resolved data)).1 =
        [.setLoading true, .postLogin "/api/auth/login/" email password,
          .setItem "access_token" ((data.prop "tokens").prop "access"),
          .setItem "refresh_token" ((data.prop "tokens").prop "refresh"),
          .setUser (data.prop "user"),
          .setIsAuthenticated true,
          .toastSuccess (.str "Login successful!"),
          .navigate (loginRedirect (data.prop "user") (data.prop "redirect")) .undefined,
          .setLoading false]) ∧
    (loginAccepted data = false →
      ∀ e ∈ (login email password (.resolved data)).1, e.keepsSession = true) := by
  have hc : ¬ (email = "" || password = "") = true := by simp [he, hp]
  have key : ∀ d : JsData, d ≠ .undefined → d ≠ .null →
      login email password (.resolved d) =
        if (d.prop "requires_verification").truthy then
          ([.setLoading true, .postLogin "/api/auth/login/" email password,
            .toastSuccess (d.prop "message"),
            .navigate "/verify-otp" (d.prop "email"),
            .setLoading false], false)
        else if !(d.prop "tokens").truthy || !((d.prop "tokens").prop "access").truthy
            || !((d.prop "tokens").prop "refresh").truthy then
          ([.setLoading true, .postLogin "/api/auth/login/" email password,
            .toastError (.str "Invalid response from server. Please try again."),
            .setLoading false], false)
        else
          ([.setLoading true, .postLogin "/api/auth/login/" email password,
            .setItem "access_token" ((d.prop "tokens").prop "access"),
            .setItem "refresh_token" ((d.prop "tokens").prop "refresh"),
            .setUser (d.prop "user"),
            .setIsAuthenticated true,
            .toastSuccess (.str "Login successful!"),
            .navigate (loginRedirect (d.prop "user") (d.prop "redirect")) .undefined,
            .setLoading false], true) := by
    intro d h1 h2
    cases d <;> first | exact absurd rfl h1 | exact absurd rfl h2 | (simp only [login]; rw [if_neg hc])
  by_cases hu : data = .undefined
  · subst hu
    simp [login, he, hp, loginAccepted, JsData.prop, JsData.truthy, AuthEffect.keepsSession]
  by_cases hn : data = .null
  · subst hn
    simp [login, he, hp, loginAccepted, JsData.prop, JsData.truthy, AuthEffect.keepsSession]
  rw [key data hu hn]
  cases hv : (data.prop "requires_verification").truthy
  · cases ht : (data.prop "tokens").truthy
    · have hpa := prop_of_not_truthy (data.prop "tokens") "access" ht
      simp [loginAccepted, hv, ht, hpa, truthy_undefined, AuthEffect.keepsSession]
    · cases ha : ((data.prop "tokens").prop "access").truthy <;>
      cases hr : ((data.prop "tokens").prop "refresh").truthy <;>
      simp [loginAccepted, hv, ht, ha, hr, AuthEffect.keepsSession]
  · simp [loginAccepted, hv, AuthEffect.keepsSession]

theorem applyAuthEffects_keepsSession (es : List AuthEffect) :
    ∀ (s : AuthState), (∀ e ∈ es, e.keepsSession = true) →
      (applyAuthEffects s es).localStorage = s.localStorage ∧
      (applyAuthEffects s es).user = s.user ∧
      (applyAuthEffects s es).isAuthenticated = s.isAuthenticated := by
  induction es with
  | nil => intro s _; exact ⟨rfl, rfl, rfl⟩
  | cons e rest ih =>
    intro s h
    have he := h e (List.mem_cons_self _ _)
    have hrest := ih (applyAuthEffect s e) (fun x hx => h x (List.mem_cons_of_mem _ hx))
    have hstep : (applyAuthEffect s e).localStorage = s.localStorage ∧
        (applyAuthEffect s e).user = s.user ∧
        (applyAuthEffect s e).isAuthenticated = s.isAuthenticated := by
      cases e <;> simp_all [applyAuthEffect, AuthEffect.keepsSession]
    simp only [applyAuthEffects, List.foldl_cons] at hrest ⊢
    exact ⟨hrest.1.trans hstep.1, hrest.2.1.trans hstep.2.1, hrest.2.2.trans hstep.2.2⟩

theorem keepsSession_not_setItem (e : AuthEffect) (h : e.keepsSession = true) :
    e.isSetItem = false := by
  cases e <;> simp_all [AuthEffect.keepsSession, AuthEffect.isSetItem]

theorem login_false_keepsSession (email password : String) (outcome : LoginOutcome)
    (h : (login email password outcome).2 = false) :
    ∀ e ∈ (login email password outcome).1, e.keepsSession = true := by
  by_cases hc : email = "" ∨ password = ""
  · rw [login_not_sent email password outcome hc]
    simp [AuthEffect.keepsSession]
  · have he : email ≠ "" := fun e => hc (Or.inl e)
    have hp : password ≠ "" := fun e => hc (Or.inr e)
    have hcb : ¬ (email = "" || password = "") = true := by simp [he, hp]
    cases outcome with
    | resolved data =>
      have hr := login_resolved email password data he hp
      rw [hr.1] at h
      exact hr.2.2 h
    | rejectedWithResponse data =>
      simp only [login]; rw [if_neg hcb]; simp [AuthEffect.keepsSession]
    | rejectedNoResponse =>
      simp only [login]; rw [if_neg hcb]; simp [AuthEffect.keepsSession]
    | rejectedOther =>
      simp only [login]; rw [if_neg hcb]; simp [AuthEffect.keepsSession]

/-- C13. `login` returns true exactly when email and password are non-empty and
the request resolved with a body that does not require verification and
carries both `tokens.access` and `tokens.refresh`; then both tokens are in
local storage afterwards and `isAuthenticated` is true. Whenever it returns
false it performs no `setItem` and leaves local storage, `user` and
`isAuthenticated` as they were; with an empty email or password it sends no
request. -/
theorem login_result (s : AuthState) (email password : String) (outcome : LoginOutcome) :
    ((login email password outcome).2 = true ↔
      (email ≠ "" ∧ password ≠ "" ∧
        ∃ data, outcome = .resolved data ∧ loginAccepted data = true)) ∧
    (∀ data, email ≠ "" → password ≠ "" → outcome = .resolved data →
      loginAccepted data = true →
      (applyAuthEffects s (login email password outcome).1).localStorage.getItem "access_token"
        = some ((data.prop "tokens").prop "access").toJsString ∧
      (applyAuthEffects s (login email password outcome).1).localStorage.getItem "refresh_token"
        = some ((data.prop "tokens").prop "refresh").toJsString ∧
      (applyAuthEffects s (login email password outcome).1).isAuthenticated = true) ∧
    ((login email password outcome).2 = false →
      (∀ e ∈ (login email password outcome).1, e.isSetItem = false) ∧
      (applyAuthEffects s (login email password outcome).1).localStorage = s.localStorage ∧
      (applyAuthEffects s (login email password outcome).1).user = s.user ∧
      (applyAuthEffects s (login email password outcome).1).isAuthenticated
        = s.isAuthenticated) ∧
    ((email = "" ∨ password = "") →
      ∀ e ∈ (login email password outcome).1, e.isRequest = false) := by
  refine ⟨?_, ?_, ?_, ?_⟩
  · constructor
    · intro h
      by_cases hc : email = "" ∨ password = ""
      · rw [login_not_sent email password outcome hc] at h
        exact absurd h (by simp)
      · have he : email ≠ "" := fun e => hc (Or.inl e)
        have hp : password ≠ "" := fun e => hc (Or.inr e)
        have hcb : ¬ (email = "" || password = "") = true := by simp [he, hp]
        cases outcome with
        | resolved data =>
          rw [(login_resolved email password data he hp).1] at h
          exact ⟨he, hp, data, rfl, h⟩
        | rejectedWithResponse data =>
          simp only [login] at h; rw [if_neg hcb] at h; exact absurd h (by simp)
        | rejectedNoResponse =>
          simp only [login] at h; rw [if_neg hcb] at h; exact absurd h (by simp)
        | rejectedOther =>
          simp only [login] at h; rw [if_neg hcb] at h; exact absurd h (by simp)
    · rintro ⟨he, hp, data, ho, ha⟩
      rw [ho, (login_resolved email password data he hp).1]
      exact ha
  · intro data he hp ho ha
    rw [ho, (login_resolved email password data he hp).2.1 ha]
    refine ⟨?_, ?_, rfl⟩
    · show LocalStorage.getItem (LocalStorage.setItem (LocalStorage.setItem _ _ _) _ _) _ = _
      rw [getItem_setItem, if_neg (by decide), getItem_setItem, if_pos rfl]
    · show LocalStorage.getItem (LocalStorage.setItem (LocalStorage.setItem _ _ _) _ _) _ = _
      rw [getItem_setItem, if_pos rfl]
  · intro h
    have hk := login_false_keepsSession email password outcome h
    exact ⟨fun e he => keepsSession_not_setItem e (hk e he),
      applyAuthEffects_keepsSession _ s hk⟩
  · intro hc
    rw [login_not_sent email password outcome hc]
    simp [AuthEffect.isRequest]

theorem login_result_witness :
    ((login "ann@example.org" "Secret12!" (.resolved sampleLoginData)).2 = true ↔
      (("ann@example.org" : String) ≠ "" ∧ ("Secret12!" : String) ≠ "" ∧
        ∃ data, LoginOutcome.resolved sampleLoginData = .resolved data ∧
          loginAccepted data = true)) ∧
    (∀ data, ("ann@example.org" : String) ≠ "" → ("Secret12!" : String) ≠ "" →
      LoginOutcome.resolved sampleLoginData = .resolved data →
      loginAccepted data = true →
      (applyAuthEffects sampleSignedOut
        (login "ann@example.org" "Secret12!" (.resolved sampleLoginData)).1).localStorage.getItem
          "access_token" = some ((data.prop "tokens").prop "access").toJsString ∧
      (applyAuthEffects sampleSignedOut
        (login "ann@example.org" "Secret12!" (.resolved sampleLoginData)).1).localStorage.getItem
          "refresh_token" = some ((data.prop "tokens").prop "refresh").toJsString ∧
      (applyAuthEffects sampleSignedOut
        (login "ann@example.org" "Secret12!" (.resolved sampleLoginData)).1).isAuthenticated
          = true) ∧
    ((login "ann@example.org" "Secret12!" (.resolved sampleLoginData)).2 = false →
      (∀ e ∈ (login "ann@example.org" "Secret12!" (.resolved sampleLoginData)).1,
        e.isSetItem = false) ∧
      (applyAuthEffects sampleSignedOut
        (login "ann@example.org" "Secret12!" (.resolved sampleLoginData)).1).localStorage
          = sampleSignedOut.localStorage ∧
      (applyAuthEffects sampleSignedOut
        (login "ann@example.org" "Secret12!" (.resolved sampleLoginData)).1).user
          = sampleSignedOut.user ∧
      (applyAuthEffects sampleSignedOut
        (login "ann@example.org" "Secret12!" (.resolved sampleLoginData)).1).isAuthenticated
          = sampleSignedOut.isAuthenticated) ∧
    ((("ann@example.org" : String) = "" ∨ ("Secret12!" : String) = "") →
      ∀ e ∈ (login "ann@example.org" "Secret12!" (.resolved sampleLoginData)).1,
        e.isRequest = false) :=
  login_result sampleSignedOut "ann@example.org" "Secret12!" (.resolved sampleLoginData)

/-- C14, at the failing input. A signup form that passes validation, answered
with an error response whose body reports the field `phone`: `handleSubmit`
stores the message under `errors.phone` and shows no toast, and `phone` is not
among the fields whose error the form renders. -/
theorem signup_error_on_unrendered_field :
    Signup.handleSubmit sampleValidSignupForm "client"
        (.rejectedWithResponse samplePhoneErrorBody) =
      [.preventDefault, .setErrors [], .setLoading true, .setErrors [],
       .post "/api/auth/signup/" sampleValidSignupForm "client",
       .consoleError "Signup error:",
       .setErrors [("phone", .str "Enter a valid phone number.")],
       .setLoading false] ∧
    "phone" ∉ renderedErrorFields := by
  refine ⟨?_, by decide⟩
  have hv : validateFormErrors sampleValidSignupForm "client" = [] := by rfl
  simp [Signup.handleSubmit, Signup.validateForm, hv, handleErrorResponse, samplePhoneErrorBody,
    JsData.truthy, JsData.typeofObject, JsData.prop, objGet, hasFieldErrors, JsData.entries,
    JsData.isArray, collectFieldErrors, objSet, JsData.first]

/-! ## Lawyer connection request -/

/-- C18, at the failing input. With a lawyer user id, a contact value and a
valid preferred time but an empty message, `handleConnect` of both pages shows
the toast `Please fill out all fields.` and sends no request. -/
theorem handleConnect_empty_message_rejected :
    truthy (.num 7) = true ∧ sampleToIso "2026-01-05T10:00" = some "2026-01-05T10:00:00.000Z" ∧
    LawyerConnect.handleConnect (.num 7) (.str "me@example.org") sampleToIso ""
        "ann@example.org" "2026-01-05T10:00" (.resolved (.obj []))
      = [.toastError (.str "Please fill out all fields.")] ∧
    LawyerProfile.handleConnect (.num 7) (.str "me@example.org") sampleToIso ""
        "ann@example.org" "2026-01-05T10:00" (.resolved (.obj []))
      = [.toastError (.str "Please fill out all fields.")] ∧
    LawyerConnect.handleConnect (.num 7) (.str "me@example.org") sampleToIso "hello"
        "ann@example.org" "2026-01-05T10:00" (.resolved (.obj []))
      = [.post "api/lawyer/7/connect/" "hello" "email" (.str "ann@example.org")
           "2026-01-05T10:00:00.000Z",
         .toastSuccess (.str "Connection request sent!"),
         .setIsModalOpen false] := by
  exact ⟨rfl, by decide, rfl, rfl, rfl⟩

/-- C19, at the failing input. A PNG of 20 MiB, over the 10MB the modal
announces, is stored by `handleFileChange` like any other PNG, and the next
`handleAddSignature` uploads it. -/
theorem big_signature_is_stored_and_uploaded :
    10 * 1024 * 1024 < sampleBigPng.size ∧
    handleFileChange (some sampleBigPng) = [.setSignatureFile sampleBigPng] ∧
    (runSignatureModal SignatureModalState.init
        [.fileChange (some sampleBigPng), .partyNameChange "Bob",
         .addSignature (.ok (.str "/media/scan.png"))]).2
      = [.setSignatureFile sampleBigPng, .setPartyName "Bob", .setLoading true,
         .post "api/utils/upload-signature/" sampleBigPng,
         .onSignatureAdded "![Signature for Bob](/media/scan.png)" "Bob",
         .toastSuccess "Signature uploaded successfully!", .onClose, .setLoading false] := by
  refine ⟨by decide, by decide, by decide⟩

/-! ## Loading a conversation -/

theorem getLast?_mem {α : Type} (l : List α) (a : α) (h : l.getLast? = some a) : a ∈ l := by
  cases l with
  | nil => simp at h
  | cons x xs =>
    rw [List.getLast?_eq_getLast _ (by simp)] at h
    cases h
    exact List.getLast_mem _

theorem pickVersion_mem (versions : List DocumentVersion) (latest : DocumentVersion)
    (versionToLoad : Option String) (h : versions.getLast? = some latest) :
    (pickVersion versions latest versionToLoad).2 ∈ versions := by
  have hl := getLast?_mem versions latest h
  unfold pickVersion
  cases versionToLoad with
  | none => exact hl
  | some requested =>
    by_cases he : requested = ""
    · simpa [he] using hl
    · simp only [he, if_false]
      cases hf : versions.find? (versionMatches requested) with
      | none => exact hl
      | some specific => exact List.mem_of_find?_eq_some hf

theorem afterFetch_eq (s : EditorState) (idToFetch : JsVal) (versionToLoad : Option String)
    (toHtml : String → String) (conversation : Conversation) (hid : truthy idToFetch = true) :
    afterFetch s idToFetch versionToLoad toHtml conversation =
      match (conversation.document_versions.getD []).getLast? with
      | some latest =>
        { s with
          title := conversation.title.getD ""
          messages := conversation.messages.getD []
          documentSharedWithUsers := conversation.shared_with_users.getD []
          finalDocument := .str (convertMarkdownToHtml toHtml
            (pickVersion (conversation.document_versions.getD []) latest versionToLoad).2.content)
          currentVersion :=
            (pickVersion (conversation.document_versions.getD []) latest
              versionToLoad).2.version_number
          originalDocumentContent := .str (convertMarkdownToHtml toHtml
            (pickVersion (conversation.document_versions.getD []) latest versionToLoad).2.content) }
      | none =>
        { s with
          title := conversation.title.getD ""
          messages := conversation.messages.getD []
          documentSharedWithUsers := conversation.shared_with_users.getD []
          finalDocument := .str ""
          currentVersion := .null
          originalDocumentContent := .str "" } := by
  unfold afterFetch fetchConversation
  cases hl : (conversation.document_versions.getD []).getLast? with
  | none => simp [hid, hl, applyEditorEffects, applyEditorEffect]
  | some latest =>
    cases hp : (pickVersion (conversation.document_versions.getD []) latest versionToLoad).1 <;>
      simp [hid, hl, hp, applyEditorEffects, applyEditorEffect]

/-- C15. After a `fetchConversation` that resolved, the title, messages,
shared-user list, document content, current version and snapshot do not depend
on the state before: two runs on the same response and version parameter from
two prior states agree on these six cells. Content and snapshot are equal;
with a non-empty version list both are the HTML conversion of the content of
the loaded version, which is one of the listed versions, and with no version
both are the empty string. -/
theorem fetchConversation_overwrites (s1 s2 : EditorState) (idToFetch : JsVal)
    (versionToLoad : Option String) (toHtml : String → String) (conversation : Conversation)
    (hid : truthy idToFetch = true) :
    ((afterFetch s1 idToFetch versionToLoad toHtml conversation).title
        = (afterFetch s2 idToFetch versionToLoad toHtml conversation).title ∧
     (afterFetch s1 idToFetch versionToLoad toHtml conversation).messages
        = (afterFetch s2 idToFetch versionToLoad toHtml conversation).messages ∧
     (afterFetch s1 idToFetch versionToLoad toHtml conversation).documentSharedWithUsers
        = (afterFetch s2 idToFetch versionToLoad toHtml conversation).documentSharedWithUsers ∧
     (afterFetch s1 idToFetch versionToLoad toHtml conversation).finalDocument
        = (afterFetch s2 idToFetch versionToLoad toHtml conversation).finalDocument ∧
     (afterFetch s1 idToFetch versionToLoad toHtml conversation).currentVersion
        = (afterFetch s2 idToFetch versionToLoad toHtml conversation).currentVersion ∧
     (afterFetch s1 idToFetch versionToLoad toHtml conversation).originalDocumentContent
        = (afterFetch s2 idToFetch versionToLoad toHtml conversation).originalDocumentContent) ∧
    (afterFetch s1 idToFetch versionToLoad toHtml conversation).finalDocument
      = (afterFetch s1 idToFetch versionToLoad toHtml conversation).originalDocumentContent ∧
    (∀ latest, (conversation.document_versions.getD []).getLast? = some latest →
      ∃ v ∈ conversation.document_versions.getD [],
        (afterFetch s1 idToFetch versionToLoad toHtml conversation).finalDocument
          = .str (convertMarkdownToHtml toHtml v.content) ∧
        (afterFetch s1 idToFetch versionToLoad toHtml conversation).currentVersion
          = v.version_number) ∧
    ((conversation.document_versions.getD []).getLast? = none →
      (afterFetch s1 idToFetch versionToLoad toHtml conversation).finalDocument = .str "") := by
  rw [afterFetch_eq s1 _ _ _ _ hid, afterFetch_eq s2 _ _ _ _ hid]
  cases hl : (conversation.document_versions.getD []).getLast? with
  | none => simp
  | some latest =>
    refine ⟨⟨rfl, rfl, rfl, rfl, rfl, rfl⟩, rfl, ?_, by simp⟩
    intro l hl2
    cases hl2
    exact ⟨_, pickVersion_mem _ latest versionToLoad hl, rfl, rfl⟩

theorem fetchConversation_overwrites_witness :
    truthy (.str "42") = true ∧
    (((afterFetch sampleNewDocument (.str "42") (some "0") sampleToHtml sampleConversation).title
        = (afterFetch sampleSavedDocument (.str "42") (some "0") sampleToHtml
            sampleConversation).title ∧
     (afterFetch sampleNewDocument (.str "42") (some "0") sampleToHtml sampleConversation).messages
        = (afterFetch sampleSavedDocument (.str "42") (some "0") sampleToHtml
            sampleConversation).messages ∧
     (afterFetch sampleNewDocument (.str "42") (some "0") sampleToHtml
          sampleConversation).documentSharedWithUsers
        = (afterFetch sampleSavedDocument (.str "42") (some "0") sampleToHtml
            sampleConversation).documentSharedWithUsers ∧
     (afterFetch sampleNewDocument (.str "42") (some "0") sampleToHtml
          sampleConversation).finalDocument
        = (afterFetch sampleSavedDocument (.str "42") (some "0") sampleToHtml
            sampleConversation).finalDocument ∧
     (afterFetch sampleNewDocument (.str "42") (some "0") sampleToHtml
          sampleConversation).currentVersion
        = (afterFetch sampleSavedDocument (.str "42") (some "0") sampleToHtml
            sampleConversation).currentVersion ∧
     (afterFetch sampleNewDocument (.str "42") (some "0") sampleToHtml
          sampleConversation).originalDocumentContent
        = (afterFetch sampleSavedDocument (.str "42") (some "0") sampleToHtml
            sampleConversation).originalDocumentContent) ∧
    (afterFetch sampleNewDocument (.str "42") (some "0") sampleToHtml
        sampleConversation).finalDocument
      = (afterFetch sampleNewDocument (.str "42") (some "0") sampleToHtml
          sampleConversation).originalDocumentContent ∧
    (∀ latest, (sampleConversation.document_versions.getD []).getLast? = some latest →
      ∃ v ∈ sampleConversation.document_versions.getD [],
        (afterFetch sampleNewDocument (.str "42") (some "0") sampleToHtml
            sampleConversation).finalDocument
          = .str (convertMarkdownToHtml sampleToHtml v.content) ∧
        (afterFetch sampleNewDocument (.str "42") (some "0") sampleToHtml
            sampleConversation).currentVersion = v.version_number) ∧
    ((sampleConversation.document_versions.getD []).getLast? = none →
      (afterFetch sampleNewDocument (.str "42") (some "0") sampleToHtml
          sampleConversation).finalDocument = .str "")) :=
  ⟨by decide,
   fetchConversation_overwrites sampleNewDocument sampleSavedDocument (.str "42") (some "0")
     sampleToHtml sampleConversation (by decide)⟩

/-! ## Chat history -/

theorem dropLast_append_getLast? {α : Type} (l : List α) (a : α) (h : l.getLast? = some a) :
    l.dropLast ++ [a] = l := by
  cases l with
  | nil => simp at h
  | cons x xs =>
    rw [List.getLast?_eq_getLast _ (by simp)] at h
    cases h
    exact List.dropLast_append_getLast (by simp)

theorem chatStreamUpdater_dropLast (chunk : String) (prev : List ChatMessage) :
    prev.dropLast <+: chatStreamUpdater chunk prev ∧
      prev.length ≤ (chatStreamUpdater chunk prev).length := by
  unfold chatStreamUpdater
  cases hl : prev.getLast? with
  | none =>
    have : prev = [] := List.getLast?_eq_none_iff.1 hl
    subst this
    simp
  | some last =>
    have hd := dropLast_append_getLast? prev last hl
    have hlen : prev.length = prev.dropLast.length + 1 := by
      conv_lhs => rw [← hd]
      simp
    by_cases hb : last.sender = "bot"
    · simp only [hb, if_true]
      refine ⟨List.prefix_append _ _, ?_⟩
      simp only [List.length_append, List.length_singleton]
      omega
    · simp only [hb, if_false]
      refine ⟨(List.dropLast_prefix prev).trans (List.prefix_append _ _), ?_⟩
      simp

theorem chatStreamUpdater_prefix (chunk : String) (prev : List ChatMessage)
    (h : ∀ last, prev.getLast? = some last → last.sender ≠ "bot") :
    prev <+: chatStreamUpdater chunk prev := by
  unfold chatStreamUpdater
  cases hl : prev.getLast? with
  | none => exact List.prefix_append _ _
  | some last =>
    have hb := h last hl
    simp only [hb, if_false]
    exact List.prefix_append _ _

theorem removeMessage_sublist (id : JsVal) (prev : List AnalyzerMessage) :
    (removeMessage id prev).Sublist prev :=
  List.filter_sublist prev

/-- C16, as stated, fails for two of the updates it names. The `chat_stream`
update of the editor rewrites the last message when that is a bot message, so
the previous list is not a prefix of the new one; the failure-path update of
the analyzer removes the optimistic user message, so the list gets shorter. -/
theorem chat_history_not_append_only :
    chatStreamUpdater "lo" sampleChat
      = [{ sender := "user", text := "q" }, { sender := "bot", text := "hello" }] ∧
    ¬ (sampleChat <+: chatStreamUpdater "lo" sampleChat) ∧
    removeMessage (.num 5) [sampleUserMessage] = [] ∧
    ¬ ([sampleUserMessage] <+: removeMessage (.num 5) [sampleUserMessage]) := by
  refine ⟨by decide, by decide, rfl, ?_⟩
  have h : removeMessage (.num 5) [sampleUserMessage] = [] := rfl
  rw [h]
  simp

/-- C16, amended. The update of the editor's send handler and the appending
updates of the analyzer's `handleSendMessage` (the user message, the answer)
have the previous list as a prefix of the new list. The `chat_stream` update
of the editor keeps every message but the last and never shortens the list;
it has the previous list as a prefix when that list is empty or ends with a
message that is not from the bot. The only other update, in the failure path
of the analyzer, removes the messages with the id of the optimistic user
message and adds none. -/
theorem chat_history_updates :
    (∀ (fd : JsVal) (data : SocketData) (f : List ChatMessage → List ChatMessage),
      EditorEffect.setMessages f ∈ onmessage fd data →
      f = chatStreamUpdater data.chunk) ∧
    (∀ (chunk : String) (prev : List ChatMessage),
      prev.dropLast <+: chatStreamUpdater chunk prev ∧
      prev.length ≤ (chatStreamUpdater chunk prev).length) ∧
    (∀ (chunk : String) (prev : List ChatMessage),
      (∀ last, prev.getLast? = some last → last.sender ≠ "bot") →
      prev <+: chatStreamUpdater chunk prev) ∧
    (∀ (s : EditorState) (id : JsVal) (wsOpen : Bool) (response : Except Unit JsVal)
        (f : List ChatMessage → List ChatMessage),
      EditorEffect.setMessages f ∈ DocumentCreation.handleSendMessage s id wsOpen response →
      ∀ prev, prev <+: f prev) ∧
    (∀ (s : AnalyzerState) (now1 now2 : Int) (time1 time2 : String) (response : JsData)
        (f : List AnalyzerMessage → List AnalyzerMessage),
      AnalyzerEffect.setChatHistory f ∈
        DocumentAnalyzer.handleSendMessage s now1 now2 time1 time2 (.resolved response) →
      ∀ prev, prev <+: f prev) ∧
    (∀ (s : AnalyzerState) (now1 now2 : Int) (time1 time2 : String) (e1 e2 : JsData)
        (f : List AnalyzerMessage → List AnalyzerMessage),
      AnalyzerEffect.setChatHistory f ∈
        DocumentAnalyzer.handleSendMessage s now1 now2 time1 time2 (.rejected e1 e2) →
      (∀ prev, prev <+: f prev) ∨
        (f = removeMessage (.num now1) ∧ ∀ prev, (f prev).Sublist prev)) := by
  refine ⟨?_, chatStreamUpdater_dropLast, chatStreamUpdater_prefix, ?_, ?_, ?_⟩
  · intro fd data f h
    unfold onmessage at h
    split_ifs at h <;> simp at h
    exact h
  · intro s id wsOpen response f h prev
    unfold DocumentCreation.handleSendMessage at h
    split_ifs at h
    · simp at h
    · cases response <;> simp at h
    · simp at h
    · simp at h
      subst h
      exact List.prefix_append _ _
  · intro s now1 now2 time1 time2 response f h prev
    unfold DocumentAnalyzer.handleSendMessage at h
    split_ifs at h
    · simp at h
    · simp at h
      rcases h with h | ⟨_, h⟩
      · subst h; exact List.prefix_append _ _
      · subst h; exact List.prefix_append _ _
  · intro s now1 now2 time1 time2 e1 e2 f h
    unfold DocumentAnalyzer.handleSendMessage at h
    split_ifs at h
    · simp at h
    · simp at h
      rcases h with h | h
      · subst h; exact Or.inl (fun prev => List.prefix_append _ _)
      · subst h; exact Or.inr ⟨rfl, fun prev => removeMessage_sublist _ prev⟩

/-! ## Socket URL -/

/-- C17. For every document id, page protocol, hostname and stored access
token, the comment feed and the editor build the same socket URL, the one the
claim describes: `wss:` exactly for the page protocol `https:` and `ws:`
otherwise, port 8000, path `/ws/document/<id>/`, and `?token=<token>` appended
exactly when a non-empty access token is stored; with a truthy id the editor's
effect opens that URL. -/
theorem wsUrl_same (pageProtocol hostname : String) (id : JsVal) (accessToken : Option String) :
    CommentList.wsUrl pageProtocol hostname id accessToken
      = DocumentCreation.wsUrl pageProtocol hostname id accessToken ∧
    DocumentCreation.wsUrl pageProtocol hostname id accessToken
      = specWsUrl pageProtocol hostname (jsToString id) accessToken ∧
    (truthy id = true →
      DocumentCreation.wsConnect pageProtocol hostname id accessToken
        = some (CommentList.wsUrl pageProtocol hostname id accessToken)) := by
  have h1 : CommentList.wsUrl pageProtocol hostname id accessToken
      = DocumentCreation.wsUrl pageProtocol hostname id accessToken := by
    unfold CommentList.wsUrl DocumentCreation.wsUrl
    cases accessToken with
    | none => simp [String.append_assoc]
    | some token =>
      by_cases ht : token = "" <;> simp [ht, String.append_assoc]
  refine ⟨h1, ?_, ?_⟩
  · unfold DocumentCreation.wsUrl specWsUrl wsProtocol
    cases accessToken with
    | none => simp [String.append_assoc]
    | some token =>
      by_cases ht : token = "" <;> simp [ht, String.append_assoc]
  · intro ht
    rw [h1]
    simp [DocumentCreation.wsConnect, ht]

theorem wsUrl_same_witness :
    CommentList.wsUrl "https:" "example.org" (.str "42") (some "tok")
      = DocumentCreation.wsUrl "https:" "example.org" (.str "42") (some "tok") ∧
    DocumentCreation.wsUrl "https:" "example.org" (.str "42") (some "tok")
      = specWsUrl "https:" "example.org" (jsToString (.str "42")) (some "tok") ∧
    (truthy (.str "42") = true →
      DocumentCreation.wsConnect "https:" "example.org" (.str "42") (some "tok")
        = some (CommentList.wsUrl "https:" "example.org" (.str "42") (some "tok"))) :=
  wsUrl_same "https:" "example.org" (.str "42") (some "tok")

/-! ## Document analyzer -/

theorem removeMessage_append_new (id : JsVal) (h : List AnalyzerMessage) (m : AnalyzerMessage)
    (hm : m.id = id) (hid : ∀ x ∈ h, x.id ≠ id) :
    removeMessage id (h ++ [m]) = h := by
  unfold removeMessage
  rw [List.filter_append]
  have h1 : List.filter (fun x => !strictEq x.id id) h = h := by
    apply List.filter_eq_self.2
    intro x hx
    have := (strictEq_false_iff x.id id).2 (hid x hx)
    simp [this]
  have h2 : List.filter (fun x => !strictEq x.id id) [m] = [] := by
    have := (strictEq_iff m.id id).2 hm
    simp [this]
  rw [h1, h2, List.append_nil]

/-- C20. When a chat message is sent in the analyzer (message not blank,
session id present) and the request fails, and no message of the history has
the id of the new user message, the history afterwards is the history before,
the error cell holds the error text, which is not empty, and `loading` is
false. With a blank message or no session id `handleSendMessage` performs no
effect: nothing is sent and the state stays as it was. -/
theorem analyzer_send_failure (s : AnalyzerState) (now1 now2 : Int) (time1 time2 : String)
    (e1 e2 : JsData) (outcome : SendOutcome) :
    (isBlank s.chatMessage = false → truthy s.sessionId = true →
      (∀ m ∈ s.chatHistory, m.id ≠ .num now1) →
      (applyAnalyzerEffects s
        (DocumentAnalyzer.handleSendMessage s now1 now2 time1 time2
          (.rejected e1 e2))).chatHistory = s.chatHistory ∧
      (applyAnalyzerEffects s
        (DocumentAnalyzer.handleSendMessage s now1 now2 time1 time2 (.rejected e1 e2))).error
        = (if e1.truthy then e1 else if e2.truthy then e2
           else .str "Failed to send message") ∧
      (applyAnalyzerEffects s
        (DocumentAnalyzer.handleSendMessage s now1 now2 time1 time2
          (.rejected e1 e2))).error.truthy = true ∧
      (applyAnalyzerEffects s
        (DocumentAnalyzer.handleSendMessage s now1 now2 time1 time2 (.rejected e1 e2))).loading
        = false) ∧
    ((isBlank s.chatMessage = true ∨ truthy s.sessionId = false) →
      DocumentAnalyzer.handleSendMessage s now1 now2 time1 time2 outcome = [] ∧
      applyAnalyzerEffects s
        (DocumentAnalyzer.handleSendMessage s now1 now2 time1 time2 outcome) = s) := by
  constructor
  · intro hb hs hid
    have hrm := removeMessage_append_new (.num now1) s.chatHistory
      { id := .num now1, sender := "User", message := .str (jsTrim s.chatMessage),
        timestamp := time1 } rfl hid
    have hst : applyAnalyzerEffects s
        (DocumentAnalyzer.handleSendMessage s now1 now2 time1 time2 (.rejected e1 e2)) =
        { sessionId := s.sessionId, chatMessage := "", chatHistory := s.chatHistory,
          loading := false,
          error := (if e1.truthy then e1 else if e2.truthy then e2
                    else .str "Failed to send message") } := by
      simp [DocumentAnalyzer.handleSendMessage, hb, hs, applyAnalyzerEffects,
        applyAnalyzerEffect, hrm]
    rw [hst]
    refine ⟨rfl, rfl, ?_, rfl⟩
    show JsData.truthy (if e1.truthy then e1 else if e2.truthy then e2
      else .str "Failed to send message") = true
    cases h1 : e1.truthy
    · cases h2 : e2.truthy
      · simp [JsData.truthy]
      · simp [h2]
    · simp [h1]
  · intro h
    have hc : (isBlank s.chatMessage || !truthy s.sessionId) = true := by
      rcases h with h | h <;> simp [h]
    simp [DocumentAnalyzer.handleSendMessage, hc, applyAnalyzerEffects]

theorem analyzer_send_failure_witness :
    (isBlank sampleAnalyzerState.chatMessage = false ∧
      truthy sampleAnalyzerState.sessionId = true ∧
      (∀ m ∈ sampleAnalyzerState.chatHistory, m.id ≠ .num 777)) ∧
    ((applyAnalyzerEffects sampleAnalyzerState
        (DocumentAnalyzer.handleSendMessage sampleAnalyzerState 777 778 "10:01:00" "10:01:02"
          (.rejected .undefined (.str "Network Error")))).chatHistory
        = sampleAnalyzerState.chatHistory ∧
      (applyAnalyzerEffects sampleAnalyzerState
        (DocumentAnalyzer.handleSendMessage sampleAnalyzerState 777 778 "10:01:00" "10:01:02"
          (.rejected .undefined (.str "Network Error")))).error
        = (if JsData.truthy .undefined then .undefined
           else if (JsData.str "Network Error").truthy then .str "Network Error"
           else .str "Failed to send message") ∧
      (applyAnalyzerEffects sampleAnalyzerState
        (DocumentAnalyzer.handleSendMessage sampleAnalyzerState 777 778 "10:01:00" "10:01:02"
          (.rejected .undefined (.str "Network Error")))).error.truthy = true ∧
      (applyAnalyzerEffects sampleAnalyzerState
        (DocumentAnalyzer.handleSendMessage sampleAnalyzerState 777 778 "10:01:00" "10:01:02"
          (.rejected .undefined (.str "Network Error")))).loading = false) :=
  ⟨⟨by decide, by decide, by simp [sampleAnalyzerState]⟩,
   (analyzer_send_failure sampleAnalyzerState 777 778 "10:01:00" "10:01:02" .undefined
      (.str "Network Error") (.rejected .undefined (.str "Network Error"))).1
     (by decide) (by decide) (by simp [sampleAnalyzerState])⟩

/-! ## Comment tree: idempotence, distinct ids, frame -/

theorem allIds_append (a b : List Comment) : allIds (a ++ b) = allIds a ++ allIds b := by
  induction a with
  | nil => simp [allIds_nil]
  | cons x rest ih =>
    rw [List.cons_append, allIds_cons, allIds_cons, ih]
    simp [List.append_assoc]

theorem allIds_singleton (c : Comment) : allIds [c] = c.id :: allIds c.repliesOrEmpty := by
  rw [allIds_cons, allIds_nil, List.append_nil]

theorem withReplies_repliesOrEmpty (p : Comment) (rs : List Comment) :
    (p.withReplies rs).repliesOrEmpty = rs := by
  cases p; rfl

theorem nodeAt_append_left (l l' : List Comment) :
    ∀ (path : List Nat) (p : Comment), nodeAt l path = some p →
      nodeAt (l ++ l') path = some p
  | [], _, h => by simp [nodeAt] at h
  | [i], p, h => by
    simp only [nodeAt] at h ⊢
    have hlt : i < l.length := by
      rcases List.getElem?_eq_some.1 h with ⟨hi, _⟩
      exact hi
    rw [List.getElem?_append_left hlt]
    exact h
  | i :: j :: rest, p, h => by
    simp only [nodeAt] at h ⊢
    cases hn : l[i]? with
    | none => simp [hn] at h
    | some n =>
      have hlt : i < l.length := by
        rcases List.getElem?_eq_some.1 hn with ⟨hi, _⟩
        exact hi
      rw [List.getElem?_append_left hlt, hn]
      simpa [hn] using h

theorem nodeAt_snoc (k : Nat) :
    ∀ (path : List Nat) (l : List Comment) (p : Comment), nodeAt l path = some p →
      nodeAt l (path ++ [k]) = p.repliesOrEmpty[k]?
  | [], _, _, h => by simp [nodeAt] at h
  | [i], l, p, h => by
    simp only [nodeAt] at h
    simp [nodeAt, h]
  | i :: j :: rest, l, p, h => by
    simp only [nodeAt] at h
    cases hn : l[i]? with
    | none => simp [hn] at h
    | some n =>
      simp only [hn] at h
      have ih := nodeAt_snoc k (j :: rest) n.repliesOrEmpty p h
      simpa [nodeAt, hn] using ih

theorem mem_allIds_of_nodeAt (l : List Comment) (path : List Nat) (p : Comment)
    (h : nodeAt l path = some p) : p.id ∈ allIds l :=
  List.mem_map_of_mem _ (nodeAt_mem_allNodes path l p h)

/-- A comment that the map of `addCommentToTree` inserts is a node of the
result. -/
theorem mem_allIds_addCommentToTreeMap (t : List Comment) (c : Comment)
    (ht : truthy c.parent_comment = true) (hm : c.parent_comment ∈ allIds t) :
    c.id ∈ allIds (addCommentToTreeMap t c) := by
  obtain ⟨path, hclear⟩ := exists_clearPath t c.parent_comment hm
  obtain ⟨p, hp, _⟩ := nodeAt_of_clearPath path t c.parent_comment hclear
  have hq := nodeAt_addCommentToTreeMap c ht path t p hclear hp
  have hs := nodeAt_snoc p.repliesOrEmpty.length path _ _ hq
  rw [withReplies_repliesOrEmpty] at hs
  have hc : nodeAt (addCommentToTreeMap t c) (path ++ [p.repliesOrEmpty.length]) = some c := by
    rw [hs]
    simp
  exact mem_allIds_of_nodeAt _ _ _ hc

/-- C24. The merge of a `new_comment` payload is idempotent: merging the same
payload into the merged tree returns the merged tree, whether the payload was
a duplicate, was appended at root level, was inserted as a reply, or had a
parent reference matching no node. -/
theorem onNewComment_idempotent (t : List Comment) (c : Comment) :
    onNewComment (onNewComment t c) c = onNewComment t c := by
  by_cases he : commentExists t c.id = true
  · simp [onNewComment, he]
  · have hnew : onNewComment t c = addCommentToTree t c := by simp [onNewComment, he]
    cases ht : truthy c.parent_comment
    · have hm : addCommentToTree t c = t ++ [c] := by simp [addCommentToTree, ht]
      rw [hnew, hm]
      have hin : c.id ∈ allIds (t ++ [c]) := by
        rw [allIds_append, allIds_singleton]
        simp
      have hex : commentExists (t ++ [c]) c.id = true := (commentExists_iff_mem _ _).2 hin
      simp [onNewComment, hex]
    · rw [hnew, addCommentToTree_of_truthy t c ht]
      by_cases hm : c.parent_comment ∈ allIds t
      · have hin := mem_allIds_addCommentToTreeMap t c ht hm
        have hex : commentExists (addCommentToTreeMap t c) c.id = true :=
          (commentExists_iff_mem _ _).2 hin
        simp [onNewComment, hex]
      · rw [addCommentToTreeMap_orphan t c ht hm]
        simp [onNewComment, he, addCommentToTree, ht, addCommentToTreeMap_orphan t c ht hm]

mutual
theorem allIds_addCommentToTreeMap_perm :
    ∀ (l : List Comment) (c : Comment), truthy c.parent_comment = true →
      c.repliesOrEmpty = [] → (allIds l).Nodup → c.parent_comment ∈ allIds l →
      (allIds (addCommentToTreeMap l c)).Perm (c.id :: allIds l)
  | [], _, _, _, _, hm => by simp [allIds_nil] at hm
  | n :: rest, c, ht, hc, hd, hm => by
    rw [addCommentToTreeMap, allIds_cons, allIds_cons, addCommentToTreeAt_id]
    rw [allIds_cons, List.nodup_cons, List.nodup_append] at hd
    obtain ⟨hn1, hn2, hn3, hdisj⟩ := hd
    rw [allIds_cons] at hm
    by_cases h1 : c.parent_comment = n.id ∨ c.parent_comment ∈ allIds n.repliesOrEmpty
    · have hrest : c.parent_comment ∉ allIds rest := by
        intro hr
        rcases h1 with h1 | h1
        · exact hn1 (h1 ▸ List.mem_append_right _ hr)
        · exact hdisj h1 hr
      rw [addCommentToTreeMap_orphan rest c ht hrest]
      have hnd : (n.id :: allIds n.repliesOrEmpty).Nodup :=
        List.nodup_cons.2 ⟨fun h => hn1 (List.mem_append_left _ h), hn2⟩
      have hN := allIds_addCommentToTreeAt_perm n c ht hc hnd h1
      have h2 : (allIds (addCommentToTreeAt n c).repliesOrEmpty ++ allIds rest).Perm
          (c.id :: (allIds n.repliesOrEmpty ++ allIds rest)) := hN.append_right _
      exact (h2.cons n.id).trans (List.Perm.swap _ _ _)
    · have hrest : c.parent_comment ∈ allIds rest := by
        simp only [List.mem_cons, List.mem_append] at hm
        tauto
      have hne : c.parent_comment ≠ n.id := fun e => h1 (Or.inl e)
      have hnr : c.parent_comment ∉ allIds n.repliesOrEmpty := fun e => h1 (Or.inr e)
      rw [addCommentToTreeAt_orphan n c ht hne hnr]
      have ih := allIds_addCommentToTreeMap_perm rest c ht hc hn3 hrest
      have h2 : (allIds n.repliesOrEmpty ++ allIds (addCommentToTreeMap rest c)).Perm
          (c.id :: (allIds n.repliesOrEmpty ++ allIds rest)) :=
        (ih.append_left _).trans List.perm_middle
      exact (h2.cons n.id).trans (List.Perm.swap _ _ _)
theorem allIds_addCommentToTreeAt_perm :
    ∀ (n c : Comment), truthy c.parent_comment = true → c.repliesOrEmpty = [] →
      (n.id :: allIds n.repliesOrEmpty).Nodup →
      (c.parent_comment = n.id ∨ c.parent_comment ∈ allIds n.repliesOrEmpty) →
      (allIds (addCommentToTreeAt n c).repliesOrEmpty).Perm (c.id :: allIds n.repliesOrEmpty)
  | Comment.mk i a b t p none, c, _, hc, _, hm => by
    have e : c.parent_comment = i := by
      simpa [Comment.id, Comment.repliesOrEmpty, Comment.replies, allIds_nil] using hm
    have e2 : (Comment.mk i a b t p none).id = c.parent_comment := e.symm
    rw [addCommentToTreeAt_hit _ c e2, withReplies_repliesOrEmpty, allIds_append,
      allIds_singleton, hc, allIds_nil]
    exact List.perm_append_singleton _ _
  | Comment.mk i a b t p (some rs), c, ht, hc, hd, hm => by
    by_cases e : c.parent_comment = i
    · have e2 : (Comment.mk i a b t p (some rs)).id = c.parent_comment := e.symm
      rw [addCommentToTreeAt_hit _ c e2, withReplies_repliesOrEmpty, allIds_append,
        allIds_singleton, hc, allIds_nil]
      exact List.perm_append_singleton _ _
    · have hne : (Comment.mk i a b t p (some rs)).id ≠ c.parent_comment := fun h => e h.symm
      have hm2 : c.parent_comment ∈ allIds rs := by
        simpa [Comment.id, Comment.repliesOrEmpty, Comment.replies, e] using hm
      have hd2 : (allIds rs).Nodup := (List.nodup_cons.1 hd).2
      rw [addCommentToTreeAt_miss_replies _ c hne ht]
      exact allIds_addCommentToTreeMap_perm rs c ht hc hd2 hm2
end

theorem length_allNodes (l : List Comment) : (allNodes l).length = (allIds l).length := by
  simp [allIds]

/-- C25. For a tree with pairwise distinct ids and a payload without replies
of its own, the merged tree has pairwise distinct ids, and its number of nodes
is that of the tree or one more. -/
theorem onNewComment_keeps_ids_distinct (t : List Comment) (c : Comment)
    (hd : (allIds t).Nodup) (hc : c.repliesOrEmpty = []) :
    (allIds (onNewComment t c)).Nodup ∧
    ((allNodes (onNewComment t c)).length = (allNodes t).length ∨
      (allNodes (onNewComment t c)).length = (allNodes t).length + 1) := by
  rw [length_allNodes, length_allNodes]
  by_cases he : commentExists t c.id = true
  · have h : onNewComment t c = t := by simp [onNewComment, he]
    rw [h]
    exact ⟨hd, Or.inl rfl⟩
  · have hnew : onNewComment t c = addCommentToTree t c := by simp [onNewComment, he]
    have hnotin : c.id ∉ allIds t := fun h => he ((commentExists_iff_mem t c.id).2 h)
    have hcons : (c.id :: allIds t).Nodup := List.nodup_cons.2 ⟨hnotin, hd⟩
    rw [hnew]
    cases ht : truthy c.parent_comment
    · have hm : addCommentToTree t c = t ++ [c] := by simp [addCommentToTree, ht]
      have hp : (allIds (t ++ [c])).Perm (c.id :: allIds t) := by
        rw [allIds_append, allIds_singleton, hc, allIds_nil]
        exact List.perm_append_singleton _ _
      rw [hm]
      exact ⟨hp.nodup_iff.2 hcons, Or.inr (by simpa using hp.length_eq)⟩
    · rw [addCommentToTree_of_truthy t c ht]
      by_cases hm : c.parent_comment ∈ allIds t
      · have hp := allIds_addCommentToTreeMap_perm t c ht hc hd hm
        exact ⟨hp.nodup_iff.2 hcons, Or.inr (by simpa using hp.length_eq)⟩
      · rw [addCommentToTreeMap_orphan t c ht hm]
        exact ⟨hd, Or.inl rfl⟩

theorem onNewComment_keeps_ids_distinct_witness :
    ((allIds sampleTree).Nodup ∧ sampleReply.repliesOrEmpty = []) ∧
    ((allIds (onNewComment sampleTree sampleReply)).Nodup ∧
     ((allNodes (onNewComment sampleTree sampleReply)).length = (allNodes sampleTree).length ∨
      (allNodes (onNewComment sampleTree sampleReply)).length
        = (allNodes sampleTree).length + 1)) :=
  ⟨⟨by decide, rfl⟩, onNewComment_keeps_ids_distinct sampleTree sampleReply (by decide) rfl⟩

theorem sameOwnFields_addCommentToTreeAt (n c : Comment) :
    sameOwnFields n (addCommentToTreeAt n c) := by
  cases n with
  | mk i a b t p r =>
    cases r with
    | none =>
      by_cases hs : strictEq i c.parent_comment = true
      · rw [addCommentToTreeAt, if_pos hs]; exact ⟨rfl, rfl, rfl, rfl, rfl⟩
      · rw [addCommentToTreeAt, if_neg hs]; exact ⟨rfl, rfl, rfl, rfl, rfl⟩
    | some rs =>
      by_cases hs : strictEq i c.parent_comment = true
      · rw [addCommentToTreeAt, if_pos hs]; exact ⟨rfl, rfl, rfl, rfl, rfl⟩
      · rw [addCommentToTreeAt, if_neg hs]
        cases rs with
        | nil => exact ⟨rfl, rfl, rfl, rfl, rfl⟩
        | cons r rs' =>
          simp only [List.length_cons, Nat.zero_lt_succ, gt_iff_lt, if_true]
          exact ⟨rfl, rfl, rfl, rfl, rfl⟩

theorem replyIds_addCommentToTreeAt (n c : Comment) (ht : truthy c.parent_comment = true) :
    rootIds n.repliesOrEmpty <+: rootIds (addCommentToTreeAt n c).repliesOrEmpty := by
  by_cases h : n.id = c.parent_comment
  · rw [addCommentToTreeAt_hit n c h, withReplies_repliesOrEmpty]
    simp only [rootIds, List.map_append]
    exact List.prefix_append _ _
  · rw [addCommentToTreeAt_miss_replies n c h ht, rootIds_addCommentToTreeMap]

/-- Every position of a list keeps its node, with the same own fields and its
reply ids still in front, through the map of `addCommentToTree`. -/
theorem nodeAt_addCommentToTreeMap_frame (c : Comment) (ht : truthy c.parent_comment = true) :
    ∀ (path : List Nat) (l : List Comment) (p : Comment), nodeAt l path = some p →
      ∃ q, nodeAt (addCommentToTreeMap l c) path = some q ∧ sameOwnFields p q ∧
        rootIds p.repliesOrEmpty <+: rootIds q.repliesOrEmpty
  | [], _, _, h => by simp [nodeAt] at h
  | [i], l, p, h => by
    simp only [nodeAt] at h
    refine ⟨addCommentToTreeAt p c, ?_, sameOwnFields_addCommentToTreeAt p c,
      replyIds_addCommentToTreeAt p c ht⟩
    simp [nodeAt, addCommentToTreeMap_eq_map, List.getElem?_map, h]
  | i :: j :: rest, l, p, h => by
    simp only [nodeAt] at h
    cases hn : l[i]? with
    | none => simp [hn] at h
    | some n =>
      simp only [hn] at h
      have hstep : nodeAt (addCommentToTreeMap l c) (i :: j :: rest)
          = nodeAt (addCommentToTreeAt n c).repliesOrEmpty (j :: rest) := by
        simp [nodeAt, addCommentToTreeMap_eq_map, List.getElem?_map, hn]
      rw [hstep]
      by_cases hid : n.id = c.parent_comment
      · rw [addCommentToTreeAt_hit n c hid, withReplies_repliesOrEmpty]
        exact ⟨p, nodeAt_append_left _ _ _ _ h, ⟨rfl, rfl, rfl, rfl, rfl⟩,
          List.prefix_refl _⟩
      · rw [addCommentToTreeAt_miss_replies n c hid ht]
        exact nodeAt_addCommentToTreeMap_frame c ht (j :: rest) n.repliesOrEmpty p h

/-- C26. The merge loses and moves no comment: every node of the tree, at its
position, is found at the same position of the merged tree (so under the same
parent and in the same order among its siblings) with the same id, author,
content, timestamp and parent reference; its replies are still the first
replies it has, in their order, and the root comments are still the first
root comments, in their order. -/
theorem onNewComment_frame (t : List Comment) (c : Comment) (path : List Nat) (p : Comment)
    (h : nodeAt t path = some p) :
    (∃ q, nodeAt (onNewComment t c) path = some q ∧ sameOwnFields p q ∧
      rootIds p.repliesOrEmpty <+: rootIds q.repliesOrEmpty) ∧
    rootIds t <+: rootIds (onNewComment t c) := by
  have hself : (∃ q, nodeAt t path = some q ∧ sameOwnFields p q ∧
      rootIds p.repliesOrEmpty <+: rootIds q.repliesOrEmpty) ∧ rootIds t <+: rootIds t :=
    ⟨⟨p, h, ⟨rfl, rfl, rfl, rfl, rfl⟩, List.prefix_refl _⟩, List.prefix_refl _⟩
  by_cases he : commentExists t c.id = true
  · have hm : onNewComment t c = t := by simp [onNewComment, he]
    rw [hm]
    exact hself
  · have hnew : onNewComment t c = addCommentToTree t c := by simp [onNewComment, he]
    rw [hnew]
    cases ht : truthy c.parent_comment
    · have hm : addCommentToTree t c = t ++ [c] := by simp [addCommentToTree, ht]
      rw [hm]
      refine ⟨⟨p, nodeAt_append_left _ _ _ _ h, ⟨rfl, rfl, rfl, rfl, rfl⟩,
        List.prefix_refl _⟩, ?_⟩
      simp only [rootIds, List.map_append]
      exact List.prefix_append _ _
    · rw [addCommentToTree_of_truthy t c ht]
      refine ⟨nodeAt_addCommentToTreeMap_frame c ht path t p h, ?_⟩
      rw [rootIds_addCommentToTreeMap]

theorem onNewComment_frame_witness :
    nodeAt sampleTree [0, 0] = some sampleNode ∧
    ((∃ q, nodeAt (onNewComment sampleTree sampleReply) [0, 0] = some q ∧
        sameOwnFields sampleNode q ∧
        rootIds sampleNode.repliesOrEmpty <+: rootIds q.repliesOrEmpty) ∧
     rootIds sampleTree <+: rootIds (onNewComment sampleTree sampleReply)) :=
  ⟨rfl, onNewComment_frame sampleTree sampleReply [0, 0] sampleNode rfl⟩

/-! ## Signup: field errors of the server -/

theorem objGet_eq_none_of_not_mem (o : JsObject) (key : String)
    (h : key ∉ o.map Prod.fst) : objGet o key = none := by
  induction o with
  | nil => rfl
  | cons kv rest ih =>
    obtain ⟨k, v⟩ := kv
    simp only [List.map_cons, List.mem_cons, not_or] at h
    have hk : ¬ k = key := fun e => h.1 e.symm
    simp [objGet, hk, ih h.2]

theorem objGet_foldl_fieldErrors (entries : List (String × JsData)) :
    ∀ (acc : JsObject) (key : String), (entries.map Prod.fst).Nodup →
      objGet (entries.foldl
        (fun fieldErrors kv =>
          if kv.2.isArray then objSet fieldErrors kv.1 kv.2.first
          else if kv.2.typeofString then objSet fieldErrors kv.1 kv.2
          else fieldErrors) acc) key
        = match (objGet entries key).bind fieldErrorOf with
          | some e => some e
          | none => objGet acc key := by
  induction entries with
  | nil => intro acc key _; simp [objGet]
  | cons kv rest ih =>
    intro acc key hd
    obtain ⟨k, v⟩ := kv
    simp only [List.map_cons, List.nodup_cons] at hd
    rw [List.foldl_cons, ih _ key hd.2]
    by_cases hk : k = key
    · subst hk
      have hnone : objGet rest k = none := objGet_eq_none_of_not_mem rest k hd.1
      cases ha : v.isArray
      · cases hs : v.typeofString <;>
          simp [objGet, hnone, fieldErrorOf, ha, hs, objGet_objSet]
      · simp [objGet, hnone, fieldErrorOf, ha, objGet_objSet]
    · have hacc : objGet
          (if v.isArray then objSet acc k v.first
           else if v.typeofString then objSet acc k v else acc) key = objGet acc key := by
        split_ifs <;> simp [objGet_objSet, hk]
      simp only [objGet, hk, if_false]
      rw [hacc]

theorem objGet_collectFieldErrors (entries : List (String × JsData)) (key : String)
    (hd : (entries.map Prod.fst).Nodup) :
    objGet (collectFieldErrors entries) key = (objGet entries key).bind fieldErrorOf := by
  unfold collectFieldErrors
  rw [objGet_foldl_fieldErrors entries [] key hd]
  cases (objGet entries key).bind fieldErrorOf <;> simp [objGet]

/-- C21. For a signup request that was sent and rejected with a response whose
body is an object (keys distinct, as in every object) without a truthy `error`
and with at least one array or string value, the `errors` cell afterwards maps
every key with an array value to the first element of the array, every key
with a string value to the string, and holds no other key; no toast is
shown. -/
theorem signup_field_errors (f : SignupFormData) (accountType : String) (data : JsData)
    (errors0 : JsObject)
    (hvalid : (Signup.validateForm f accountType).2 = true)
    (hobj : data.truthy = true ∧ data.typeofObject = true)
    (hkeys : (data.entries.map Prod.fst).Nodup)
    (herr : (data.prop "error").truthy = false)
    (hsome : ∃ kv ∈ data.entries, kv.2.isArray = true ∨ kv.2.typeofString = true) :
    (∀ key,
      objGet (errorsAfter errors0
          (Signup.handleSubmit f accountType (.rejectedWithResponse data))) key
        = (objGet data.entries key).bind fieldErrorOf) ∧
    (∀ e ∈ Signup.handleSubmit f accountType (.rejectedWithResponse data),
      e.isToast = false) := by
  have hhas : hasFieldErrors data.entries = true := by
    obtain ⟨kv, hkv, h⟩ := hsome
    unfold hasFieldErrors
    rw [List.any_eq_true]
    exact ⟨kv, hkv, by simpa using h⟩
  have hresp : handleErrorResponse data = [.setErrors (collectFieldErrors data.entries)] := by
    simp [handleErrorResponse, hobj.1, hobj.2, herr, hhas]
  have hsub : Signup.handleSubmit f accountType (.rejectedWithResponse data) =
      [.preventDefault, .setErrors (validateFormErrors f accountType), .setLoading true,
       .setErrors [], .post "/api/auth/signup/" f accountType, .consoleError "Signup error:",
       .setErrors (collectFieldErrors data.entries), .setLoading false] := by
    unfold Signup.handleSubmit
    rw [hvalid]
    dsimp only
    rw [hresp]
    rfl
  rw [hsub]
  constructor
  · intro key
    simp only [errorsAfter, List.foldl_cons, List.foldl_nil]
    exact objGet_collectFieldErrors data.entries key hkeys
  · intro e he
    simp only [List.mem_cons, List.mem_singleton, List.not_mem_nil, or_false] at he
    rcases he with h | h | h | h | h | h | h | h <;> rw [h] <;> rfl

theorem signup_field_errors_witness :
    ((Signup.validateForm sampleValidSignupForm "client").2 = true ∧
      (sampleFieldErrorBody.truthy = true ∧ sampleFieldErrorBody.typeofObject = true) ∧
      (sampleFieldErrorBody.entries.map Prod.fst).Nodup ∧
      (sampleFieldErrorBody.prop "error").truthy = false ∧
      (∃ kv ∈ sampleFieldErrorBody.entries, kv.2.isArray = true ∨ kv.2.typeofString = true)) ∧
    ((∀ key,
      objGet (errorsAfter [("email", .str "old")]
          (Signup.handleSubmit sampleValidSignupForm "client"
            (.rejectedWithResponse sampleFieldErrorBody))) key
        = (objGet sampleFieldErrorBody.entries key).bind fieldErrorOf) ∧
    (∀ e ∈ Signup.handleSubmit sampleValidSignupForm "client"
        (.rejectedWithResponse sampleFieldErrorBody), e.isToast = false)) :=
  ⟨⟨rfl, ⟨rfl, rfl⟩, by decide, rfl,
     ⟨("username", .str "Taken."), by simp [sampleFieldErrorBody, JsData.entries], Or.inr rfl⟩⟩,
   signup_field_errors sampleValidSignupForm "client" sampleFieldErrorBody
     [("email", .str "old")] rfl ⟨rfl, rfl⟩ (by decide) rfl
     ⟨("username", .str "Taken."), by simp [sampleFieldErrorBody, JsData.entries], Or.inr rfl⟩⟩

/-! ## Password modal -/

/-- C22. `handleSubmit` of `PasswordModal` calls `onPasswordSubmit` exactly when
the two new passwords are equal, the new password has at least 8 characters
(counted as `length` counts them, in UTF-16 code units) and either the user is
in add-password mode (`auth_provider` is `google` and `has_password` is falsy)
or the current password is not blank. Otherwise it calls neither
`onPasswordSubmit` nor `onOpenChange`. After every path `passwordSaving` is
false. -/
theorem passwordModal_submit (form : PasswordForm) (user : PasswordUser) (submitOk : Bool) :
    ((∃ e ∈ PasswordModal.handleSubmit form user submitOk, e.isSubmit = true) ↔
      (form.new_password = form.new_password2 ∧ 8 ≤ jsLength form.new_password ∧
        ((user.auth_provider = .str "google" ∧ truthy user.has_password = false) ∨
          isBlank form.current_password = false))) ∧
    (¬ (form.new_password = form.new_password2 ∧ 8 ≤ jsLength form.new_password ∧
        ((user.auth_provider = .str "google" ∧ truthy user.has_password = false) ∨
          isBlank form.current_password = false)) →
      ∀ e ∈ PasswordModal.handleSubmit form user submitOk,
        e.isSubmit = false ∧ e.isOpenChange = false) ∧
    (∀ passwordSaving : Bool,
      (PasswordModal.handleSubmit form user submitOk).foldl applyPasswordModalEffect
        passwordSaving = false) := by
  have hmode : isAddPasswordMode user = true ↔
      (user.auth_provider = .str "google" ∧ truthy user.has_password = false) := by
    unfold isAddPasswordMode
    rw [Bool.and_eq_true, strictEq_iff]
    simp
  obtain ⟨cur, np, np2⟩ := form
  dsimp only
  by_cases h1 : np = np2
  · subst h1
    by_cases h2 : jsLength np < 8
    · have h2' : ¬ 8 ≤ jsLength np := by omega
      simp [PasswordModal.handleSubmit, h2, h2', PasswordModalEffect.isSubmit,
        PasswordModalEffect.isOpenChange, applyPasswordModalEffect]
    · have h2' : 8 ≤ jsLength np := by omega
      cases hm : isAddPasswordMode user
      · have hm' : ¬ (user.auth_provider = .str "google" ∧ truthy user.has_password = false) :=
          fun h => by rw [hmode.2 h] at hm; exact absurd hm (by decide)
        cases hb : isBlank cur <;> cases submitOk <;>
          simp [PasswordModal.handleSubmit, h2, h2', hm, hm', hb,
            PasswordModalEffect.isSubmit, PasswordModalEffect.isOpenChange,
            applyPasswordModalEffect]
      · have hm' := hmode.1 hm
        cases submitOk <;>
          simp [PasswordModal.handleSubmit, h2, h2', hm, hm',
            PasswordModalEffect.isSubmit, PasswordModalEffect.isOpenChange,
            applyPasswordModalEffect]
  · simp [PasswordModal.handleSubmit, h1, PasswordModalEffect.isSubmit,
      PasswordModalEffect.isOpenChange, applyPasswordModalEffect]

theorem passwordModal_submit_witness :
    ((∃ e ∈ PasswordModal.handleSubmit samplePasswordForm sampleEmailUser true,
        e.isSubmit = true) ↔
      (samplePasswordForm.new_password = samplePasswordForm.new_password2 ∧
        8 ≤ jsLength samplePasswordForm.new_password ∧
        ((sampleEmailUser.auth_provider = .str "google" ∧
            truthy sampleEmailUser.has_password = false) ∨
          isBlank samplePasswordForm.current_password = false))) ∧
    (¬ (samplePasswordForm.new_password = samplePasswordForm.new_password2 ∧
        8 ≤ jsLength samplePasswordForm.new_password ∧
        ((sampleEmailUser.auth_provider = .str "google" ∧
            truthy sampleEmailUser.has_password = false) ∨
          isBlank samplePasswordForm.current_password = false)) →
      ∀ e ∈ PasswordModal.handleSubmit samplePasswordForm sampleEmailUser true,
        e.isSubmit = false ∧ e.isOpenChange = false) ∧
    (∀ passwordSaving : Bool,
      (PasswordModal.handleSubmit samplePasswordForm sampleEmailUser true).foldl
        applyPasswordModalEffect passwordSaving = false) :=
  passwordModal_submit samplePasswordForm sampleEmailUser true

/-! ## One-time codes -/

theorem isAsciiDigit_iff (c : Char) :
    isAsciiDigit c = true ↔ (48 ≤ c.toNat ∧ c.toNat ≤ 57) := by
  simp [isAsciiDigit]

/-- C23. The code that `VerifyOtp` and `ResetPassword` store for a typed text
is the same string: it holds digits 0 to 9 only, has at most 6 characters, and
is the first six digits of the typed text in their order; `ResetPassword`
changes no other field of its form; sanitising a stored code again returns
it. -/
theorem otp_sanitised (value : String) (formData : ResetFormData) :
    (ResetPassword.onOtpCodeChange formData value).otp_code = VerifyOtp.onOtpChange value ∧
    (ResetPassword.onOtpCodeChange formData value).new_password = formData.new_password ∧
    (ResetPassword.onOtpCodeChange formData value).confirm_password
      = formData.confirm_password ∧
    (∀ c ∈ (VerifyOtp.onOtpChange value).data, 48 ≤ c.toNat ∧ c.toNat ≤ 57) ∧
    (VerifyOtp.onOtpChange value).data.length ≤ 6 ∧
    jsLength (VerifyOtp.onOtpChange value) ≤ 6 ∧
    (VerifyOtp.onOtpChange value).data
      = (value.data.filter (fun c => decide (48 ≤ c.toNat ∧ c.toNat ≤ 57))).take 6 ∧
    VerifyOtp.onOtpChange (VerifyOtp.onOtpChange value) = VerifyOtp.onOtpChange value ∧
    ResetPassword.onOtpCodeChange (ResetPassword.onOtpCodeChange formData value)
        (ResetPassword.onOtpCodeChange formData value).otp_code
      = ResetPassword.onOtpCodeChange formData value := by
  have hdata : (VerifyOtp.onOtpChange value).data = (value.data.filter isAsciiDigit).take 6 := rfl
  have hall : ∀ c ∈ (VerifyOtp.onOtpChange value).data, isAsciiDigit c = true := by
    intro c hc
    rw [hdata] at hc
    exact (List.mem_filter.1 (List.mem_of_mem_take hc)).2
  have hlen : (VerifyOtp.onOtpChange value).data.length ≤ 6 := by
    rw [hdata]
    exact List.length_take_le _ _
  have hidem : VerifyOtp.onOtpChange (VerifyOtp.onOtpChange value)
      = VerifyOtp.onOtpChange value := by
    apply String.ext
    show ((VerifyOtp.onOtpChange value).data.filter isAsciiDigit).take 6
      = (VerifyOtp.onOtpChange value).data
    rw [List.filter_eq_self.2 hall, List.take_of_length_le hlen]
  refine ⟨rfl, rfl, rfl, fun c hc => (isAsciiDigit_iff c).1 (hall c hc), hlen, ?_, ?_, hidem, ?_⟩
  · have hone : ∀ l : List Char, (∀ c ∈ l, isAsciiDigit c = true) →
        (l.map (fun c => if 65536 ≤ c.toNat then 2 else 1)).sum = l.length := by
      intro l
      induction l with
      | nil => intro _; rfl
      | cons a rest ih =>
        intro h
        have ha := (isAsciiDigit_iff a).1 (h a (List.mem_cons_self _ _))
        have hna : ¬ 65536 ≤ a.toNat := by omega
        simp only [List.map_cons, List.sum_cons, List.length_cons, hna, if_false]
        rw [ih (fun c hc => h c (List.mem_cons_of_mem _ hc))]
        omega
    unfold jsLength
    rw [hone _ hall]
    exact hlen
  · rw [hdata]
    congr 1
    apply List.filter_congr
    intro c _
    simp [isAsciiDigit]
  · show ({ formData with otp_code := VerifyOtp.onOtpChange (VerifyOtp.onOtpChange value) }
      : ResetFormData) = { formData with otp_code := VerifyOtp.onOtpChange value }
    rw [hidem]

/-! ## Streamed chat answers -/

theorem applyEditorEffects_chat_stream (s : EditorState) (chunk : String) :
    applyEditorEffects s (onmessage s.finalDocument (chatStreamData chunk))
      = { s with messages := chatStreamUpdater chunk s.messages } := by
  have h : strictEq (JsVal.str "chat_stream") (JsVal.str "chat_stream") = true := by decide
  simp [onmessage, chatStreamData, h, applyEditorEffects, applyEditorEffect]

theorem chatStreamUpdater_after_bot (chunk text : String) (m : List ChatMessage) :
    chatStreamUpdater chunk (m ++ [{ sender := "bot", text := text }])
      = m ++ [{ sender := "bot", text := text ++ chunk }] := by
  simp [chatStreamUpdater]

theorem afterChatStream_after_bot (rest : List String) :
    ∀ (s : EditorState) (m : List ChatMessage) (text : String),
      s.messages = m ++ [{ sender := "bot", text := text }] →
      afterChatStream s rest
        = { s with messages :=
              m ++ [{ sender := "bot", text := rest.foldl (fun acc c => acc ++ c) text }] } := by
  induction rest with
  | nil =>
    intro s m text h
    simp [afterChatStream, ← h]
  | cons c rest ih =>
    intro s m text h
    have hstep : afterChatStream s (c :: rest)
        = afterChatStream
            (applyEditorEffects s (onmessage s.finalDocument (chatStreamData c))) rest := rfl
    rw [hstep, applyEditorEffects_chat_stream, h, chatStreamUpdater_after_bot]
    rw [ih _ m (text ++ c) rfl]
    rfl

/-- C27. From a message list that is empty or ends with a message that is not
from the bot, handling the `chat_stream` chunks `c1`, then the rest, in order
yields the list followed by the one message `bot` with text `c1 + ... + cn`,
and changes no other cell. Whatever the list, one `chat_stream` message keeps
every message but the last and does not shorten the list. -/
theorem chat_stream_sequence (s : EditorState) (c1 : String) (rest : List String) :
    ((∀ last, s.messages.getLast? = some last → last.sender ≠ "bot") →
      afterChatStream s (c1 :: rest)
        = { s with messages :=
              s.messages ++
                [{ sender := "bot", text := rest.foldl (fun acc c => acc ++ c) c1 }] }) ∧
    (s.messages.dropLast <+:
        (applyEditorEffects s (onmessage s.finalDocument (chatStreamData c1))).messages ∧
      s.messages.length ≤
        (applyEditorEffects s (onmessage s.finalDocument (chatStreamData c1))).messages.length) := by
  constructor
  · intro h
    have hfirst : chatStreamUpdater c1 s.messages
        = s.messages ++ [{ sender := "bot", text := c1 }] := by
      unfold chatStreamUpdater
      cases hl : s.messages.getLast? with
      | none => rfl
      | some last =>
        have hb := h last hl
        simp [hb]
    have hstep : afterChatStream s (c1 :: rest)
        = afterChatStream
            (applyEditorEffects s (onmessage s.finalDocument (chatStreamData c1))) rest := rfl
    rw [hstep, applyEditorEffects_chat_stream, hfirst]
    rw [afterChatStream_after_bot rest _ s.messages c1 rfl]
  · rw [applyEditorEffects_chat_stream]
    exact chatStreamUpdater_dropLast c1 s.messages

theorem chat_stream_sequence_witness :
    ((∀ last, sampleNewDocument.messages.getLast? = some last → last.sender ≠ "bot") ∧
      afterChatStream sampleNewDocument ["Dear ", "tenant", "."]
        = { sampleNewDocument with messages :=
              sampleNewDocument.messages ++
                [{ sender := "bot",
                   text := ["tenant", "."].foldl (fun acc c => acc ++ c) "Dear " }] }) ∧
    (sampleNewDocument.messages.dropLast <+:
        (applyEditorEffects sampleNewDocument
          (onmessage sampleNewDocument.finalDocument (chatStreamData "Dear "))).messages ∧
      sampleNewDocument.messages.length ≤
        (applyEditorEffects sampleNewDocument
          (onmessage sampleNewDocument.finalDocument (chatStreamData "Dear "))).messages.length) :=
  ⟨⟨by simp [sampleNewDocument],
    (chat_stream_sequence sampleNewDocument "Dear " ["tenant", "."]).1
      (by simp [sampleNewDocument])⟩,
   (chat_stream_sequence sampleNewDocument "Dear " ["tenant", "."]).2⟩

/-! ## The version a fetch loads -/

theorem jsParseInt_empty : jsParseInt "" = none := by decide

theorem specLoadedVersion_eq_pickVersion (versions : List DocumentVersion)
    (latest : DocumentVersion) (versionToLoad : Option String)
    (h : versions.getLast? = some latest) :
    specLoadedVersion versions versionToLoad
      = some (pickVersion versions latest versionToLoad).2 := by
  unfold specLoadedVersion pickVersion
  cases versionToLoad with
  | none => simpa using h
  | some requested =>
    by_cases he : requested = ""
    · subst he
      simp [jsParseInt_empty, h]
    · simp only [Option.bind_some, he, if_false]
      cases hp : jsParseInt requested with
      | none =>
        have hf : versions.find? (versionMatches requested) = none := by
          rw [List.find?_eq_none]
          intro v _
          simp [versionMatches, hp]
        simp [hp, hf, h]
      | some n =>
        have hfun : versionMatches requested
            = fun v : DocumentVersion => decide (v.version_number = .num n) := by
          funext v
          simp only [versionMatches, hp]
          by_cases hv : v.version_number = .num n
          · simp [hv, (strictEq_iff _ _).2 rfl]
          · simp [hv, (strictEq_false_iff _ _).2 hv]
        rw [hfun]
        cases hf : versions.find? (fun v : DocumentVersion => decide (v.version_number = .num n))
          <;> simp [hp, hf, h]

/-- C28. After a `fetchConversation` that resolved with a non-empty version
list, content and snapshot are the HTML conversion of the content of the
version the claim names (the first version whose `version_number` is the
integer `parseInt` reads from the parameter, when the parameter has one and
such a version exists, otherwise the last version of the list), and
`currentVersion` is its `version_number`; such a version always exists. With
an empty or missing version list, content and snapshot are the empty string
and `currentVersion` is null. -/
theorem fetchConversation_loads_version (s : EditorState) (idToFetch : JsVal)
    (versionToLoad : Option String) (toHtml : String → String) (conversation : Conversation)
    (hid : truthy idToFetch = true) :
    (conversation.document_versions.getD [] ≠ [] →
      ∃ v, specLoadedVersion (conversation.document_versions.getD []) versionToLoad = some v ∧
        (afterFetch s idToFetch versionToLoad toHtml conversation).finalDocument
          = .str (convertMarkdownToHtml toHtml v.content) ∧
        (afterFetch s idToFetch versionToLoad toHtml conversation).originalDocumentContent
          = .str (convertMarkdownToHtml toHtml v.content) ∧
        (afterFetch s idToFetch versionToLoad toHtml conversation).currentVersion
          = v.version_number) ∧
    (conversation.document_versions.getD [] = [] →
      (afterFetch s idToFetch versionToLoad toHtml conversation).finalDocument = .str "" ∧
      (afterFetch s idToFetch versionToLoad toHtml conversation).originalDocumentContent
        = .str "" ∧
      (afterFetch s idToFetch versionToLoad toHtml conversation).currentVersion = .null) := by
  rw [afterFetch_eq s _ _ _ _ hid]
  constructor
  · intro hne
    cases hl : (conversation.document_versions.getD []).getLast? with
    | none => exact absurd (List.getLast?_eq_none_iff.1 hl) hne
    | some latest =>
      exact ⟨_, specLoadedVersion_eq_pickVersion _ latest versionToLoad hl, rfl, rfl, rfl⟩
  · intro he
    rw [he]
    exact ⟨rfl, rfl, rfl⟩

theorem fetchConversation_loads_version_witness :
    truthy (.str "42") = true ∧
    ((sampleConversation.document_versions.getD [] ≠ [] →
      ∃ v, specLoadedVersion (sampleConversation.document_versions.getD []) (some "0") = some v ∧
        (afterFetch sampleSavedDocument (.str "42") (some "0") sampleToHtml
            sampleConversation).finalDocument
          = .str (convertMarkdownToHtml sampleToHtml v.content) ∧
        (afterFetch sampleSavedDocument (.str "42") (some "0") sampleToHtml
            sampleConversation).originalDocumentContent
          = .str (convertMarkdownToHtml sampleToHtml v.content) ∧
        (afterFetch sampleSavedDocument (.str "42") (some "0") sampleToHtml
            sampleConversation).currentVersion = v.version_number) ∧
    (sampleConversation.document_versions.getD [] = [] →
      (afterFetch sampleSavedDocument (.str "42") (some "0") sampleToHtml
          sampleConversation).finalDocument = .str "" ∧
      (afterFetch sampleSavedDocument (.str "42") (some "0") sampleToHtml
          sampleConversation).originalDocumentContent = .str "" ∧
      (afterFetch sampleSavedDocument (.str "42") (some "0") sampleToHtml
          sampleConversation).currentVersion = .null)) :=
  ⟨by decide,
   fetchConversation_loads_version sampleSavedDocument (.str "42") (some "0") sampleToHtml
     sampleConversation (by decide)⟩

end LegalDocs
